import Mathlib

/-!
BlueRetro Bluetooth host: bring-up sequencer, peer slot table, classifiers.

Shallow embedding of `main/bt_host.c` and of the console detection interrupt of
`main/wired/detect.c`.  Every definition keeps the name of the C function or
object it embeds.  Conventions:

* the seven-entry array `bt_dev[7]` is a vector of length 7, indexed by `Fin 7`;
* a `struct bt_dev *` is an `Option (Fin 7)` (`none` is `NULL`), a non-null one
  a `Fin 7`; a function that reads through it also takes the table;
* a call of a command builder (`bt_hci_cmd_*`, `bt_l2cap_cmd_*`) is recorded as
  a `cmd_call` (the builder and the argument it was given); a handler returns
  the calls it made, in order;
* `bt_hci_event_handler` returns `none` when the C code dereferences `NULL`.

`struct bt_dev`, the opcode / event constants and the controller type enum are
declared in headers that are not part of the sources at hand (`bt_host.h`,
`bt_hci.h`, `adapter.h`); what is taken from them is said at each definition.
-/

namespace BlueRetro

/-! ## Data model -/

/-- Modelled from the spec: six-byte peer address (`bt_addr_t`, compared and
copied as 6 bytes by `bt_host.c`; declared in the missing `bt_hci.h`). -/
structure bt_addr_t where
  b0 : Nat
  b1 : Nat
  b2 : Nat
  b3 : Nat
  b4 : Nat
  b5 : Nat
deriving DecidableEq, Repr

/-- The all-zero address: content of a zero-filled slot. -/
def bdaddr_zero : bt_addr_t := ⟨0, 0, 0, 0, 0, 0⟩

/-- Modelled from the spec: one channel endpoint pair (local id `scid`, peer id
`dcid`), the type of `sdp_chan`, `ctrl_chan` and `intr_chan`; declared in the
missing `bt_host.h`. -/
structure l2cap_chan where
  scid : Nat
  dcid : Nat
deriving DecidableEq, Repr

/-- Modelled from the spec: `struct bt_dev` is declared in `bt_host.h`, which is
not among the sources.  The fields are those `bt_host.c` reads or writes (the
peer slot attributes of the data model); the counters `pkt_retry` and
`conn_state`, whose width the missing declaration fixes, are natural numbers. -/
structure bt_dev where
  id : Int
  flags : Nat
  pkt_retry : Nat
  remote_bdaddr : bt_addr_t
  type : Int
  acl_handle : Nat
  conn_state : Nat
  hid_state : Nat
  l2cap_ident : Nat
  sdp_chan : l2cap_chan
  ctrl_chan : l2cap_chan
  intr_chan : l2cap_chan
deriving DecidableEq, Repr

/-- Embeds `#define BT_MAX_RETRY 3`. -/
def BT_MAX_RETRY : Nat := 3

/-- Bit number of `BT_CTRL_READY` in `bt_flags`. -/
def BT_CTRL_READY : Nat := 0

/-- Bit number of `BT_DEV_DEVICE_FOUND` in `bt_dev.flags`. -/
def BT_DEV_DEVICE_FOUND : Nat := 0

/-- Bit number of `BT_DEV_PAGE` in `bt_dev.flags`. -/
def BT_DEV_PAGE : Nat := 1

/-- Modelled from the spec: value `atomic_test_bit(&flags, bit)` returns
(`zephyr/atomic.h` is not among the sources): whether flag `bit` is set. -/
def atomic_test_bit (flags bit : Nat) : Bool := flags.testBit bit

/-- Modelled from the spec: value of `flags` after `atomic_set_bit(&flags, bit)`
(`zephyr/atomic.h` is not among the sources): flag `bit` set, the others kept. -/
def atomic_set_bit (flags bit : Nat) : Nat := flags ||| (1 <<< bit)

/-- Modelled from the spec: value of `flags` after `atomic_clear_bit(&flags, bit)`
(`zephyr/atomic.h` is not among the sources): flag `bit` clear, the others kept. -/
def atomic_clear_bit (flags bit : Nat) : Nat :=
  if flags.testBit bit then flags - (1 <<< bit) else flags

/-- Modelled from the spec: `BT_NONE`, declared in the missing `bt_host.h`, is
what the handler compares the result of `bt_get_active_dev` with to learn that
no peer is active; the scan returns the literal `-1` in that case. -/
def BT_NONE : Int := -1

/-- Modelled from the spec: the controller type enum is declared in the missing
`adapter.h`; the values are the positions the comments of `bt_hipd_conf` give
(`WII_CORE` first).  The base Wii remote. -/
def WII_CORE : Int := 0

/-- Modelled from the spec: second entry of `bt_hipd_conf` (see `WII_CORE`). -/
def WII_NUNCHUCK : Int := 1

/-- Modelled from the spec: third entry of `bt_hipd_conf` (see `WII_CORE`). -/
def WII_CLASSIC : Int := 2

/-- Modelled from the spec: fourth entry of `bt_hipd_conf` (see `WII_CORE`). -/
def WIIU_PRO : Int := 3

/-- Modelled from the spec: fifth entry of `bt_hipd_conf` (see `WII_CORE`). -/
def SWITCH_PRO : Int := 4

/-- The table `static struct bt_dev bt_dev[7]`. -/
abbrev dev_table := Mathlib.Vector bt_dev 7

/-- A slot after `memset(device, 0, sizeof(*device))`. -/
def bt_dev_zero : bt_dev :=
  { id := 0, flags := 0, pkt_retry := 0, remote_bdaddr := bdaddr_zero, type := 0,
    acl_handle := 0, conn_state := 0, hid_state := 0, l2cap_ident := 0,
    sdp_chan := ⟨0, 0⟩, ctrl_chan := ⟨0, 0⟩, intr_chan := ⟨0, 0⟩ }

/-- The file-scope state of `bt_host.c`. -/
structure host where
  bt_pkt_retry : Nat
  bt_config_state : Nat
  bt_dev : dev_table
  local_bdaddr : bt_addr_t
  bt_flags : Nat
deriving DecidableEq

/-! ## Classification tables -/

/-- Bytes of an ASCII string literal (without the terminating NUL). -/
def c_str (s : String) : List Nat := s.toList.map Char.toNat

/-- Model of `strlen`: number of bytes before the first NUL. -/
def strlen (s : List Nat) : Nat := (s.takeWhile (fun b => b != 0)).length

/-- The test `memcmp(a, b, n) == 0`: the first `n` bytes agree. -/
def memcmp_eq (a b : List Nat) (n : Nat) : Bool := decide (a.take n = b.take n)

/-- Entry of `bt_name_type[]`. -/
structure bt_name_type_t where
  name : List Nat
  type : Int
deriving DecidableEq, Repr

/-- Entry of `bt_wii_ext_type[]`. -/
structure bt_wii_ext_type_t where
  ext_type : List Nat
  type : Int
deriving DecidableEq, Repr

/-- Embeds `const uint8_t led_dev_id_map[]` -/
def led_dev_id_map : List Nat := [0x1, 0x2, 0x4, 0x8, 0x3, 0x6, 0xC]

/-- Embeds `static const struct bt_name_type bt_name_type[]` -/
def bt_name_type : List bt_name_type_t :=
  [ ⟨c_str "Nintendo RVL-CNT-01-UC", WIIU_PRO⟩,
    ⟨c_str "Nintendo RVL-CNT-01-TR", WII_CORE⟩,
    ⟨c_str "Nintendo RVL-CNT-01", WII_CORE⟩,
    ⟨c_str "Pro Controller", SWITCH_PRO⟩ ]

/-- Embeds `static const struct bt_wii_ext_type bt_wii_ext_type[]` -/
def bt_wii_ext_type : List bt_wii_ext_type_t :=
  [ ⟨[0x00, 0x00, 0xA4, 0x20, 0x00, 0x00], WII_NUNCHUCK⟩,
    ⟨[0x00, 0x00, 0xA4, 0x20, 0x01, 0x01], WII_CLASSIC⟩,
    ⟨[0x01, 0x00, 0xA4, 0x20, 0x01, 0x01], WII_CLASSIC⟩,
    ⟨[0x00, 0x00, 0xA4, 0x20, 0x01, 0x20], WIIU_PRO⟩ ]

/-- The `for` loop of `bt_get_type_from_name` over the remaining entries. -/
def bt_get_type_from_name_loop (name : List Nat) : List bt_name_type_t → Int
  | [] => -1
  | e :: rest =>
    if memcmp_eq name e.name (strlen e.name) then e.type
    else bt_get_type_from_name_loop name rest

/-- Embeds `static int32_t bt_get_type_from_name(const uint8_t* name)` -/
def bt_get_type_from_name (name : List Nat) : Int :=
  bt_get_type_from_name_loop name bt_name_type

/-- The `for` loop of `bt_get_type_from_wii_ext` over the remaining entries;
`sizeof(bt_wii_ext_type[0].ext_type)` is 6. -/
def bt_get_type_from_wii_ext_loop (ext_type : List Nat) : List bt_wii_ext_type_t → Int
  | [] => -1
  | e :: rest =>
    if memcmp_eq ext_type e.ext_type 6 then e.type
    else bt_get_type_from_wii_ext_loop ext_type rest

/-- Embeds `static int32_t bt_get_type_from_wii_ext(const uint8_t* ext_type)` -/
def bt_get_type_from_wii_ext (ext_type : List Nat) : Int :=
  bt_get_type_from_wii_ext_loop ext_type bt_wii_ext_type

/-- Embeds `static int32_t wii_wiiu_ctrl(int8_t type)` -/
def wii_wiiu_ctrl (type : Int) : Int :=
  if type = WII_CORE ∨ type = WII_NUNCHUCK ∨ type = WII_CLASSIC ∨ type = WIIU_PRO then 1 else 0

/-! ## Slot scans -/

/-- The loop `for (uint32_t i = 0; i < 7; i++) if (p(i)) return i;`: the first
index, in increasing order, at which the test holds. -/
def scan_slots (p : Fin 7 → Bool) : Option (Fin 7) := (List.finRange 7).find? p

/-- Result of a scan as the pair the C functions produce: the returned `int32_t`
and the value left in `*device` (`device` is what the caller had there). -/
def scan_result (r : Option (Fin 7)) (device : Option (Fin 7)) : Int × Option (Fin 7) :=
  match r with
  | some i => ((i.val : Int), some i)
  | none => (-1, device)

/-- Embeds `static int32_t bt_get_new_dev(struct bt_dev **device)` -/
def bt_get_new_dev (tbl : dev_table) (device : Option (Fin 7)) : Int × Option (Fin 7) :=
  scan_result (scan_slots fun i => !atomic_test_bit (tbl.get i).flags BT_DEV_DEVICE_FOUND) device

/-- Embeds `static int32_t bt_get_active_dev(struct bt_dev **device)` -/
def bt_get_active_dev (tbl : dev_table) (device : Option (Fin 7)) : Int × Option (Fin 7) :=
  scan_result (scan_slots fun i => atomic_test_bit (tbl.get i).flags BT_DEV_DEVICE_FOUND) device

/-- Embeds `static int32_t bt_get_dev_from_bdaddr(bt_addr_t *bdaddr, struct bt_dev **device)`:
the first slot whose six address bytes equal `bdaddr` (the found flag is not
looked at). -/
def bt_get_dev_from_bdaddr (tbl : dev_table) (bdaddr : bt_addr_t) (device : Option (Fin 7)) :
    Int × Option (Fin 7) :=
  scan_result (scan_slots fun i => decide ((tbl.get i).remote_bdaddr = bdaddr)) device

/-- Embeds `static int32_t bt_get_dev_from_scid(uint16_t scid, struct bt_dev **device)`:
the returned index `scid & 0xF`; `*device` is `&bt_dev[scid & 0xF]`. -/
def bt_get_dev_from_scid (scid : Nat) : Nat := scid &&& 0xF

/-- The slot `*device` designates after `bt_get_dev_from_scid`, when the index is
inside the array. -/
def bt_get_dev_from_scid_dev (tbl : dev_table) (scid : Nat) : Option bt_dev :=
  if h : bt_get_dev_from_scid scid < 7 then some (tbl.get ⟨bt_get_dev_from_scid scid, h⟩)
  else none

/-- Embeds `static void bt_host_reset_dev(struct bt_dev *device)`: the slot content
after the `memset`. -/
def bt_host_reset_dev (_device : bt_dev) : bt_dev := bt_dev_zero

/-! ## Commands -/

/-- The three static `struct bt_hci_cp_set_event_filter` objects. -/
inductive evt_filter
  | clr_evt_filter
  | inquiry_evt_filter
  | conn_evt_filter
deriving DecidableEq, Repr

/-- Modelled from the spec: the command builders `bt_host.c` calls
(`bt_cmd_func_t` values).  They are defined in `bt_hci.c` and `bt_l2cap.c`, which
are not among the sources; a call is recorded by name, not executed. -/
inductive bt_cmd_func_t
  | bt_hci_cmd_reset
  | bt_hci_cmd_read_local_features
  | bt_hci_cmd_read_local_version_info
  | bt_hci_cmd_read_bd_addr
  | bt_hci_cmd_read_buffer_size
  | bt_hci_cmd_read_class_of_device
  | bt_hci_cmd_read_local_name
  | bt_hci_cmd_read_voice_setting
  | bt_hci_cmd_read_num_supported_iac
  | bt_hci_cmd_read_current_iac_lap
  | bt_hci_cmd_set_event_filter
  | bt_hci_cmd_write_conn_accept_timeout
  | bt_hci_cmd_read_supported_commands
  | bt_hci_cmd_write_ssp_mode
  | bt_hci_cmd_write_inquiry_mode
  | bt_hci_cmd_read_inquiry_rsp_tx_pwr_lvl
  | bt_hci_cmd_read_local_ext_features
  | bt_hci_cmd_read_stored_link_key
  | bt_hci_cmd_read_page_scan_activity
  | bt_hci_cmd_read_page_scan_type
  | bt_hci_cmd_write_le_host_supp
  | bt_hci_cmd_delete_stored_link_key
  | bt_hci_cmd_write_class_of_device
  | bt_hci_cmd_write_local_name
  | bt_hci_cmd_write_auth_enable
  | bt_hci_cmd_set_event_mask
  | bt_hci_cmd_write_page_scan_activity
  | bt_hci_cmd_write_inquiry_scan_activity
  | bt_hci_cmd_write_page_scan_type
  | bt_hci_cmd_write_page_scan_timeout
  | bt_hci_cmd_write_hold_mode_act
  | bt_hci_cmd_write_scan_enable
  | bt_hci_cmd_write_default_link_policy
  | bt_hci_cmd_inquiry
  | bt_hci_cmd_inquiry_cancel
  | bt_hci_cmd_connect
  | bt_hci_cmd_accept_conn_req
  | bt_hci_cmd_remote_name_request
  | bt_hci_cmd_read_remote_features
  | bt_hci_cmd_read_remote_ext_features
  | bt_hci_cmd_auth_requested
  | bt_hci_cmd_set_conn_encrypt
  | bt_l2cap_cmd_sdp_conn_req
  | bt_l2cap_cmd_hid_ctrl_conn_req
  | bt_l2cap_cmd_hid_intr_conn_req
deriving DecidableEq, Repr

/-- The `void *` argument of a command builder call: `NULL`, the address of an
event filter, `device->remote_bdaddr` (the six bytes it points to),
`&device->acl_handle` (the handle it points to), or `device` itself (the slot it
points to). -/
inductive cmd_arg
  | null
  | filter (cp : evt_filter)
  | bdaddr (a : bt_addr_t)
  | handle (h : Nat)
  | dev (device : Fin 7)
deriving DecidableEq, Repr

/-- One call `func(arg)` of a command builder. -/
structure cmd_call where
  func : bt_cmd_func_t
  arg : cmd_arg
deriving DecidableEq, Repr

/-- Embeds `struct bt_hci_cmd_cp` -/
structure bt_hci_cmd_cp where
  cmd : bt_cmd_func_t
  cp : cmd_arg
deriving DecidableEq, Repr

/-- The anonymous enum `BT_CMD_PARAM_BDADDR, BT_CMD_PARAM_HANDLE, BT_CMD_PARAM_DEV`. -/
inductive cmd_param
  | BT_CMD_PARAM_BDADDR
  | BT_CMD_PARAM_HANDLE
  | BT_CMD_PARAM_DEV
deriving DecidableEq, Repr

/-- Embeds `struct bt_hci_cmd_param` -/
structure bt_hci_cmd_param where
  cmd : bt_cmd_func_t
  param : cmd_param
deriving DecidableEq, Repr

open bt_cmd_func_t in
/-- Embeds `static struct bt_hci_cmd_cp bt_hci_config[]` (36 entries). -/
def bt_hci_config : List bt_hci_cmd_cp :=
  [ ⟨bt_hci_cmd_reset, .null⟩,
    ⟨bt_hci_cmd_read_local_features, .null⟩,
    ⟨bt_hci_cmd_read_local_version_info, .null⟩,
    ⟨bt_hci_cmd_read_bd_addr, .null⟩,
    ⟨bt_hci_cmd_read_buffer_size, .null⟩,
    ⟨bt_hci_cmd_read_class_of_device, .null⟩,
    ⟨bt_hci_cmd_read_local_name, .null⟩,
    ⟨bt_hci_cmd_read_voice_setting, .null⟩,
    ⟨bt_hci_cmd_read_num_supported_iac, .null⟩,
    ⟨bt_hci_cmd_read_current_iac_lap, .null⟩,
    ⟨bt_hci_cmd_set_event_filter, .filter .clr_evt_filter⟩,
    ⟨bt_hci_cmd_write_conn_accept_timeout, .null⟩,
    ⟨bt_hci_cmd_read_supported_commands, .null⟩,
    ⟨bt_hci_cmd_write_ssp_mode, .null⟩,
    ⟨bt_hci_cmd_write_inquiry_mode, .null⟩,
    ⟨bt_hci_cmd_read_inquiry_rsp_tx_pwr_lvl, .null⟩,
    ⟨bt_hci_cmd_read_local_ext_features, .null⟩,
    ⟨bt_hci_cmd_read_stored_link_key, .null⟩,
    ⟨bt_hci_cmd_read_page_scan_activity, .null⟩,
    ⟨bt_hci_cmd_read_page_scan_type, .null⟩,
    ⟨bt_hci_cmd_write_le_host_supp, .null⟩,
    ⟨bt_hci_cmd_delete_stored_link_key, .null⟩,
    ⟨bt_hci_cmd_write_class_of_device, .null⟩,
    ⟨bt_hci_cmd_write_local_name, .null⟩,
    ⟨bt_hci_cmd_set_event_filter, .filter .inquiry_evt_filter⟩,
    ⟨bt_hci_cmd_set_event_filter, .filter .conn_evt_filter⟩,
    ⟨bt_hci_cmd_write_auth_enable, .null⟩,
    ⟨bt_hci_cmd_set_event_mask, .null⟩,
    ⟨bt_hci_cmd_write_page_scan_activity, .null⟩,
    ⟨bt_hci_cmd_write_inquiry_scan_activity, .null⟩,
    ⟨bt_hci_cmd_write_page_scan_type, .null⟩,
    ⟨bt_hci_cmd_write_page_scan_timeout, .null⟩,
    ⟨bt_hci_cmd_write_hold_mode_act, .null⟩,
    ⟨bt_hci_cmd_write_scan_enable, .null⟩,
    ⟨bt_hci_cmd_write_default_link_policy, .null⟩,
    ⟨bt_hci_cmd_inquiry, .null⟩ ]

/-- The call `bt_hci_config[i].cmd(bt_hci_config[i].cp)`. -/
def bt_hci_cmd_cp.call (e : bt_hci_cmd_cp) : cmd_call := ⟨e.cmd, e.cp⟩

/-- Embeds `static void bt_host_config_q_cmd(void)`: the calls made when the bring-up
index is `bt_config_state`. -/
def bt_host_config_q_cmd (bt_config_state : Nat) : List cmd_call :=
  if bt_config_state < bt_hci_config.length then
    match bt_hci_config[bt_config_state]? with
    | some e => [e.call]
    | none => []
  else []

open bt_cmd_func_t cmd_param in
/-- Embeds `static struct bt_hci_cmd_param bt_dev_tx_conn[]` (9 entries). -/
def bt_dev_tx_conn : List bt_hci_cmd_param :=
  [ ⟨bt_hci_cmd_connect, BT_CMD_PARAM_BDADDR⟩,
    ⟨bt_hci_cmd_remote_name_request, BT_CMD_PARAM_BDADDR⟩,
    ⟨bt_hci_cmd_read_remote_features, BT_CMD_PARAM_HANDLE⟩,
    ⟨bt_hci_cmd_read_remote_ext_features, BT_CMD_PARAM_HANDLE⟩,
    ⟨bt_hci_cmd_auth_requested, BT_CMD_PARAM_HANDLE⟩,
    ⟨bt_hci_cmd_set_conn_encrypt, BT_CMD_PARAM_HANDLE⟩,
    ⟨bt_l2cap_cmd_sdp_conn_req, BT_CMD_PARAM_DEV⟩,
    ⟨bt_l2cap_cmd_hid_ctrl_conn_req, BT_CMD_PARAM_DEV⟩,
    ⟨bt_l2cap_cmd_hid_intr_conn_req, BT_CMD_PARAM_DEV⟩ ]

open bt_cmd_func_t cmd_param in
/-- Embeds `static struct bt_hci_cmd_param bt_dev_rx_conn[]` (1 entry). -/
def bt_dev_rx_conn : List bt_hci_cmd_param :=
  [ ⟨bt_hci_cmd_accept_conn_req, BT_CMD_PARAM_BDADDR⟩ ]

/-- The `switch` on `.param` shared by the two per-peer step executors: the
call `entry.cmd(arg)` with the argument the parameter kind selects. -/
def dev_cmd_call (e : bt_hci_cmd_param) (tbl : dev_table) (device : Fin 7) : cmd_call :=
  match e.param with
  | .BT_CMD_PARAM_BDADDR => ⟨e.cmd, .bdaddr (tbl.get device).remote_bdaddr⟩
  | .BT_CMD_PARAM_HANDLE => ⟨e.cmd, .handle (tbl.get device).acl_handle⟩
  | .BT_CMD_PARAM_DEV => ⟨e.cmd, .dev device⟩

/-- Embeds `static void bt_host_dev_tx_conn_q_cmd(struct bt_dev *device)` -/
def bt_host_dev_tx_conn_q_cmd (tbl : dev_table) (device : Fin 7) : List cmd_call :=
  if (tbl.get device).conn_state < bt_dev_tx_conn.length then
    match bt_dev_tx_conn[(tbl.get device).conn_state]? with
    | some e => [dev_cmd_call e tbl device]
    | none => []
  else []

/-- Embeds `static void bt_host_dev_rx_conn_q_cmd(struct bt_dev *device)` -/
def bt_host_dev_rx_conn_q_cmd (tbl : dev_table) (device : Fin 7) : List cmd_call :=
  if (tbl.get device).conn_state < bt_dev_rx_conn.length then
    match bt_dev_rx_conn[(tbl.get device).conn_state]? with
    | some e => [dev_cmd_call e tbl device]
    | none => []
  else []

/-- Embeds `static void bt_host_dev_conn_q_cmd(struct bt_dev *device)` -/
def bt_host_dev_conn_q_cmd (tbl : dev_table) (device : Fin 7) : List cmd_call :=
  if atomic_test_bit (tbl.get device).flags BT_DEV_PAGE then bt_host_dev_rx_conn_q_cmd tbl device
  else bt_host_dev_tx_conn_q_cmd tbl device

/-! ## Inbound HCI events -/

/-- Modelled from the spec: the 16-bit opcode of a command-complete event.  The
`BT_HCI_OP_*` constants are declared in the missing `bt_hci.h`; the ones the
handler has a `case` label for are named (a C `switch` has pairwise distinct
labels), every other value is `other raw`. -/
inductive hci_opcode
  | BT_HCI_OP_READ_BD_ADDR
  | BT_HCI_OP_RESET
  | BT_HCI_OP_READ_LOCAL_FEATURES
  | BT_HCI_OP_READ_LOCAL_VERSION_INFO
  | BT_HCI_OP_READ_BUFFER_SIZE
  | BT_HCI_OP_READ_CLASS_OF_DEVICE
  | BT_HCI_OP_READ_LOCAL_NAME
  | BT_HCI_OP_READ_VOICE_SETTING
  | BT_HCI_OP_READ_NUM_SUPPORTED_IAC
  | BT_HCI_OP_READ_CURRENT_IAC_LAP
  | BT_HCI_OP_SET_EVENT_FILTER
  | BT_HCI_OP_WRITE_CONN_ACCEPT_TIMEOUT
  | BT_HCI_OP_READ_SUPPORTED_COMMANDS
  | BT_HCI_OP_WRITE_SSP_MODE
  | BT_HCI_OP_WRITE_INQUIRY_MODE
  | BT_HCI_OP_READ_INQUIRY_RSP_TX_PWR_LVL
  | BT_HCI_OP_READ_LOCAL_EXT_FEATURES
  | BT_HCI_OP_READ_STORED_LINK_KEY
  | BT_HCI_OP_READ_PAGE_SCAN_ACTIVITY
  | BT_HCI_OP_READ_PAGE_SCAN_TYPE
  | BT_HCI_OP_LE_WRITE_LE_HOST_SUPP
  | BT_HCI_OP_DELETE_STORED_LINK_KEY
  | BT_HCI_OP_WRITE_CLASS_OF_DEVICE
  | BT_HCI_OP_WRITE_LOCAL_NAME
  | BT_HCI_OP_WRITE_AUTH_ENABLE
  | BT_HCI_OP_SET_EVENT_MASK
  | BT_HCI_OP_WRITE_PAGE_SCAN_ACTIVITY
  | BT_HCI_OP_WRITE_INQUIRY_SCAN_ACTIVITY
  | BT_HCI_OP_WRITE_PAGE_SCAN_TYPE
  | BT_HCI_OP_WRITE_PAGE_TIMEOUT
  | BT_HCI_OP_WRITE_HOLD_MODE_ACT
  | BT_HCI_OP_WRITE_SCAN_ENABLE
  | BT_HCI_OP_WRITE_DEFAULT_LINK_POLICY
  | other (raw : Nat)
deriving DecidableEq, Repr

open hci_opcode in
/-- The `case` labels of the `switch` in the error branch of
`BT_HCI_EVT_CMD_COMPLETE`, in source order. -/
def cmd_complete_error_cases : List hci_opcode :=
  [ BT_HCI_OP_READ_BD_ADDR, BT_HCI_OP_RESET, BT_HCI_OP_READ_LOCAL_FEATURES,
    BT_HCI_OP_READ_LOCAL_VERSION_INFO, BT_HCI_OP_READ_BUFFER_SIZE,
    BT_HCI_OP_READ_CLASS_OF_DEVICE, BT_HCI_OP_READ_LOCAL_NAME,
    BT_HCI_OP_READ_VOICE_SETTING, BT_HCI_OP_READ_NUM_SUPPORTED_IAC,
    BT_HCI_OP_READ_CURRENT_IAC_LAP, BT_HCI_OP_SET_EVENT_FILTER,
    BT_HCI_OP_WRITE_CONN_ACCEPT_TIMEOUT, BT_HCI_OP_READ_SUPPORTED_COMMANDS,
    BT_HCI_OP_WRITE_SSP_MODE, BT_HCI_OP_WRITE_INQUIRY_MODE,
    BT_HCI_OP_READ_INQUIRY_RSP_TX_PWR_LVL, BT_HCI_OP_READ_LOCAL_EXT_FEATURES,
    BT_HCI_OP_READ_STORED_LINK_KEY, BT_HCI_OP_READ_PAGE_SCAN_ACTIVITY,
    BT_HCI_OP_READ_PAGE_SCAN_TYPE, BT_HCI_OP_LE_WRITE_LE_HOST_SUPP,
    BT_HCI_OP_DELETE_STORED_LINK_KEY, BT_HCI_OP_WRITE_CLASS_OF_DEVICE,
    BT_HCI_OP_WRITE_LOCAL_NAME, BT_HCI_OP_WRITE_AUTH_ENABLE, BT_HCI_OP_SET_EVENT_MASK,
    BT_HCI_OP_WRITE_PAGE_SCAN_ACTIVITY, BT_HCI_OP_WRITE_INQUIRY_SCAN_ACTIVITY,
    BT_HCI_OP_WRITE_PAGE_SCAN_TYPE, BT_HCI_OP_WRITE_PAGE_TIMEOUT,
    BT_HCI_OP_WRITE_HOLD_MODE_ACT, BT_HCI_OP_WRITE_SCAN_ENABLE,
    BT_HCI_OP_WRITE_DEFAULT_LINK_POLICY ]

open hci_opcode in
/-- The `case` labels of the `switch` in the non-error branch that follow the
`BT_HCI_OP_READ_BD_ADDR` block (which falls through into them), in source order. -/
def cmd_complete_success_cases : List hci_opcode :=
  [ BT_HCI_OP_RESET, BT_HCI_OP_READ_LOCAL_FEATURES,
    BT_HCI_OP_READ_LOCAL_VERSION_INFO, BT_HCI_OP_READ_BUFFER_SIZE,
    BT_HCI_OP_READ_CLASS_OF_DEVICE, BT_HCI_OP_READ_LOCAL_NAME,
    BT_HCI_OP_READ_VOICE_SETTING, BT_HCI_OP_READ_NUM_SUPPORTED_IAC,
    BT_HCI_OP_READ_CURRENT_IAC_LAP, BT_HCI_OP_SET_EVENT_FILTER,
    BT_HCI_OP_WRITE_CONN_ACCEPT_TIMEOUT, BT_HCI_OP_READ_SUPPORTED_COMMANDS,
    BT_HCI_OP_WRITE_SSP_MODE, BT_HCI_OP_WRITE_INQUIRY_MODE,
    BT_HCI_OP_READ_INQUIRY_RSP_TX_PWR_LVL, BT_HCI_OP_READ_LOCAL_EXT_FEATURES,
    BT_HCI_OP_READ_STORED_LINK_KEY, BT_HCI_OP_READ_PAGE_SCAN_ACTIVITY,
    BT_HCI_OP_READ_PAGE_SCAN_TYPE, BT_HCI_OP_LE_WRITE_LE_HOST_SUPP,
    BT_HCI_OP_DELETE_STORED_LINK_KEY, BT_HCI_OP_WRITE_CLASS_OF_DEVICE,
    BT_HCI_OP_WRITE_LOCAL_NAME, BT_HCI_OP_WRITE_AUTH_ENABLE, BT_HCI_OP_SET_EVENT_MASK,
    BT_HCI_OP_WRITE_PAGE_SCAN_ACTIVITY, BT_HCI_OP_WRITE_INQUIRY_SCAN_ACTIVITY,
    BT_HCI_OP_WRITE_PAGE_SCAN_TYPE, BT_HCI_OP_WRITE_PAGE_TIMEOUT,
    BT_HCI_OP_WRITE_HOLD_MODE_ACT, BT_HCI_OP_WRITE_SCAN_ENABLE,
    BT_HCI_OP_WRITE_DEFAULT_LINK_POLICY ]

/-- Modelled from the spec: status byte `BT_HCI_ERR_SUCCESS` (declared in the
missing `bt_hci.h`; the HCI status of a successful command is 0x00). -/
def BT_HCI_ERR_SUCCESS : Nat := 0x00

/-- Modelled from the spec: status byte `BT_HCI_ERR_UNKNOWN_CMD` (declared in the
missing `bt_hci.h`; the HCI status "unknown command" is 0x01). -/
def BT_HCI_ERR_UNKNOWN_CMD : Nat := 0x01

/-- The three event codes that share the inquiry-result `case`. -/
inductive inquiry_result_evt
  | BT_HCI_EVT_INQUIRY_RESULT
  | BT_HCI_EVT_INQUIRY_RESULT_WITH_RSSI
  | BT_HCI_EVT_EXTENDED_INQUIRY_RESULT
deriving DecidableEq, Repr

/-- Modelled from the spec: an inbound HCI event, by the fields
`bt_hci_event_handler` reads (the event structs are declared in the missing
`bt_hci.h`).

* `INQUIRY_RESULT evt num_reports bdaddr local_bytes`: `bdaddr` lists the
  reported addresses (the six bytes at `evt_data + 1 + 6*(i-1)`).
  `local_bytes` is not event content: it is the six bytes found at
  `(uint8_t *)&inquiry_result + 1`, that is, inside and behind the handler's own
  local pointer variable, which is what the handler hands to
  `bt_get_dev_from_bdaddr` (the `memcpy` two lines below reads
  `(uint8_t *)inquiry_result + 1`, the event).
* `CONN_COMPLETE status handle bdaddr`.
* `REMOTE_NAME_REQ_COMPLETE status bdaddr name`.
* `CMD_COMPLETE opcode status rp_bdaddr`: `status` is the byte after the
  `bt_hci_evt_cmd_complete` header, `rp_bdaddr` the six bytes after it.
* `OTHER evt`: an event code the `switch` has no enabled `case` for. -/
inductive hci_evt
  | INQUIRY_COMPLETE
  | INQUIRY_RESULT (evt : inquiry_result_evt) (num_reports : Nat) (bdaddr : List bt_addr_t)
      (local_bytes : bt_addr_t)
  | CONN_COMPLETE (status : Nat) (handle : Nat) (bdaddr : bt_addr_t)
  | REMOTE_NAME_REQ_COMPLETE (status : Nat) (bdaddr : bt_addr_t) (name : List Nat)
  | CMD_COMPLETE (opcode : hci_opcode) (status : Nat) (rp_bdaddr : bt_addr_t)
  | OTHER (evt : Nat)
deriving DecidableEq, Repr

/-- The call `bt_hci_cmd_inquiry(NULL)`. -/
def inquiry_call : cmd_call := ⟨.bt_hci_cmd_inquiry, .null⟩

/-- The call `bt_hci_cmd_inquiry_cancel(NULL)`. -/
def inquiry_cancel_call : cmd_call := ⟨.bt_hci_cmd_inquiry_cancel, .null⟩

/-- The call `bt_hci_cmd_reset(NULL)`. -/
def reset_call : cmd_call := ⟨.bt_hci_cmd_reset, .null⟩

/-- The error branch shared, statement for statement, by the
`BT_HCI_EVT_CONN_COMPLETE` and `BT_HCI_EVT_REMOTE_NAME_REQ_COMPLETE` cases:
`device->pkt_retry++`, then re-issue below `BT_MAX_RETRY`, else release the slot
and restart inquiry when `bt_get_active_dev` finds nothing. -/
def dev_conn_error (s : host) (i : Fin 7) : host × List cmd_call :=
  let d := s.bt_dev.get i
  let d1 := { d with pkt_retry := d.pkt_retry + 1 }
  if d1.pkt_retry < BT_MAX_RETRY then
    ({ s with bt_dev := s.bt_dev.set i d1 }, bt_host_dev_conn_q_cmd (s.bt_dev.set i d1) i)
  else
    let tbl := s.bt_dev.set i (bt_host_reset_dev d1)
    if (bt_get_active_dev tbl (some i)).1 = BT_NONE then
      ({ s with bt_dev := tbl }, [inquiry_call])
    else
      ({ s with bt_dev := tbl }, [])

/-- Embeds `static void bt_hci_event_handler(uint8_t *data, uint16_t len)` (the code
outside `#ifdef WIP`): the new state and the command builder calls made, or
`none` when `device->id` is read through a `NULL` `device`. -/
def bt_hci_event_handler (s : host) (e : hci_evt) : Option (host × List cmd_call) :=
  match e with
  | .INQUIRY_COMPLETE =>
    if (bt_get_active_dev s.bt_dev none).1 = BT_NONE then some (s, [inquiry_call])
    else some (s, [])
  | .INQUIRY_RESULT _ num_reports bdaddr local_bytes =>
    -- `for (i = 1; i <= num_reports; i++) { ...; break; }`: the body runs for i = 1 only
    if 1 ≤ num_reports then
      match (bt_get_dev_from_bdaddr s.bt_dev local_bytes none).2 with
      | some _ => some (s, [])
      | none =>
        let r := bt_get_new_dev s.bt_dev none
        let bt_dev_id := r.1
        match r.2 with
        | some j =>
          let d := s.bt_dev.get j
          let d1 := { d with remote_bdaddr := bdaddr.getD 0 bdaddr_zero }
          let d2 := { d1 with id := bt_dev_id }
          let d3 := { d2 with sdp_chan := { d2.sdp_chan with scid := bt_dev_id.toNat ||| 0x0070 } }
          let d4 := { d3 with ctrl_chan := { d3.ctrl_chan with scid := bt_dev_id.toNat ||| 0x0080 } }
          let d5 := { d4 with intr_chan := { d4.intr_chan with scid := bt_dev_id.toNat ||| 0x0090 } }
          let d6 := { d5 with flags := atomic_set_bit d5.flags BT_DEV_DEVICE_FOUND }
          some ({ s with bt_dev := s.bt_dev.set j d6 },
                inquiry_cancel_call :: bt_host_dev_conn_q_cmd (s.bt_dev.set j d6) j)
        | none => none
    else some (s, [])
  | .CONN_COMPLETE status handle bdaddr =>
    match (bt_get_dev_from_bdaddr s.bt_dev bdaddr none).2 with
    | some i =>
      if status ≠ 0 then some (dev_conn_error s i)
      else
        let d := s.bt_dev.get i
        let d1 := { d with acl_handle := handle }
        let d2 := { d1 with pkt_retry := 0 }
        let d3 := { d2 with conn_state := d2.conn_state + 1 }
        some ({ s with bt_dev := s.bt_dev.set i d3 },
              bt_host_dev_conn_q_cmd (s.bt_dev.set i d3) i)
    | none => some (s, [])
  | .REMOTE_NAME_REQ_COMPLETE status bdaddr name =>
    match (bt_get_dev_from_bdaddr s.bt_dev bdaddr none).2 with
    | some i =>
      if status ≠ 0 then some (dev_conn_error s i)
      else
        let d := s.bt_dev.get i
        let d1 := { d with type := bt_get_type_from_name name }
        let d2 := { d1 with pkt_retry := 0 }
        let d3 := { d2 with conn_state := d2.conn_state + 1 }
        some ({ s with bt_dev := s.bt_dev.set i d3 },
              bt_host_dev_conn_q_cmd (s.bt_dev.set i d3) i)
    | none => some (s, [])
  | .CMD_COMPLETE opcode status rp_bdaddr =>
    if status ≠ BT_HCI_ERR_SUCCESS ∧ status ≠ BT_HCI_ERR_UNKNOWN_CMD then
      if opcode ∈ cmd_complete_error_cases then
        let s1 := { s with bt_pkt_retry := (s.bt_pkt_retry + 1) % 2 ^ 32 }
        if s1.bt_pkt_retry > BT_MAX_RETRY then
          some ({ s1 with bt_pkt_retry := 0, bt_config_state := 0 }, [reset_call])
        else
          some (s1, bt_host_config_q_cmd s1.bt_config_state)
      else some (s, [])
    else
      let s1 := if opcode = .BT_HCI_OP_READ_BD_ADDR then { s with local_bdaddr := rp_bdaddr } else s
      if opcode = .BT_HCI_OP_READ_BD_ADDR ∨ opcode ∈ cmd_complete_success_cases then
        let s2 := { s1 with bt_pkt_retry := 0,
                            bt_config_state := (s1.bt_config_state + 1) % 2 ^ 32 }
        some (s2, bt_host_config_q_cmd s2.bt_config_state)
      else some (s, [])
  | .OTHER _ => some (s, [])

/-- Successive calls of `bt_hci_event_handler` on a sequence of events: the
final state and, per event, the calls it made; `none` as soon as one faults. -/
def run_events (s : host) : List hci_evt → Option (host × List (List cmd_call))
  | [] => some (s, [])
  | e :: es =>
    match bt_hci_event_handler s e with
    | none => none
    | some (s1, c) =>
      match run_events s1 es with
      | none => none
      | some (s2, cs) => some (s2, c :: cs)

/-- The table as it is at start-up: `static struct bt_dev bt_dev[7] = {0}`. -/
def bt_dev_init : dev_table := Mathlib.Vector.replicate 7 bt_dev_zero

/-- State once `bt_host_init` has returned 0: all statics zero, `BT_CTRL_READY`
set by `bt_ctrl_rcv_pkt_ready()`; `bt_host_config_q_cmd()` has issued entry 0. -/
def host_init : host :=
  { bt_pkt_retry := 0, bt_config_state := 0, bt_dev := bt_dev_init,
    local_bdaddr := bdaddr_zero, bt_flags := atomic_set_bit 0 BT_CTRL_READY }

/-- Modelled from the spec: the opcode carried by the command-complete event
that answers a bring-up command.  The builders live in `bt_hci.c`, which is not
part of the sources; each is paired with the `BT_HCI_OP_*` constant of the same
name (`write_page_scan_timeout` with `WRITE_PAGE_TIMEOUT`, `write_le_host_supp`
with `LE_WRITE_LE_HOST_SUPP`).  Builders used outside the bring-up table, and
`bt_hci_cmd_inquiry`, have no `case` label and give `none`. -/
def bt_hci_cmd_opcode : bt_cmd_func_t → Option hci_opcode
  | .bt_hci_cmd_reset => some .BT_HCI_OP_RESET
  | .bt_hci_cmd_read_local_features => some .BT_HCI_OP_READ_LOCAL_FEATURES
  | .bt_hci_cmd_read_local_version_info => some .BT_HCI_OP_READ_LOCAL_VERSION_INFO
  | .bt_hci_cmd_read_bd_addr => some .BT_HCI_OP_READ_BD_ADDR
  | .bt_hci_cmd_read_buffer_size => some .BT_HCI_OP_READ_BUFFER_SIZE
  | .bt_hci_cmd_read_class_of_device => some .BT_HCI_OP_READ_CLASS_OF_DEVICE
  | .bt_hci_cmd_read_local_name => some .BT_HCI_OP_READ_LOCAL_NAME
  | .bt_hci_cmd_read_voice_setting => some .BT_HCI_OP_READ_VOICE_SETTING
  | .bt_hci_cmd_read_num_supported_iac => some .BT_HCI_OP_READ_NUM_SUPPORTED_IAC
  | .bt_hci_cmd_read_current_iac_lap => some .BT_HCI_OP_READ_CURRENT_IAC_LAP
  | .bt_hci_cmd_set_event_filter => some .BT_HCI_OP_SET_EVENT_FILTER
  | .bt_hci_cmd_write_conn_accept_timeout => some .BT_HCI_OP_WRITE_CONN_ACCEPT_TIMEOUT
  | .bt_hci_cmd_read_supported_commands => some .BT_HCI_OP_READ_SUPPORTED_COMMANDS
  | .bt_hci_cmd_write_ssp_mode => some .BT_HCI_OP_WRITE_SSP_MODE
  | .bt_hci_cmd_write_inquiry_mode => some .BT_HCI_OP_WRITE_INQUIRY_MODE
  | .bt_hci_cmd_read_inquiry_rsp_tx_pwr_lvl => some .BT_HCI_OP_READ_INQUIRY_RSP_TX_PWR_LVL
  | .bt_hci_cmd_read_local_ext_features => some .BT_HCI_OP_READ_LOCAL_EXT_FEATURES
  | .bt_hci_cmd_read_stored_link_key => some .BT_HCI_OP_READ_STORED_LINK_KEY
  | .bt_hci_cmd_read_page_scan_activity => some .BT_HCI_OP_READ_PAGE_SCAN_ACTIVITY
  | .bt_hci_cmd_read_page_scan_type => some .BT_HCI_OP_READ_PAGE_SCAN_TYPE
  | .bt_hci_cmd_write_le_host_supp => some .BT_HCI_OP_LE_WRITE_LE_HOST_SUPP
  | .bt_hci_cmd_delete_stored_link_key => some .BT_HCI_OP_DELETE_STORED_LINK_KEY
  | .bt_hci_cmd_write_class_of_device => some .BT_HCI_OP_WRITE_CLASS_OF_DEVICE
  | .bt_hci_cmd_write_local_name => some .BT_HCI_OP_WRITE_LOCAL_NAME
  | .bt_hci_cmd_write_auth_enable => some .BT_HCI_OP_WRITE_AUTH_ENABLE
  | .bt_hci_cmd_set_event_mask => some .BT_HCI_OP_SET_EVENT_MASK
  | .bt_hci_cmd_write_page_scan_activity => some .BT_HCI_OP_WRITE_PAGE_SCAN_ACTIVITY
  | .bt_hci_cmd_write_inquiry_scan_activity => some .BT_HCI_OP_WRITE_INQUIRY_SCAN_ACTIVITY
  | .bt_hci_cmd_write_page_scan_type => some .BT_HCI_OP_WRITE_PAGE_SCAN_TYPE
  | .bt_hci_cmd_write_page_scan_timeout => some .BT_HCI_OP_WRITE_PAGE_TIMEOUT
  | .bt_hci_cmd_write_hold_mode_act => some .BT_HCI_OP_WRITE_HOLD_MODE_ACT
  | .bt_hci_cmd_write_scan_enable => some .BT_HCI_OP_WRITE_SCAN_ENABLE
  | .bt_hci_cmd_write_default_link_policy => some .BT_HCI_OP_WRITE_DEFAULT_LINK_POLICY
  | _ => none

/-- Opcode of the command-complete event that answers entry `j` of
`bt_hci_config` (`none` past the table and for the last entry, inquiry). -/
def bt_hci_config_opcode (j : Nat) : Option hci_opcode :=
  (bt_hci_config[j]?).bind fun e => bt_hci_cmd_opcode e.cmd

/-- The entry of the step table selected by `BT_DEV_PAGE` at the slot's current
step index: `bt_dev_rx_conn` when the flag is set, `bt_dev_tx_conn` otherwise;
`none` when the index is past the table. -/
def dev_step_entry (d : bt_dev) : Option bt_hci_cmd_param :=
  if atomic_test_bit d.flags BT_DEV_PAGE then bt_dev_rx_conn[d.conn_state]?
  else bt_dev_tx_conn[d.conn_state]?

/-- A connection-complete or remote-name-complete event for address `bdaddr`
that carries a non-zero status. -/
def is_conn_error_for (bdaddr : bt_addr_t) : hci_evt → Bool
  | .CONN_COMPLETE status _ a => status != 0 && decide (a = bdaddr)
  | .REMOTE_NAME_REQ_COMPLETE status a _ => status != 0 && decide (a = bdaddr)
  | _ => false

/-- The slot's found flag (`BT_DEV_DEVICE_FOUND`): the slot is occupied. -/
def occupied (d : bt_dev) : Bool := atomic_test_bit d.flags BT_DEV_DEVICE_FOUND

/-- A command-complete event for an opcode with a `case` label in the error
branch, carrying a status that is neither success nor unknown-command. -/
def is_cmd_complete_error : hci_evt → Bool
  | .CMD_COMPLETE opcode status _ =>
    decide (opcode ∈ cmd_complete_error_cases) && status != BT_HCI_ERR_SUCCESS &&
      status != BT_HCI_ERR_UNKNOWN_CMD
  | _ => false

/-! ## Concrete inputs used by the closed statements -/

/-- A peer address. -/
def addr_a : bt_addr_t := ⟨0x8C, 0x5A, 0x1F, 0x3B, 0xE8, 0x00⟩

/-- Another peer address. -/
def addr_b : bt_addr_t := ⟨0x21, 0x43, 0x65, 0x87, 0xA9, 0xCB⟩

/-- Six bytes as found at `(uint8_t *)&inquiry_result + 1` when the local pointer
holds the RAM address 0x3FFB6A13 and three zero bytes follow it. -/
def stack_bytes : bt_addr_t := ⟨0x6A, 0xFB, 0x3F, 0x00, 0x00, 0x00⟩

/-- The address the controller reports for itself. -/
def addr_local : bt_addr_t := ⟨0x11, 0x22, 0x33, 0x44, 0x55, 0x66⟩

/-- The 35 command-complete events, all with success status, that answer
entries 0..34 of `bt_hci_config` in order. -/
def bring_up_events : List hci_evt :=
  (List.range 35).filterMap fun j =>
    (bt_hci_config_opcode j).map fun op => .CMD_COMPLETE op BT_HCI_ERR_SUCCESS addr_local

/-- Inquiry result announcing one peer, `addr_a`. -/
def evt_found_a : hci_evt :=
  .INQUIRY_RESULT .BT_HCI_EVT_INQUIRY_RESULT_WITH_RSSI 1 [addr_a] stack_bytes

/-- Inquiry result announcing one peer, `addr_b`. -/
def evt_found_b : hci_evt :=
  .INQUIRY_RESULT .BT_HCI_EVT_INQUIRY_RESULT 1 [addr_b] stack_bytes

/-- Connection-complete for `addr_a` with status 0x04 (page timeout). -/
def evt_conn_a_fail : hci_evt := .CONN_COMPLETE 0x04 0 addr_a

/-- Connection-complete for `addr_a` with status 0 and handle 0x002A. -/
def evt_conn_a_ok : hci_evt := .CONN_COMPLETE 0 0x002A addr_a

/-- Remote-name-complete for `addr_a`, status 0, name of a Wii U Pro controller. -/
def evt_name_a_ok : hci_evt :=
  .REMOTE_NAME_REQ_COMPLETE 0 addr_a (c_str "Nintendo RVL-CNT-01-UC" ++ [0, 0])

/-- Command-complete for RESET with status 0x0C (command disallowed). -/
def evt_reset_fail : hci_evt := .CMD_COMPLETE .BT_HCI_OP_RESET 0x0C bdaddr_zero

/-- Command-complete for RESET with success status. -/
def evt_reset_ok : hci_evt := .CMD_COMPLETE .BT_HCI_OP_RESET BT_HCI_ERR_SUCCESS bdaddr_zero

/-- The table after `evt_found_a` from start-up: slot 0 holds `addr_a`. -/
def tbl_one_peer : dev_table :=
  bt_dev_init.set 0
    { bt_dev_zero with remote_bdaddr := addr_a, flags := 1, sdp_chan := ⟨0x70, 0⟩,
                       ctrl_chan := ⟨0x80, 0⟩, intr_chan := ⟨0x90, 0⟩ }

/-- The table after `evt_found_a` then `evt_found_b`: slots 0 and 1 occupied. -/
def tbl_two_peers : dev_table :=
  tbl_one_peer.set 1
    { bt_dev_zero with id := 1, remote_bdaddr := addr_b, flags := 1, sdp_chan := ⟨0x71, 0⟩,
                       ctrl_chan := ⟨0x81, 0⟩, intr_chan := ⟨0x91, 0⟩ }

/-- Start-up state with the table `tbl_two_peers`. -/
def host_two_peers : host := { host_init with bt_dev := tbl_two_peers }

/-- Connection-complete for `addr_b` with status 0x04 (page timeout). -/
def evt_conn_b_fail : hci_evt := .CONN_COMPLETE 0x04 0 addr_b

/-- Remote-name-complete for `addr_b` with status 0x04 (page timeout). -/
def evt_name_b_fail : hci_evt := .REMOTE_NAME_REQ_COMPLETE 0x04 addr_b []

/-- Connection-complete for `addr_b` with status 0 and handle 0x002B. -/
def evt_conn_b_ok : hci_evt := .CONN_COMPLETE 0 0x002B addr_b

/-- Remote-name-complete for `addr_b`, status 0, name of a Wii U Pro controller. -/
def evt_name_b_ok : hci_evt :=
  .REMOTE_NAME_REQ_COMPLETE 0 addr_b (c_str "Nintendo RVL-CNT-01-UC" ++ [0, 0])

/-- Connection-complete with status 0, handle 0x002C and the all-zero address. -/
def evt_conn_zero_ok : hci_evt := .CONN_COMPLETE 0 0x002C bdaddr_zero

/-- State `host_two_peers` once slot 1 has completed its connect step (handle 0x002B,
step index 1). -/
def host_two_peers_connected : host :=
  { host_init with bt_dev := (tbl_two_peers.set 1
      { (tbl_two_peers.get 1) with acl_handle := 0x002B, conn_state := 1 }) }

/-- A connection-complete or remote-name-complete event for address `bdaddr`,
whatever its status. -/
def is_completion_for (bdaddr : bt_addr_t) : hci_evt → Bool
  | .CONN_COMPLETE _ _ a => decide (a = bdaddr)
  | .REMOTE_NAME_REQ_COMPLETE _ a _ => decide (a = bdaddr)
  | _ => false

/-- A connection-complete or remote-name-complete event for address `bdaddr`
that carries status 0. -/
def is_conn_success_for (bdaddr : bt_addr_t) : hci_evt → Bool
  | .CONN_COMPLETE status _ a => status == 0 && decide (a = bdaddr)
  | .REMOTE_NAME_REQ_COMPLETE status a _ => status == 0 && decide (a = bdaddr)
  | _ => false

/-- Address of the `k`-th of several peers. -/
def addr_n (k : Nat) : bt_addr_t := ⟨k, 0x5A, 0x1F, 0x3B, 0xE8, 0x00⟩

/-- Inquiry result announcing one peer, `addr_n k`. -/
def evt_found_n (k : Nat) : hci_evt :=
  .INQUIRY_RESULT .BT_HCI_EVT_INQUIRY_RESULT 1 [addr_n k] stack_bytes

/-- Slot `j` as the inquiry-result handler leaves it when it allocates it, from
zero-filled, for address `a`. -/
def peer_slot (j : Nat) (a : bt_addr_t) : bt_dev :=
  { bt_dev_zero with id := j, remote_bdaddr := a, flags := 1, sdp_chan := ⟨j ||| 0x70, 0⟩,
                     ctrl_chan := ⟨j ||| 0x80, 0⟩, intr_chan := ⟨j ||| 0x90, 0⟩ }

/-- A full table: slot `j` holds peer `addr_n (j + 1)`. -/
def tbl_full : dev_table :=
  ⟨[peer_slot 0 (addr_n 1), peer_slot 1 (addr_n 2), peer_slot 2 (addr_n 3),
    peer_slot 3 (addr_n 4), peer_slot 4 (addr_n 5), peer_slot 5 (addr_n 6),
    peer_slot 6 (addr_n 7)], rfl⟩

/-- Start-up state with the table `tbl_full`. -/
def host_full : host := { host_init with bt_dev := tbl_full }

/-- A table whose slot 0 is empty and whose slot 1 is occupied: `tbl_two_peers`
after the release of slot 0. -/
def tbl_second_only : dev_table := tbl_two_peers.set 0 bt_dev_zero

/-- Inquiry result with two reports, `addr_a` then `addr_b`. -/
def evt_found_a_then_b : hci_evt :=
  .INQUIRY_RESULT .BT_HCI_EVT_INQUIRY_RESULT 2 [addr_a, addr_b] stack_bytes

/-- Command-complete for RESET with status unknown-command. -/
def evt_reset_unknown : hci_evt :=
  .CMD_COMPLETE .BT_HCI_OP_RESET BT_HCI_ERR_UNKNOWN_CMD bdaddr_zero

/-- Remote-name-complete for `addr_a` with status 0x04 (page timeout). -/
def evt_name_a_fail : hci_evt := .REMOTE_NAME_REQ_COMPLETE 0x04 addr_a []

/-! ## Inbound frames -/

/-- Modelled from the spec: packet-type tag of a connection-oriented data frame,
the first `case` label of `bt_host_rcv_pkt` (declared in the missing `bt_hci.h`;
the H4 tag of ACL data is 0x02). -/
def BT_HCI_H4_TYPE_ACL : Nat := 0x02

/-- Modelled from the spec: packet-type tag of an event frame, the second `case`
label of `bt_host_rcv_pkt` (declared in the missing `bt_hci.h`; the H4 tag of an
event is 0x04). -/
def BT_HCI_H4_TYPE_EVT : Nat := 0x04

/-- An inbound frame `data`, by what `bt_host_rcv_pkt` and the handlers read of
it: `h4_type` is `data[0]`; `evt` is the frame as `bt_hci_event_handler` reads it
through `struct bt_hci_pkt` (looked at for event frames only). -/
structure h4_frame where
  h4_type : Nat
  evt : hci_evt
deriving DecidableEq, Repr

/-- Embeds `static void bt_acl_handler(uint8_t *data, uint16_t len)` (the code
outside `#ifdef WIP`): the two local declarations and nothing else, so the state
is kept and no command builder is called. -/
def bt_acl_handler (s : host) (_data : h4_frame) : host × List cmd_call := (s, [])

/-- Embeds `static int bt_host_rcv_pkt(uint8_t *data, uint16_t len)`: the new state,
the command builder calls made and the returned `int`; `none` when the event
handler faults. -/
def bt_host_rcv_pkt (s : host) (data : h4_frame) : Option (host × List cmd_call × Int) :=
  if data.h4_type = BT_HCI_H4_TYPE_ACL then
    some ((bt_acl_handler s data).1, (bt_acl_handler s data).2, 0)
  else if data.h4_type = BT_HCI_H4_TYPE_EVT then
    match bt_hci_event_handler s data.evt with
    | some (s1, c) => some (s1, c, 0)
    | none => none
  else some (s, [], 0)

/-! ## Transport shim -/

/-- Modelled from the spec: a FreeRTOS ring buffer (`freertos/ringbuf.h`, not part
of the sources), as the bounded first-in first-out queue of frames the transport
contract describes: `size` is the capacity in bytes given at creation, `items`
the frames held, oldest first. -/
structure ringbuf where
  size : Nat
  items : List (List Nat)
deriving DecidableEq, Repr

/-- Number of frame bytes a ring buffer holds. -/
def ringbuf.bytes (rb : ringbuf) : Nat := (rb.items.map List.length).sum

/-- Modelled from the spec: `xRingbufferCreate(xBufferSize, RINGBUF_TYPE_NOSPLIT)`
when it succeeds: an empty queue of capacity `xBufferSize` bytes. -/
def xRingbufferCreate (xBufferSize : Nat) : ringbuf := ⟨xBufferSize, []⟩

/-- Modelled from the spec: FreeRTOS `pdTRUE`. -/
def pdTRUE : Nat := 1

/-- Modelled from the spec: FreeRTOS `pdFALSE`. -/
def pdFALSE : Nat := 0

/-- Modelled from the spec: `xRingbufferSend(rb, item, size, xTicksToWait)` with
nothing removed from the queue meanwhile.  The item is appended as the newest
element when its bytes fit under the capacity, and `pdTRUE` comes back at once;
otherwise the caller is held for `xTicksToWait` ticks, the queue is as it was
and `pdFALSE` comes back.  Result: the queue, the returned value, the ticks the
caller was held. -/
def xRingbufferSend (rb : ringbuf) (item : List Nat) (xTicksToWait : Nat) :
    ringbuf × Nat × Nat :=
  if rb.bytes + item.length ≤ rb.size then
    ({ rb with items := rb.items ++ [item] }, pdTRUE, 0)
  else (rb, pdFALSE, xTicksToWait)

/-- Modelled from the spec: `xRingbufferReceive(rb, &len, xTicksToWait)` with
nothing added to the queue meanwhile: the oldest item, or `NULL` (`none`) when
the queue is empty. -/
def xRingbufferReceive (rb : ringbuf) (_xTicksToWait : Nat) : Option (List Nat) :=
  rb.items.head?

/-- Modelled from the spec: `vRingbufferReturnItem(rb, item)` for the item
`xRingbufferReceive` handed out: the oldest item leaves the queue and its bytes
are free again. -/
def vRingbufferReturnItem (rb : ringbuf) (_item : List Nat) : ringbuf :=
  { rb with items := rb.items.tail }

/-- Embeds `static void bt_ctrl_rcv_pkt_ready(void)`: the new value of `bt_flags`. -/
def bt_ctrl_rcv_pkt_ready (bt_flags : Nat) : Nat := atomic_set_bit bt_flags BT_CTRL_READY

/-- Embeds `static void bt_tx_ringbuf_task(void *param)`: one pass of the body of
its `while(1)`, on `bt_flags` and the queue `txq_hdl`.  Result: the new
`bt_flags`, the new queue, and the packets handed to `esp_vhci_host_send_packet`
during the pass. -/
def bt_tx_ringbuf_task (bt_flags : Nat) (txq_hdl : ringbuf) : Nat × ringbuf × List (List Nat) :=
  if atomic_test_bit bt_flags BT_CTRL_READY then
    match xRingbufferReceive txq_hdl 0 with
    | some packet =>
      (atomic_clear_bit bt_flags BT_CTRL_READY, vRingbufferReturnItem txq_hdl packet, [packet])
    | none => (bt_flags, txq_hdl, [])
  else (bt_flags, txq_hdl, [])

/-- Embeds `int32_t bt_host_txq_add(uint8_t *packet, uint32_t packet_len)`; `packet`
lists the `packet_len` bytes.  Result: the queue, the returned `int32_t`, the
ticks the caller was held in `xRingbufferSend`. -/
def bt_host_txq_add (txq_hdl : ringbuf) (packet : List Nat) : ringbuf × Int × Nat :=
  ((xRingbufferSend txq_hdl packet 0).1,
   (if (xRingbufferSend txq_hdl packet 0).2.1 = pdTRUE then 0 else -1),
   (xRingbufferSend txq_hdl packet 0).2.2)

/-- The queue `bt_host_init` creates: `xRingbufferCreate(256*8, RINGBUF_TYPE_NOSPLIT)`. -/
def txq_hdl_init : ringbuf := xRingbufferCreate (256 * 8)

/-- What runs on `bt_flags` and the outbound queue: the controller's ready
callback, one pass of the sender loop, a producer's call of `bt_host_txq_add`. -/
inductive tx_action
  | rcv_pkt_ready
  | ringbuf_task
  | txq_add (packet : List Nat)
deriving DecidableEq, Repr

/-- The file-scope objects the transport shim works on. -/
structure tx_state where
  bt_flags : Nat
  txq_hdl : ringbuf
deriving DecidableEq, Repr

/-- One action on the transport state: the new state and the packets handed to
the controller. -/
def tx_step (st : tx_state) : tx_action → tx_state × List (List Nat)
  | .rcv_pkt_ready => ({ st with bt_flags := bt_ctrl_rcv_pkt_ready st.bt_flags }, [])
  | .ringbuf_task =>
    ({ bt_flags := (bt_tx_ringbuf_task st.bt_flags st.txq_hdl).1,
       txq_hdl := (bt_tx_ringbuf_task st.bt_flags st.txq_hdl).2.1 },
     (bt_tx_ringbuf_task st.bt_flags st.txq_hdl).2.2)
  | .txq_add packet => ({ st with txq_hdl := (bt_host_txq_add st.txq_hdl packet).1 }, [])

/-- A sequence of actions: the final state and all packets handed to the
controller, in order. -/
def tx_run (st : tx_state) : List tx_action → tx_state × List (List Nat)
  | [] => (st, [])
  | a :: as => ((tx_run (tx_step st a).1 as).1, (tx_step st a).2 ++ (tx_run (tx_step st a).1 as).2)

/-- The transport state once `bt_host_init` has returned 0. -/
def tx_state_init : tx_state :=
  { bt_flags := bt_ctrl_rcv_pkt_ready 0, txq_hdl := txq_hdl_init }

/-! ## HID configuration of Wii-family peers (code under `#ifdef WIP`) -/

/-- Modelled from the spec: flag `BT_DEV_PENDING` of the `#ifdef WIP` code (the
peer's single in-flight-command gate).  The flags of that code are declared
nowhere in the sources at hand; each is given a bit number of its own after
the two declared ones. -/
def BT_DEV_PENDING : Nat := 2

/-- Modelled from the spec: flag `BT_DEV_WII_STATUS_RX` (a status report was
received); see `BT_DEV_PENDING`. -/
def BT_DEV_WII_STATUS_RX : Nat := 3

/-- Modelled from the spec: flag `BT_DEV_WII_EXT_CONF_PENDING` (first extension
configuration byte written); see `BT_DEV_PENDING`. -/
def BT_DEV_WII_EXT_CONF_PENDING : Nat := 4

/-- Modelled from the spec: flag `BT_DEV_WII_EXT_CONF_DONE` (second extension
configuration byte written); see `BT_DEV_PENDING`. -/
def BT_DEV_WII_EXT_CONF_DONE : Nat := 5

/-- Modelled from the spec: flag `BT_DEV_WII_EXT_ID_READ` (extension identifier
read requested); see `BT_DEV_PENDING`. -/
def BT_DEV_WII_EXT_ID_READ : Nat := 6

/-- Modelled from the spec: flag `BT_DEV_WII_REP_MODE_SET` (report mode
selected); see `BT_DEV_PENDING`. -/
def BT_DEV_WII_REP_MODE_SET : Nat := 7

/-- Modelled from the spec: flag `BT_DEV_WII_LED_SET` (player LED command
issued); see `BT_DEV_PENDING`. -/
def BT_DEV_WII_LED_SET : Nat := 8

/-- Modelled from the spec: mask `BT_HIDP_WII_FLAGS_EXT_CONN` of the status
report's flags byte, "an extension is attached" (declared in the missing
`bt_hidp_wii.h`; bit 1 of the Wii remote's status flags). -/
def BT_HIDP_WII_FLAGS_EXT_CONN : Nat := 0x02

/-- Modelled from the spec: address-space selector `BT_HIDP_WII_REG` of a memory
read or write, the register space extensions are mapped in (declared in the
missing `bt_hidp_wii.h`). -/
def BT_HIDP_WII_REG : Nat := 0x04

/-- Modelled from the spec: report id `BT_HIDP_WII_CORE_ACC_EXT`, the combined
core buttons, accelerometer and extension report (declared in the missing
`bt_hidp_wii.h`). -/
def BT_HIDP_WII_CORE_ACC_EXT : Nat := 0x35

/-- Embeds `struct bt_hidp_wii_wr_mem` as the initialisers of `bt_dev_task` fill
it: address space, three offset bytes, length, data bytes. -/
structure bt_hidp_wii_wr_mem where
  bank : Nat
  offset : List Nat
  len : Nat
  data : List Nat
deriving DecidableEq, Repr

/-- Embeds `struct bt_hidp_wii_rd_mem` as the initialiser of `bt_dev_task` fills
it: address space, three offset bytes, 16-bit length field. -/
structure bt_hidp_wii_rd_mem where
  bank : Nat
  offset : List Nat
  len : Nat
deriving DecidableEq, Repr

/-- Modelled from the spec: a call of one of the HID command builders of
`bt_hidp_wii.c` (not among the sources), recorded with the arguments
`bt_dev_task` gives it. -/
inductive hid_cmd_call
  | bt_hid_cmd_wii_set_rep_mode (handle cid continuous mode : Nat)
  | bt_hid_cmd_wii_write (handle cid : Nat) (wr_mem : bt_hidp_wii_wr_mem)
  | bt_hid_cmd_wii_read (handle cid : Nat) (rd_mem : bt_hidp_wii_rd_mem)
  | bt_hid_cmd_wii_set_led (handle cid leds : Nat)
deriving DecidableEq, Repr

/-- Embeds the `case BT_HIDP_WII_STATUS:` block of `bt_acl_handler` (code under
`#ifdef WIP`) for the slot `device` points to.  `wii_status_flags` is
`pl.hidp.hidp_data.wii_status.flags`; `xHandle_null` says whether
`device->xHandle == NULL`.  Result: the slot, and whether `bt_dev_task` is
created again. -/
def bt_acl_handler_wii_status (device : bt_dev) (wii_status_flags : Nat) (xHandle_null : Bool) :
    bt_dev × Bool :=
  let f1 := atomic_set_bit device.flags BT_DEV_WII_STATUS_RX
  let f2 := atomic_clear_bit f1 BT_DEV_WII_EXT_CONF_PENDING
  let f3 := atomic_clear_bit f2 BT_DEV_WII_EXT_CONF_DONE
  let f4 := atomic_clear_bit f3 BT_DEV_WII_REP_MODE_SET
  let f5 :=
    if wii_status_flags &&& BT_HIDP_WII_FLAGS_EXT_CONN ≠ 0 ∧ device.type = WII_CORE then
      atomic_clear_bit f4 BT_DEV_WII_EXT_ID_READ
    else atomic_set_bit f4 BT_DEV_WII_EXT_ID_READ
  ({ device with flags := f5 }, xHandle_null)

/-- The argument `led_dev_id_map[device->id] << 4` of `bt_hid_cmd_wii_set_led`;
`none` when `device->id` is not an index of the array. -/
def wii_led_arg (id : Int) : Option Nat :=
  if 0 ≤ id then (led_dev_id_map[id.toNat]?).map fun v => v <<< 4 else none

/-- Embeds the tail of the `if` chain of `bt_dev_task` (code under `#ifdef WIP`)
that is reached once both HID channels are connected: the
`else if (wii_wiiu_ctrl(device->type))` block, "HID report config", and the
`else if (device->type == SWITCH_PRO)` block after it.  Result: the slot, the
HID command builder calls made, and whether the task deleted itself
(`vTaskDelete(NULL)`); `none` when `led_dev_id_map` is read outside its bounds. -/
def bt_dev_task_hid_config (device : bt_dev) : Option (bt_dev × List hid_cmd_call × Bool) :=
  if wii_wiiu_ctrl device.type ≠ 0 then
    if atomic_test_bit device.flags BT_DEV_WII_STATUS_RX then
      if atomic_test_bit device.flags BT_DEV_WII_EXT_ID_READ then
        some ({ device with flags := atomic_set_bit device.flags BT_DEV_WII_REP_MODE_SET },
              [.bt_hid_cmd_wii_set_rep_mode device.acl_handle device.intr_chan.dcid 1
                 BT_HIDP_WII_CORE_ACC_EXT], true)
      else if !atomic_test_bit device.flags BT_DEV_WII_EXT_CONF_PENDING then
        some ({ device with
                flags := atomic_set_bit (atomic_set_bit device.flags BT_DEV_PENDING)
                           BT_DEV_WII_EXT_CONF_PENDING },
              [.bt_hid_cmd_wii_write device.acl_handle device.intr_chan.dcid
                 ⟨BT_HIDP_WII_REG, [0xA4, 0x00, 0xF0], 0x01, [0x55]⟩], false)
      else if !atomic_test_bit device.flags BT_DEV_WII_EXT_CONF_DONE then
        some ({ device with
                flags := atomic_set_bit (atomic_set_bit device.flags BT_DEV_PENDING)
                           BT_DEV_WII_EXT_CONF_DONE },
              [.bt_hid_cmd_wii_write device.acl_handle device.intr_chan.dcid
                 ⟨BT_HIDP_WII_REG, [0xA4, 0x00, 0xFB], 0x01, [0x00]⟩], false)
      else
        some ({ device with
                flags := atomic_set_bit (atomic_set_bit device.flags BT_DEV_PENDING)
                           BT_DEV_WII_EXT_ID_READ },
              [.bt_hid_cmd_wii_read device.acl_handle device.intr_chan.dcid
                 ⟨BT_HIDP_WII_REG, [0xA4, 0x00, 0xFA], 0x0600⟩], false)
    else if !atomic_test_bit device.flags BT_DEV_WII_LED_SET then
      match wii_led_arg device.id with
      | some leds =>
        some ({ device with flags := atomic_set_bit device.flags BT_DEV_WII_LED_SET },
              [.bt_hid_cmd_wii_set_led device.acl_handle device.intr_chan.dcid leds], false)
      | none => none
    else
      some ({ device with flags := atomic_set_bit device.flags BT_DEV_WII_REP_MODE_SET },
            [.bt_hid_cmd_wii_set_rep_mode device.acl_handle device.intr_chan.dcid 1
               BT_HIDP_WII_CORE_ACC_EXT], true)
  else if device.type = SWITCH_PRO then
    if !atomic_test_bit device.flags BT_DEV_WII_LED_SET then
      match wii_led_arg device.id with
      | some leds =>
        some ({ device with flags := atomic_set_bit device.flags BT_DEV_WII_LED_SET },
              [.bt_hid_cmd_wii_set_led device.acl_handle device.intr_chan.dcid leds], false)
      | none => none
    else some (device, [], false)
  else some (device, [], false)

/-- Modelled from the spec: report id `BT_HIDP_WII_WR_MEM`, the memory write an
acknowledgement can refer to (declared in the missing `bt_hidp_wii.h`; output
report 0x16 of the Wii remote). -/
def BT_HIDP_WII_WR_MEM : Nat := 0x16

/-- Embeds the `case BT_HIDP_WII_RD_DATA:` block of `bt_acl_handler` (code under
`#ifdef WIP`) for the slot `device` points to; `data` is
`pl.hidp.hidp_data.wii_rd_data.data`. -/
def bt_acl_handler_wii_rd_data (device : bt_dev) (data : List Nat) : bt_dev :=
  { device with type := bt_get_type_from_wii_ext data,
                flags := atomic_clear_bit device.flags BT_DEV_PENDING }

/-- Embeds the `case BT_HIDP_WII_ACK:` block of `bt_acl_handler` (code under
`#ifdef WIP`) for the slot `device` points to; `report` is
`pl.hidp.hidp_data.wii_ack.report`.  The error code `wii_ack.err` is only
printed. -/
def bt_acl_handler_wii_ack (device : bt_dev) (report : Nat) : bt_dev :=
  if report = BT_HIDP_WII_WR_MEM then
    { device with flags := atomic_clear_bit device.flags BT_DEV_PENDING }
  else device

/-- One pass of the `while (1)` loop of `bt_dev_task` (code under `#ifdef WIP`)
for a peer whose HID channels are both connected, the controller being ready
with nothing pending on it: the `if` chain is entered only with
`BT_DEV_PENDING` clear.  Result as for `bt_dev_task_hid_config`. -/
def bt_dev_task_pass (device : bt_dev) : Option (bt_dev × List hid_cmd_call × Bool) :=
  if atomic_test_bit device.flags BT_DEV_PENDING then some (device, [], false)
  else bt_dev_task_hid_config device

/-- The slot after the peer has answered a HID command and `bt_acl_handler` has
handled the answer: a memory write is acknowledged (`BT_HIDP_WII_ACK` naming
`BT_HIDP_WII_WR_MEM`), a memory read is answered by `BT_HIDP_WII_RD_DATA`
carrying the bytes `ext_id`; the answers to the LED and report-mode commands,
if any, are acknowledgements naming another report (0x11 and 0x12, the output
reports of the Wii remote those two commands are). -/
def wii_peer_reply (ext_id : List Nat) (device : bt_dev) : hid_cmd_call → bt_dev
  | .bt_hid_cmd_wii_write _ _ _ => bt_acl_handler_wii_ack device BT_HIDP_WII_WR_MEM
  | .bt_hid_cmd_wii_read _ _ _ => bt_acl_handler_wii_rd_data device ext_id
  | .bt_hid_cmd_wii_set_led _ _ _ => bt_acl_handler_wii_ack device 0x11
  | .bt_hid_cmd_wii_set_rep_mode _ _ _ _ => bt_acl_handler_wii_ack device 0x12

/-- Successive passes of `bt_dev_task`, at most `n` of them, against a peer that
answers every command before the next pass and whose extension identifier is
`ext_id` (`wii_peer_reply`).  Result: the slot, the HID command builder calls
made in order, and whether the task deleted itself (which ends the passes).
Calls of the other branches of the `if` chain (HCI and L2CAP builders) are not
HID commands and are not recorded. -/
def bt_dev_task_hid_config_run (ext_id : List Nat) :
    Nat → bt_dev → Option (bt_dev × List hid_cmd_call × Bool)
  | 0, device => some (device, [], false)
  | n + 1, device =>
    match bt_dev_task_pass device with
    | none => none
    | some (d1, c, true) => some (d1, c, true)
    | some (d1, c, false) =>
      match bt_dev_task_hid_config_run ext_id n (c.foldl (wii_peer_reply ext_id) d1) with
      | none => none
      | some (d2, c2, ended) => some (d2, c ++ c2, ended)

/-- A frame whose packet-type tag is 0x01 (the tag of a command, which the host
never receives), carrying an inquiry result for `addr_a`. -/
def frame_unknown_type : h4_frame := ⟨0x01, evt_found_a⟩

/-- Command-complete for an opcode without `case` label (0x0C14), error status. -/
def evt_other_opcode_fail : hci_evt := .CMD_COMPLETE (.other 0x0C14) 0x0C addr_a

/-- An outbound frame. -/
def pkt_reset : List Nat := [0x01, 0x03, 0x0C, 0x00]

/-- Another outbound frame. -/
def pkt_inquiry : List Nat := [0x01, 0x01, 0x04, 0x05, 0x33, 0x8B, 0x9E, 0x20, 0xFF]

/-- A Wii-family peer in slot 2 whose HID channels are connected: handle 0x002A,
interrupt channel of the peer 0x0041, no configuration flag set yet. -/
def wii_peer : bt_dev :=
  { (peer_slot 2 addr_a) with type := WII_CORE, acl_handle := 0x002A, conn_state := 9,
                              intr_chan := ⟨0x92, 0x41⟩ }

/-- The peer `wii_peer` classified as a Wii U Pro controller. -/
def wiiu_pro_peer : bt_dev := { wii_peer with type := WIIU_PRO }

/-- The queue `bt_host_init` creates, holding 512 frames of 4 bytes: 2048 bytes. -/
def txq_full : ringbuf := { txq_hdl_init with items := List.replicate 512 pkt_reset }

/-- The peer `wii_peer` once its first configuration is over: LED and report
mode set. -/
def wii_peer_configured : bt_dev :=
  { wii_peer with
    flags := atomic_set_bit (atomic_set_bit wii_peer.flags BT_DEV_WII_LED_SET)
               BT_DEV_WII_REP_MODE_SET }

/-! ## Start-up -/

/-- Modelled from the spec: `ESP_OK`, the success value of the platform calls
(`esp_err.h`, not part of the sources): 0. -/
def ESP_OK : Int := 0

/-- Modelled from the spec: `ESP_ERR_NVS_NO_FREE_PAGES` (`nvs.h`, not part of the
sources): 0x1100 + 0x0d. -/
def ESP_ERR_NVS_NO_FREE_PAGES : Int := 0x110d

/-- What the platform calls made by `bt_host_init` return: the first
`nvs_flash_init()`, `nvs_flash_erase()`, the second `nvs_flash_init()`,
`esp_bt_controller_init(&bt_cfg)`, `esp_bt_controller_enable(...)`, and whether
`xRingbufferCreate` hands out a buffer (`false`: it returns `NULL`). -/
structure init_env where
  nvs_flash_init : Int
  nvs_flash_erase : Int
  nvs_flash_init_again : Int
  esp_bt_controller_init : Int
  esp_bt_controller_enable : Int
  ringbuf_created : Bool
deriving DecidableEq, Repr

/-- What `bt_host_init` leaves behind when it returns: the returned `int32_t`,
`bt_flags`, `txq_hdl` (`none` is `NULL` or not yet assigned), whether the
callbacks were registered, whether the sender task was created, and the
command builder calls made. -/
structure init_result where
  ret : Int
  bt_flags : Nat
  txq_hdl : Option ringbuf
  callback_registered : Bool
  tx_task_created : Bool
  cmds : List cmd_call
deriving DecidableEq, Repr

/-- Embeds `int32_t bt_host_init(void)` run on the file-scope state `s` (all zero at
start-up).  `none` when one of the two `ESP_ERROR_CHECK` aborts. -/
def bt_host_init (s : host) (env : init_env) : Option init_result :=
  -- `if (ret == ESP_ERR_NVS_NO_FREE_PAGES) { ESP_ERROR_CHECK(nvs_flash_erase()); ... }`
  if env.nvs_flash_init = ESP_ERR_NVS_NO_FREE_PAGES ∧ env.nvs_flash_erase ≠ ESP_OK then none
  -- `ESP_ERROR_CHECK(ret);` with `ret` from the first or the second `nvs_flash_init()`
  else if (if env.nvs_flash_init = ESP_ERR_NVS_NO_FREE_PAGES then env.nvs_flash_init_again
           else env.nvs_flash_init) ≠ ESP_OK then none
  -- `if ((ret = esp_bt_controller_init(&bt_cfg)) != ESP_OK) { ...; return ret; }`
  else if env.esp_bt_controller_init ≠ ESP_OK then
    some { ret := env.esp_bt_controller_init, bt_flags := s.bt_flags, txq_hdl := none,
           callback_registered := false, tx_task_created := false, cmds := [] }
  -- `if ((ret = esp_bt_controller_enable(...)) != ESP_OK) { ...; return ret; }`
  else if env.esp_bt_controller_enable ≠ ESP_OK then
    some { ret := env.esp_bt_controller_enable, bt_flags := s.bt_flags, txq_hdl := none,
           callback_registered := false, tx_task_created := false, cmds := [] }
  -- `esp_vhci_host_register_callback(&vhci_host_cb); bt_ctrl_rcv_pkt_ready();`
  -- `txq_hdl = xRingbufferCreate(...); if (txq_hdl == NULL) { ...; return ret; }`
  else if env.ringbuf_created = false then
    some { ret := env.esp_bt_controller_enable, bt_flags := bt_ctrl_rcv_pkt_ready s.bt_flags,
           txq_hdl := none, callback_registered := true, tx_task_created := false, cmds := [] }
  -- `xTaskCreatePinnedToCore(...); bt_host_config_q_cmd(); return ret;`
  else
    some { ret := env.esp_bt_controller_enable, bt_flags := bt_ctrl_rcv_pkt_ready s.bt_flags,
           txq_hdl := some (xRingbufferCreate (256 * 8)), callback_registered := true,
           tx_task_created := true, cmds := bt_host_config_q_cmd s.bt_config_state }

/-- The state at start-up, before `bt_host_init` runs: every static is zero. -/
def host_zero : host :=
  { bt_pkt_retry := 0, bt_config_state := 0, bt_dev := bt_dev_init,
    local_bdaddr := bdaddr_zero, bt_flags := 0 }

/-- A platform on which every call succeeds. -/
def env_all_ok : init_env :=
  { nvs_flash_init := ESP_OK, nvs_flash_erase := ESP_OK, nvs_flash_init_again := ESP_OK,
    esp_bt_controller_init := ESP_OK, esp_bt_controller_enable := ESP_OK,
    ringbuf_created := true }

/-- A platform on which every call succeeds except `xRingbufferCreate`, which
returns `NULL`. -/
def env_no_ringbuf : init_env := { env_all_ok with ringbuf_created := false }

/-! ## Console detection (`wired/detect.c`) -/

/-- Modelled from the spec: the console identifiers `wired_adapter.system_id`
takes (an enum of the missing `adapter/adapter.h`).  The ones `detect.c` names
are constructors, pairwise different and different from `WIRED_NONE`; every other
value is `other raw`. -/
inductive wired_system_id
  | WIRED_NONE
  | N64
  | GC
  | DC
  | WII_EXT
  | NES
  | PCE
  | PSX
  | GENESIS
  | other (raw : Nat)
deriving DecidableEq, Repr

/-- Embeds `static const uint8_t detect_pin_low[]` -/
def detect_pin_low : List Nat := [19, 21, 22, 25]

/-- Embeds `static const uint8_t detect_pin_high[]` -/
def detect_pin_high : List Nat := [32, 33, 34, 35]

open wired_system_id in
/-- Embeds `static const uint8_t system_id_low[]` -/
def system_id_low : List wired_system_id := [N64, GC, DC, WII_EXT]

open wired_system_id in
/-- Embeds `static const uint8_t system_id_high[]` -/
def system_id_high : List wired_system_id := [NES, PCE, PSX, GENESIS]

/-- Modelled from the spec: the macro `BIT(n)` of the missing `util.h`, the word
with only bit `n` set. -/
def BIT (n : Nat) : Nat := 1 <<< n

/-- The loop `for (i = 0; i < ARRAY_SIZE(pins); i++) if (io & BIT(pins[i] - base))
system_id = ids[i];` over the remaining entries (`base` is 32 for the high bank,
0 for the low bank). -/
def detect_loop (io base : Nat) : List Nat → List wired_system_id → wired_system_id →
    wired_system_id
  | pin :: pins, id :: ids, system_id =>
    detect_loop io base pins ids (if io &&& BIT (pin - base) ≠ 0 then id else system_id)
  | _, _, system_id => system_id

/-- What `detect_intr` leaves behind: `wired_adapter.system_id`, and the values it
wrote to `GPIO.status1_w1tc.intr_st` and to `GPIO.status_w1tc` (`none`: no write). -/
structure detect_result where
  system_id : wired_system_id
  status1_w1tc : Option Nat
  status_w1tc : Option Nat
deriving DecidableEq, Repr

/-- Embeds `static void IRAM_ATTR detect_intr(void* arg)`; `low_io` is what it reads
from `GPIO.acpu_int`, `high_io` from `GPIO.acpu_int1.intr`. -/
def detect_intr (system_id : wired_system_id) (low_io high_io : Nat) : detect_result :=
  let id1 :=
    if high_io ≠ 0 then
      if system_id = .WIRED_NONE then detect_loop high_io 32 detect_pin_high system_id_high system_id
      else system_id
    else system_id
  let w1 := if high_io ≠ 0 then some high_io else none
  let id2 :=
    if low_io ≠ 0 then
      if id1 = .WIRED_NONE then detect_loop low_io 0 detect_pin_low system_id_low id1
      else id1
    else id1
  let w0 := if low_io ≠ 0 then some low_io else none
  { system_id := id2, status1_w1tc := w1, status_w1tc := w0 }

/-! ## Further concrete inputs -/

/-- The events that take the bring-up index from 0 to 36, past the table: 36
successful completions for RESET. -/
def evts_past_table : List hci_evt := List.replicate 36 evt_reset_ok

/-- The state in which slot 0 holds `addr_a` at step index 9, past the initiator
table. -/
def host_peer_past_table : host :=
  { host_init with bt_dev := tbl_one_peer.set 0 { (tbl_one_peer.get 0) with conn_state := 9 } }

/-! ## Theorems -/

/-! ### Slot scans -/

theorem scan_slots_none_iff (p : Fin 7 → Bool) :
    scan_slots p = none ↔ ∀ j, p j = false := by
  unfold scan_slots
  simp [List.find?_eq_none]

theorem scan_slots_some {p : Fin 7 → Bool} {i : Fin 7} (h : scan_slots p = some i) :
    p i = true ∧ ∀ j, j < i → p j = false := by
  unfold scan_slots at h
  obtain ⟨hp, as, bs, hsplit, has⟩ := List.find?_eq_some.mp h
  refine ⟨hp, fun j hj => ?_⟩
  have hsorted : (List.finRange 7).Pairwise (· < ·) := List.pairwise_lt_finRange 7
  rw [hsplit, List.pairwise_append] at hsorted
  have hjmem : j ∈ as ++ i :: bs := hsplit ▸ List.mem_finRange j
  rcases List.mem_append.mp hjmem with hj1 | hj2
  · simpa using has j hj1
  · rcases List.mem_cons.mp hj2 with hji | hjb
    · exact absurd hji (Fin.ne_of_lt hj)
    · have hlt : i < j := (List.pairwise_cons.mp hsorted.2.1).1 j hjb
      exact absurd hj (not_lt.mpr hlt.le)

theorem scan_slots_first {p : Fin 7 → Bool} {i : Fin 7} (hi : p i = true)
    (hlt : ∀ j, j < i → p j = false) : scan_slots p = some i := by
  cases hk : scan_slots p with
  | none =>
    have := (scan_slots_none_iff p).mp hk i
    simp [hi] at this
  | some k =>
    obtain ⟨hpk, hk_lt⟩ := scan_slots_some hk
    rcases lt_trichotomy k i with h | h | h
    · have := hlt k h
      simp [hpk] at this
    · rw [h]
    · have := hk_lt i h
      simp [hi] at this

/-- C8. Channel-id round trip: for every slot index `s` in 0..6 and every tag
`t` among 0x70, 0x80, 0x90, `bt_get_dev_from_scid (s | t)` returns the index `s`
and designates the slot `bt_dev[s]`. -/
theorem bt_get_dev_from_scid_round_trip (tbl : dev_table) (s : Fin 7) (t : Nat)
    (ht : t = 0x70 ∨ t = 0x80 ∨ t = 0x90) :
    bt_get_dev_from_scid (s.val ||| t) = s.val ∧
      bt_get_dev_from_scid_dev tbl (s.val ||| t) = some (tbl.get s) := by
  have hidx : bt_get_dev_from_scid (s.val ||| t) = s.val := by
    rcases ht with h | h | h <;> subst h <;> fin_cases s <;> decide
  refine ⟨hidx, ?_⟩
  unfold bt_get_dev_from_scid_dev
  simp only [hidx, s.isLt, dite_true, Fin.eta]

/-- C8 at slot 5 with the HID-interrupt tag: channel id 0x95 leads back to slot 5. -/
theorem bt_get_dev_from_scid_round_trip_witness :
    bt_get_dev_from_scid ((5 : Fin 7).val ||| 0x90) = (5 : Fin 7).val ∧
      bt_get_dev_from_scid_dev bt_dev_init ((5 : Fin 7).val ||| 0x90)
        = some (bt_dev_init.get 5) :=
  bt_get_dev_from_scid_round_trip bt_dev_init 5 0x90 (Or.inr (Or.inr rfl))

/-! ### Classifiers -/

theorem memcmp_eq_strlen_iff (name s : List Nat) (hs : ∀ b ∈ s, b ≠ 0) :
    memcmp_eq name s (strlen s) = true ↔ s <+: name := by
  have hlen : strlen s = s.length := by
    unfold strlen
    rw [List.takeWhile_eq_self_iff.mpr]
    intro b hb
    simpa using hs b hb
  unfold memcmp_eq
  rw [hlen, List.take_length, decide_eq_true_iff, List.prefix_iff_eq_take]
  exact eq_comm

theorem bt_get_type_from_name_eq (name : List Nat) :
    bt_get_type_from_name name =
      if c_str "Nintendo RVL-CNT-01-UC" <+: name then WIIU_PRO
      else if c_str "Nintendo RVL-CNT-01-TR" <+: name then WII_CORE
      else if c_str "Nintendo RVL-CNT-01" <+: name then WII_CORE
      else if c_str "Pro Controller" <+: name then SWITCH_PRO
      else -1 := by
  have h1 := memcmp_eq_strlen_iff name (c_str "Nintendo RVL-CNT-01-UC") (by decide)
  have h2 := memcmp_eq_strlen_iff name (c_str "Nintendo RVL-CNT-01-TR") (by decide)
  have h3 := memcmp_eq_strlen_iff name (c_str "Nintendo RVL-CNT-01") (by decide)
  have h4 := memcmp_eq_strlen_iff name (c_str "Pro Controller") (by decide)
  simp only [bt_get_type_from_name, bt_name_type, bt_get_type_from_name_loop, h1, h2, h3, h4]

/-- C9. Name classification is a first-match-wins lookup by byte-wise leading
substring, in table order: the UC string gives WIIU_PRO; failing that the TR
string gives WII_CORE; failing that "Nintendo RVL-CNT-01" gives WII_CORE;
failing that "Pro Controller" gives SWITCH_PRO; and -1 when none of the four
starts the name.  Hence a name that starts with the UC string is WIIU_PRO even
though "Nintendo RVL-CNT-01" also starts it, and a name that starts with
"Nintendo RVL-CNT-01" and does not go on with "-UC" is WII_CORE. -/
theorem bt_get_type_from_name_first_match (name : List Nat) :
    (c_str "Nintendo RVL-CNT-01-UC" <+: name → bt_get_type_from_name name = WIIU_PRO) ∧
    (¬ c_str "Nintendo RVL-CNT-01-UC" <+: name → c_str "Nintendo RVL-CNT-01-TR" <+: name →
      bt_get_type_from_name name = WII_CORE) ∧
    (¬ c_str "Nintendo RVL-CNT-01-UC" <+: name → ¬ c_str "Nintendo RVL-CNT-01-TR" <+: name →
      c_str "Nintendo RVL-CNT-01" <+: name → bt_get_type_from_name name = WII_CORE) ∧
    (¬ c_str "Nintendo RVL-CNT-01-UC" <+: name → ¬ c_str "Nintendo RVL-CNT-01-TR" <+: name →
      ¬ c_str "Nintendo RVL-CNT-01" <+: name → c_str "Pro Controller" <+: name →
      bt_get_type_from_name name = SWITCH_PRO) ∧
    (¬ c_str "Nintendo RVL-CNT-01-UC" <+: name → ¬ c_str "Nintendo RVL-CNT-01-TR" <+: name →
      ¬ c_str "Nintendo RVL-CNT-01" <+: name → ¬ c_str "Pro Controller" <+: name →
      bt_get_type_from_name name = -1) ∧
    (c_str "Nintendo RVL-CNT-01-UC" <+: name → c_str "Nintendo RVL-CNT-01" <+: name) ∧
    (∀ rest, name = c_str "Nintendo RVL-CNT-01" ++ rest → ¬ c_str "-UC" <+: rest →
      bt_get_type_from_name name = WII_CORE) := by
  rw [bt_get_type_from_name_eq]
  refine ⟨?_, ?_, ?_, ?_, ?_, ?_, ?_⟩
  · intro h; simp [h]
  · intro h1 h2; simp [h1, h2]
  · intro h1 h2 h3; simp [h1, h2, h3]
  · intro h1 h2 h3 h4; simp [h1, h2, h3, h4]
  · intro h1 h2 h3 h4; simp [h1, h2, h3, h4]
  · intro h
    have h0 : c_str "Nintendo RVL-CNT-01" <+: c_str "Nintendo RVL-CNT-01-UC" := by decide
    exact h0.trans h
  · intro rest hname hrest
    subst hname
    have huc : ¬ c_str "Nintendo RVL-CNT-01-UC" <+: c_str "Nintendo RVL-CNT-01" ++ rest := by
      have hsplit : c_str "Nintendo RVL-CNT-01-UC" = c_str "Nintendo RVL-CNT-01" ++ c_str "-UC" := by
        decide
      rw [hsplit, List.prefix_append_right_inj]
      exact hrest
    have h3 : c_str "Nintendo RVL-CNT-01" <+: c_str "Nintendo RVL-CNT-01" ++ rest :=
      List.prefix_append _ _
    simp only [huc, h3, if_true, if_false]
    split <;> rfl

/-- C9 on concrete buffers: the names reported by a Wii U Pro controller, a
Wii remote and a Wii remote "TR", and a buffer no table string starts. -/
theorem bt_get_type_from_name_first_match_witness :
    bt_get_type_from_name (c_str "Nintendo RVL-CNT-01-UC" ++ [0, 0]) = WIIU_PRO ∧
    bt_get_type_from_name (c_str "Nintendo RVL-CNT-01" ++ [0, 0]) = WII_CORE ∧
    bt_get_type_from_name (c_str "Nintendo RVL-CNT-01-TR" ++ [0]) = WII_CORE ∧
    bt_get_type_from_name (c_str "Pro Controlle") = -1 :=
  ⟨(bt_get_type_from_name_first_match _).1 (List.prefix_append _ _),
   (bt_get_type_from_name_first_match _).2.2.2.2.2.2 [0, 0] rfl (by decide),
   by decide, by decide⟩

/-- C10. Extension classification: the Wii U Pro identifier gives WIIU_PRO, the
Nunchuk identifier gives WII_NUNCHUCK, and every 6-byte input different from
each of the four table identifiers gives -1. -/
theorem bt_get_type_from_wii_ext_classify :
    bt_get_type_from_wii_ext [0x00, 0x00, 0xA4, 0x20, 0x01, 0x20] = WIIU_PRO ∧
    bt_get_type_from_wii_ext [0x00, 0x00, 0xA4, 0x20, 0x00, 0x00] = WII_NUNCHUCK ∧
    ∀ ext_type : List Nat, ext_type.length = 6 →
      (∀ e ∈ bt_wii_ext_type, ext_type ≠ e.ext_type) →
      bt_get_type_from_wii_ext ext_type = -1 := by
  refine ⟨by decide, by decide, ?_⟩
  intro ext_type hlen hne
  have htake : ext_type.take 6 = ext_type := by
    rw [← hlen, List.take_length]
  have h0 := hne ⟨[0x00, 0x00, 0xA4, 0x20, 0x00, 0x00], WII_NUNCHUCK⟩ (by decide)
  have h1 := hne ⟨[0x00, 0x00, 0xA4, 0x20, 0x01, 0x01], WII_CLASSIC⟩ (by decide)
  have h2 := hne ⟨[0x01, 0x00, 0xA4, 0x20, 0x01, 0x01], WII_CLASSIC⟩ (by decide)
  have h3 := hne ⟨[0x00, 0x00, 0xA4, 0x20, 0x01, 0x20], WIIU_PRO⟩ (by decide)
  simp only [bt_get_type_from_wii_ext, bt_wii_ext_type, bt_get_type_from_wii_ext_loop,
    memcmp_eq, htake]
  simp at h0 h1 h2 h3
  simp [h0, h1, h2, h3]

/-- C10 on an identifier outside the table (last byte 0x02). -/
theorem bt_get_type_from_wii_ext_classify_witness :
    bt_get_type_from_wii_ext [0x00, 0x00, 0xA4, 0x20, 0x00, 0x02] = -1 :=
  bt_get_type_from_wii_ext_classify.2.2 [0x00, 0x00, 0xA4, 0x20, 0x00, 0x02] rfl (by decide)

/-! ### Bring-up sequencer -/

/-- Inside the table the step executor issues exactly the indexed entry. -/
theorem bt_host_config_q_cmd_in_table {i : Nat} (hi : i < 36) :
    (bt_hci_config[i]?).map (fun e => [e.call]) = some (bt_host_config_q_cmd i) := by
  interval_cases i <;> rfl

/-- Past the table the step executor issues nothing. -/
theorem bt_host_config_q_cmd_past_table {i : Nat} (hi : 36 ≤ i) :
    bt_host_config_q_cmd i = [] := by
  have : ¬ i < bt_hci_config.length := by simp [bt_hci_config]; omega
  simp [bt_host_config_q_cmd, this]

/-- One non-error command-complete for a recognised opcode: retry counter to 0,
index plus one, the executor runs at the new index; only a READ_BD_ADDR
completion also stores the local address. -/
theorem cmd_complete_success_step (s : host) (op : hci_opcode) (status : Nat)
    (rp : bt_addr_t) (hst : status = BT_HCI_ERR_SUCCESS ∨ status = BT_HCI_ERR_UNKNOWN_CMD)
    (hop : op = .BT_HCI_OP_READ_BD_ADDR ∨ op ∈ cmd_complete_success_cases) :
    bt_hci_event_handler s (.CMD_COMPLETE op status rp) =
      some ({ s with bt_pkt_retry := 0,
                     bt_config_state := (s.bt_config_state + 1) % 2 ^ 32,
                     local_bdaddr := if op = .BT_HCI_OP_READ_BD_ADDR then rp else s.local_bdaddr },
            bt_host_config_q_cmd ((s.bt_config_state + 1) % 2 ^ 32)) := by
  have h1 : ¬ (status ≠ BT_HCI_ERR_SUCCESS ∧ status ≠ BT_HCI_ERR_UNKNOWN_CMD) := by
    rcases hst with h | h <;> simp [h]
  simp only [bt_hci_event_handler, h1, if_false, hop, if_true]
  by_cases hrd : op = .BT_HCI_OP_READ_BD_ADDR <;> simp [hrd]

/-- One error command-complete for a recognised opcode. -/
theorem cmd_complete_error_step (s : host) (op : hci_opcode) (status : Nat)
    (rp : bt_addr_t) (hst : status ≠ BT_HCI_ERR_SUCCESS ∧ status ≠ BT_HCI_ERR_UNKNOWN_CMD)
    (hop : op ∈ cmd_complete_error_cases) :
    bt_hci_event_handler s (.CMD_COMPLETE op status rp) =
      if (s.bt_pkt_retry + 1) % 2 ^ 32 > BT_MAX_RETRY then
        some ({ s with bt_pkt_retry := 0, bt_config_state := 0 }, [reset_call])
      else
        some ({ s with bt_pkt_retry := (s.bt_pkt_retry + 1) % 2 ^ 32 },
              bt_host_config_q_cmd s.bt_config_state) := by
  simp only [bt_hci_event_handler, hst, hop, if_true, and_self, ne_eq, not_false_eq_true]

/-- C2 (as amended). Bring-up retry exhaustion: from any bring-up index with
retry counter 0, of four consecutive error command-completes for recognised
opcodes each of the first three leaves the index unchanged, raises the retry
counter by one and runs the step executor at the unchanged index, which issues
the current table entry when the index is below 36 and nothing otherwise; the
fourth sets index and retry counter to 0 and issues exactly one controller
reset.  Nothing else in the state changes. -/
theorem bring_up_retry_exhaustion (s : host) (hretry : s.bt_pkt_retry = 0)
    (evs : List hci_evt) (hlen : evs.length = 4)
    (herr : ∀ e ∈ evs, is_cmd_complete_error e = true) :
    (∀ n, 1 ≤ n → n ≤ 3 →
      run_events s (evs.take n) =
        some ({ s with bt_pkt_retry := n },
              List.replicate n (bt_host_config_q_cmd s.bt_config_state))) ∧
    run_events s evs =
      some ({ s with bt_pkt_retry := 0, bt_config_state := 0 },
            List.replicate 3 (bt_host_config_q_cmd s.bt_config_state) ++ [[reset_call]]) ∧
    (s.bt_config_state < 36 →
      (bt_hci_config[s.bt_config_state]?).map (fun e => [e.call])
        = some (bt_host_config_q_cmd s.bt_config_state)) ∧
    (36 ≤ s.bt_config_state → bt_host_config_q_cmd s.bt_config_state = []) := by
  have hstep : ∀ e ∈ evs, ∀ (t : host), t.bt_pkt_retry < 2 ^ 32 - 1 →
      bt_hci_event_handler t e =
        if t.bt_pkt_retry + 1 > BT_MAX_RETRY then
          some ({ t with bt_pkt_retry := 0, bt_config_state := 0 }, [reset_call])
        else
          some ({ t with bt_pkt_retry := t.bt_pkt_retry + 1 },
                bt_host_config_q_cmd t.bt_config_state) := by
    intro e he t ht
    have h := herr e he
    cases e with
    | CMD_COMPLETE op st rp =>
      simp only [is_cmd_complete_error, Bool.and_eq_true, decide_eq_true_eq, bne_iff_ne] at h
      have := cmd_complete_error_step t op st rp ⟨h.1.2, h.2⟩ h.1.1
      rwa [Nat.mod_eq_of_lt (by omega)] at this
    | _ => simp [is_cmd_complete_error] at h
  match evs, hlen with
  | [e1, e2, e3, e4], _ =>
    have h1 := hstep e1 (by simp) s (by rw [hretry]; decide)
    have h2 := hstep e2 (by simp) { s with bt_pkt_retry := 1 } (by show 1 < 2 ^ 32 - 1; decide)
    have h3 := hstep e3 (by simp) { s with bt_pkt_retry := 2 } (by show 2 < 2 ^ 32 - 1; decide)
    have h4 := hstep e4 (by simp) { s with bt_pkt_retry := 3 } (by show 3 < 2 ^ 32 - 1; decide)
    simp only [hretry, BT_MAX_RETRY] at h1 h2 h3 h4
    norm_num at h1 h2 h3 h4
    refine ⟨?_, ?_, fun h => bt_host_config_q_cmd_in_table h,
      fun h => bt_host_config_q_cmd_past_table h⟩
    · intro n hn1 hn3
      interval_cases n <;> simp [run_events, h1, h2, h3, List.replicate]
    · simp [run_events, h1, h2, h3, h4, List.replicate]

/-- C2 (as amended) on four failed RESET completions right after start-up. -/
theorem bring_up_retry_exhaustion_witness :
    run_events host_init [evt_reset_fail, evt_reset_fail, evt_reset_fail, evt_reset_fail] =
      some ({ host_init with bt_pkt_retry := 0, bt_config_state := 0 },
            List.replicate 3 (bt_host_config_q_cmd host_init.bt_config_state)
              ++ [[reset_call]]) :=
  (bring_up_retry_exhaustion host_init rfl
    [evt_reset_fail, evt_reset_fail, evt_reset_fail, evt_reset_fail] rfl (by decide)).2.1

/-- C2 as stated fails past the table: after 36 successful completions the
index is 36 (retry counter 0), and an error completion for RESET then raises the
retry counter and re-issues no command at all. -/
theorem bring_up_retry_past_table_issues_nothing :
    run_events host_init (List.replicate 36 evt_reset_ok) =
      some ({ host_init with bt_config_state := 36 },
            (List.range 36).map (fun j => bt_host_config_q_cmd (j + 1))) ∧
    bt_hci_config[36]? = none ∧
    bt_hci_event_handler { host_init with bt_config_state := 36 } evt_reset_fail =
      some ({ host_init with bt_config_state := 36, bt_pkt_retry := 1 }, []) := by
  decide

/-! ### Peer slots -/

/-- The address lookup returns the lowest-index slot that holds the address. -/
theorem bt_get_dev_from_bdaddr_first (tbl : dev_table) (bdaddr : bt_addr_t) (i : Fin 7)
    (device : Option (Fin 7)) (hi : (tbl.get i).remote_bdaddr = bdaddr)
    (hlow : ∀ j, j < i → (tbl.get j).remote_bdaddr ≠ bdaddr) :
    bt_get_dev_from_bdaddr tbl bdaddr device = ((i.val : Int), some i) := by
  unfold bt_get_dev_from_bdaddr
  rw [scan_slots_first (i := i) (by simpa using hi) (fun j hj => by simpa using hlow j hj)]
  rfl

/-- What a successful address lookup says about the table. -/
theorem bt_get_dev_from_bdaddr_some (tbl : dev_table) (bdaddr : bt_addr_t) (i : Fin 7)
    (h : (bt_get_dev_from_bdaddr tbl bdaddr none).2 = some i) :
    (tbl.get i).remote_bdaddr = bdaddr ∧ ∀ j, j < i → (tbl.get j).remote_bdaddr ≠ bdaddr := by
  unfold bt_get_dev_from_bdaddr at h
  cases hs : scan_slots (fun i => decide ((tbl.get i).remote_bdaddr = bdaddr)) with
  | none => rw [hs] at h; simp [scan_result] at h
  | some k =>
    rw [hs] at h
    simp only [scan_result, Option.some.injEq] at h
    subst h
    obtain ⟨h1, h2⟩ := scan_slots_some hs
    exact ⟨by simpa using h1, fun j hj => by simpa using h2 j hj⟩

/-- The address lookup fails exactly when no slot holds the address. -/
theorem bt_get_dev_from_bdaddr_none (tbl : dev_table) (bdaddr : bt_addr_t)
    (device : Option (Fin 7)) (h : ∀ j, (tbl.get j).remote_bdaddr ≠ bdaddr) :
    bt_get_dev_from_bdaddr tbl bdaddr device = (-1, device) := by
  unfold bt_get_dev_from_bdaddr
  rw [(scan_slots_none_iff _).mpr (fun j => by simpa using h j)]
  rfl

/-- The scan for an occupied slot gives `BT_NONE` exactly when none is occupied. -/
theorem bt_get_active_dev_none_iff (tbl : dev_table) (device : Option (Fin 7)) :
    (bt_get_active_dev tbl device).1 = BT_NONE ↔ ∀ j, occupied (tbl.get j) = false := by
  unfold bt_get_active_dev
  cases hs : scan_slots (fun i => atomic_test_bit (tbl.get i).flags BT_DEV_DEVICE_FOUND) with
  | none =>
    simp only [scan_result, BT_NONE, true_iff]
    exact (scan_slots_none_iff _).mp hs
  | some k =>
    have hk := (scan_slots_some hs).1
    simp only [scan_result, BT_NONE]
    constructor
    · intro h; omega
    · intro h
      have := h k
      simp [occupied, hk] at this

/-- The per-peer step executor issues the entry of the selected table at the
slot's step index, and nothing past the table. -/
theorem bt_host_dev_conn_q_cmd_eq (tbl : dev_table) (i : Fin 7) :
    bt_host_dev_conn_q_cmd tbl i =
      match dev_step_entry (tbl.get i) with
      | some e => [dev_cmd_call e tbl i]
      | none => [] := by
  unfold bt_host_dev_conn_q_cmd dev_step_entry bt_host_dev_rx_conn_q_cmd
    bt_host_dev_tx_conn_q_cmd
  cases hp : atomic_test_bit (tbl.get i).flags BT_DEV_PAGE
  · simp only [Bool.false_eq_true, if_false]
    split_ifs with h
    · rfl
    · rw [List.getElem?_eq_none (by omega)]
  · simp only [if_true]
    split_ifs with h
    · rfl
    · rw [List.getElem?_eq_none (by omega)]

/-- Writing a slot twice keeps the second write. -/
theorem dev_table_set_set (tbl : dev_table) (i : Fin 7) (a b : bt_dev) :
    (tbl.set i a).set i b = tbl.set i b := by
  apply Mathlib.Vector.ext
  intro m
  by_cases h : i = m
  · subst h; simp [Mathlib.Vector.get_set_same]
  · simp [Mathlib.Vector.get_set_of_ne h]

/-- The error branch of the two completion events, for the slot the lookup
returns: below the bound the retry counter goes up by one and the step executor
runs; at the bound the slot is zero-filled and inquiry restarts when no slot is
occupied any more. -/
theorem conn_error_step (s : host) (i : Fin 7) (bdaddr : bt_addr_t) (e : hci_evt)
    (hi : (s.bt_dev.get i).remote_bdaddr = bdaddr)
    (hlow : ∀ j, j < i → (s.bt_dev.get j).remote_bdaddr ≠ bdaddr)
    (he : is_conn_error_for bdaddr e = true) :
    bt_hci_event_handler s e =
      if (s.bt_dev.get i).pkt_retry + 1 < BT_MAX_RETRY then
        some ({ s with bt_dev := (s.bt_dev.set i
                  { (s.bt_dev.get i) with pkt_retry := (s.bt_dev.get i).pkt_retry + 1 }) },
              bt_host_dev_conn_q_cmd (s.bt_dev.set i
                  { (s.bt_dev.get i) with pkt_retry := (s.bt_dev.get i).pkt_retry + 1 }) i)
      else
        some ({ s with bt_dev := s.bt_dev.set i bt_dev_zero },
              if ∀ j, j ≠ i → occupied (s.bt_dev.get j) = false then [inquiry_call] else []) := by
  have hlook := bt_get_dev_from_bdaddr_first s.bt_dev bdaddr i none hi hlow
  have hact : (bt_get_active_dev (s.bt_dev.set i bt_dev_zero) (some i)).1 = BT_NONE ↔
      ∀ j, j ≠ i → occupied (s.bt_dev.get j) = false := by
    rw [bt_get_active_dev_none_iff]
    constructor
    · intro h j hj
      have := h j
      rwa [Mathlib.Vector.get_set_of_ne (Ne.symm hj)] at this
    · intro h j
      by_cases hj : j = i
      · subst hj; rw [Mathlib.Vector.get_set_same]; rfl
      · rw [Mathlib.Vector.get_set_of_ne (Ne.symm hj)]; exact h j hj
  have hbody : dev_conn_error s i =
      if (s.bt_dev.get i).pkt_retry + 1 < BT_MAX_RETRY then
        ({ s with bt_dev := (s.bt_dev.set i
                  { (s.bt_dev.get i) with pkt_retry := (s.bt_dev.get i).pkt_retry + 1 }) },
              bt_host_dev_conn_q_cmd (s.bt_dev.set i
                  { (s.bt_dev.get i) with pkt_retry := (s.bt_dev.get i).pkt_retry + 1 }) i)
      else
        ({ s with bt_dev := s.bt_dev.set i bt_dev_zero },
              if ∀ j, j ≠ i → occupied (s.bt_dev.get j) = false then [inquiry_call] else []) := by
    unfold dev_conn_error
    simp only [bt_host_reset_dev]
    split_ifs with h1 h2 h3 h3
    · rfl
    · rfl
    · exact absurd (hact.mp h2) h3
    · exact absurd (hact.mpr h3) h2
    · rfl
  cases e with
  | CONN_COMPLETE status handle a =>
    simp only [is_conn_error_for, Bool.and_eq_true, bne_iff_ne, decide_eq_true_eq] at he
    obtain ⟨hst, ha⟩ := he
    subst ha
    simp only [bt_hci_event_handler, hlook, hst, ne_eq, not_false_eq_true, if_true, hbody]
    split_ifs <;> rfl
  | REMOTE_NAME_REQ_COMPLETE status a name =>
    simp only [is_conn_error_for, Bool.and_eq_true, bne_iff_ne, decide_eq_true_eq] at he
    obtain ⟨hst, ha⟩ := he
    subst ha
    simp only [bt_hci_event_handler, hlook, hst, ne_eq, not_false_eq_true, if_true, hbody]
    split_ifs <;> rfl
  | _ => simp [is_conn_error_for] at he

/-- The step executor does not look at the retry counter. -/
theorem bt_host_dev_conn_q_cmd_set_retry (tbl : dev_table) (i : Fin 7) (r : Nat) :
    bt_host_dev_conn_q_cmd (tbl.set i { (tbl.get i) with pkt_retry := r }) i =
      bt_host_dev_conn_q_cmd tbl i := by
  rw [bt_host_dev_conn_q_cmd_eq, bt_host_dev_conn_q_cmd_eq, Mathlib.Vector.get_set_same]
  have hentry : dev_step_entry { (tbl.get i) with pkt_retry := r } = dev_step_entry (tbl.get i) :=
    rfl
  rw [hentry]
  cases dev_step_entry (tbl.get i) with
  | none => rfl
  | some e =>
    simp only [dev_cmd_call, Mathlib.Vector.get_set_same]

/-- C4 (as amended). Below the retry bound the same step is re-issued: for the
lowest-index slot holding the event's address, occupied, with retry counter `r`
equal to 0 or 1, a connection-complete or remote-name-complete event for that
address with non-zero status sets the retry counter to `r + 1`, changes nothing
else in the slot (found flag, step index, address, handle, channel ids) nor in
any other slot, and issues exactly what `bt_host_dev_conn_q_cmd` issues for the
slot as it was: the entry of the selected step table at the current step. -/
theorem conn_failure_below_bound (s : host) (i : Fin 7) (bdaddr : bt_addr_t) (e : hci_evt)
    (hi : (s.bt_dev.get i).remote_bdaddr = bdaddr)
    (hlow : ∀ j, j < i → (s.bt_dev.get j).remote_bdaddr ≠ bdaddr)
    (_hocc : occupied (s.bt_dev.get i) = true)
    (hr : (s.bt_dev.get i).pkt_retry = 0 ∨ (s.bt_dev.get i).pkt_retry = 1)
    (he : is_conn_error_for bdaddr e = true) :
    ∃ s1 cmds, bt_hci_event_handler s e = some (s1, cmds) ∧
      s1 = { s with bt_dev := (s.bt_dev.set i
              { (s.bt_dev.get i) with pkt_retry := (s.bt_dev.get i).pkt_retry + 1 }) } ∧
      (s1.bt_dev.get i).pkt_retry = (s.bt_dev.get i).pkt_retry + 1 ∧
      occupied (s1.bt_dev.get i) = true ∧
      (s1.bt_dev.get i).conn_state = (s.bt_dev.get i).conn_state ∧
      (s1.bt_dev.get i).remote_bdaddr = bdaddr ∧
      (s1.bt_dev.get i).acl_handle = (s.bt_dev.get i).acl_handle ∧
      (s1.bt_dev.get i).sdp_chan = (s.bt_dev.get i).sdp_chan ∧
      (s1.bt_dev.get i).ctrl_chan = (s.bt_dev.get i).ctrl_chan ∧
      (s1.bt_dev.get i).intr_chan = (s.bt_dev.get i).intr_chan ∧
      (∀ j, j ≠ i → s1.bt_dev.get j = s.bt_dev.get j) ∧
      cmds = bt_host_dev_conn_q_cmd s.bt_dev i ∧
      cmds = (match dev_step_entry (s.bt_dev.get i) with
              | some en => [dev_cmd_call en s.bt_dev i]
              | none => []) := by
  have hlt : (s.bt_dev.get i).pkt_retry + 1 < BT_MAX_RETRY := by
    rcases hr with h | h <;> rw [h] <;> decide
  have hstep := conn_error_step s i bdaddr e hi hlow he
  rw [if_pos hlt, bt_host_dev_conn_q_cmd_set_retry] at hstep
  refine ⟨_, _, hstep, rfl, ?_, ?_, ?_, ?_, ?_, ?_, ?_, ?_, ?_, rfl,
    bt_host_dev_conn_q_cmd_eq s.bt_dev i⟩
  · simp only [Mathlib.Vector.get_set_same]
  · simpa only [Mathlib.Vector.get_set_same] using _hocc
  · simp only [Mathlib.Vector.get_set_same]
  · simpa only [Mathlib.Vector.get_set_same] using hi
  · simp only [Mathlib.Vector.get_set_same]
  · simp only [Mathlib.Vector.get_set_same]
  · simp only [Mathlib.Vector.get_set_same]
  · simp only [Mathlib.Vector.get_set_same]
  · intro j hj
    exact Mathlib.Vector.get_set_of_ne (Ne.symm hj) _

/-- C3 (as amended). A peer whose connection step fails three times in a row is
released: for the lowest-index slot holding the events' address, occupied, with
retry counter 0, three consecutive connection-complete or remote-name-complete
events for that address with non-zero status leave that slot zero-filled and
every other slot and the rest of the state as they were; the first two re-issue
the current step, the third issues exactly one inquiry start when no other slot
is occupied and nothing when another slot is. -/
theorem conn_failure_releases_slot (s : host) (i : Fin 7) (bdaddr : bt_addr_t)
    (e1 e2 e3 : hci_evt)
    (hi : (s.bt_dev.get i).remote_bdaddr = bdaddr)
    (hlow : ∀ j, j < i → (s.bt_dev.get j).remote_bdaddr ≠ bdaddr)
    (_hocc : occupied (s.bt_dev.get i) = true)
    (hretry : (s.bt_dev.get i).pkt_retry = 0)
    (h1 : is_conn_error_for bdaddr e1 = true) (h2 : is_conn_error_for bdaddr e2 = true)
    (h3 : is_conn_error_for bdaddr e3 = true) :
    ∃ s3 c3, run_events s [e1, e2, e3] =
        some (s3, [bt_host_dev_conn_q_cmd s.bt_dev i, bt_host_dev_conn_q_cmd s.bt_dev i, c3]) ∧
      s3 = { s with bt_dev := s.bt_dev.set i bt_dev_zero } ∧
      s3.bt_dev.get i = bt_dev_zero ∧
      occupied (s3.bt_dev.get i) = false ∧
      (∀ j, j ≠ i → s3.bt_dev.get j = s.bt_dev.get j) ∧
      ((∀ j, j ≠ i → occupied (s.bt_dev.get j) = false) → c3 = [inquiry_call]) ∧
      ((∃ j, j ≠ i ∧ occupied (s.bt_dev.get j) = true) → c3 = []) := by
  -- first failure
  have hs1 := conn_error_step s i bdaddr e1 hi hlow h1
  rw [hretry, if_pos (by decide), bt_host_dev_conn_q_cmd_set_retry] at hs1
  -- second failure, on the state the first one left
  have hi1 : ((s.bt_dev.set i { (s.bt_dev.get i) with pkt_retry := 0 + 1 }).get i).remote_bdaddr
      = bdaddr := by
    rw [Mathlib.Vector.get_set_same]; exact hi
  have hlow1 : ∀ j, j < i →
      ((s.bt_dev.set i { (s.bt_dev.get i) with pkt_retry := 0 + 1 }).get j).remote_bdaddr
        ≠ bdaddr := by
    intro j hj
    rw [Mathlib.Vector.get_set_of_ne (Fin.ne_of_gt hj)]
    exact hlow j hj
  have hs2 := conn_error_step
    { s with bt_dev := (s.bt_dev.set i { (s.bt_dev.get i) with pkt_retry := 0 + 1 }) }
    i bdaddr e2 hi1 hlow1 h2
  simp only [Mathlib.Vector.get_set_same, dev_table_set_set] at hs2
  rw [if_pos (by decide), bt_host_dev_conn_q_cmd_set_retry] at hs2
  -- third failure
  have hi2 : ((s.bt_dev.set i { (s.bt_dev.get i) with pkt_retry := 0 + 1 + 1 }).get i).remote_bdaddr
      = bdaddr := by
    rw [Mathlib.Vector.get_set_same]; exact hi
  have hlow2 : ∀ j, j < i →
      ((s.bt_dev.set i { (s.bt_dev.get i) with pkt_retry := 0 + 1 + 1 }).get j).remote_bdaddr
        ≠ bdaddr := by
    intro j hj
    rw [Mathlib.Vector.get_set_of_ne (Fin.ne_of_gt hj)]
    exact hlow j hj
  have hs3 := conn_error_step
    { s with bt_dev := (s.bt_dev.set i { (s.bt_dev.get i) with pkt_retry := 0 + 1 + 1 }) }
    i bdaddr e3 hi2 hlow2 h3
  simp only [Mathlib.Vector.get_set_same, dev_table_set_set] at hs3
  rw [if_neg (by decide)] at hs3
  have hother : (∀ j, j ≠ i → occupied
      ((s.bt_dev.set i { (s.bt_dev.get i) with pkt_retry := 0 + 1 + 1 }).get j) = false) ↔
      (∀ j, j ≠ i → occupied (s.bt_dev.get j) = false) := by
    constructor
    · intro h j hj
      have := h j hj
      rwa [Mathlib.Vector.get_set_of_ne (Ne.symm hj)] at this
    · intro h j hj
      rw [Mathlib.Vector.get_set_of_ne (Ne.symm hj)]
      exact h j hj
  by_cases hall : ∀ j, j ≠ i → occupied (s.bt_dev.get j) = false
  · rw [if_pos (hother.mpr hall)] at hs3
    refine ⟨_, [inquiry_call], ?_, rfl, ?_, ?_, ?_, fun _ => rfl, ?_⟩
    · simp only [run_events, hs1, hs2, hs3]
    · simp only [Mathlib.Vector.get_set_same]
    · simp only [Mathlib.Vector.get_set_same]; rfl
    · intro j hj
      exact Mathlib.Vector.get_set_of_ne (Ne.symm hj) _
    · rintro ⟨j, hj, hocc⟩
      rw [hall j hj] at hocc
      exact Bool.noConfusion hocc
  · rw [if_neg (fun h => hall (hother.mp h))] at hs3
    refine ⟨_, [], ?_, rfl, ?_, ?_, ?_, fun h => absurd h hall, fun _ => rfl⟩
    · simp only [run_events, hs1, hs2, hs3]
    · simp only [Mathlib.Vector.get_set_same]
    · simp only [Mathlib.Vector.get_set_same]; rfl
    · intro j hj
      exact Mathlib.Vector.get_set_of_ne (Ne.symm hj) _

/-- C4 (as amended) on slot 1 of a two-peer table: one failed connection. -/
theorem conn_failure_below_bound_witness :
    ∃ s1 cmds, bt_hci_event_handler host_two_peers evt_conn_b_fail = some (s1, cmds) ∧
      (s1.bt_dev.get 1).pkt_retry = 1 ∧
      cmds = [⟨.bt_hci_cmd_connect, .bdaddr addr_b⟩] := by
  obtain ⟨s1, cmds, h, _, hr, _, _, _, _, _, _, _, _, hc, _⟩ :=
    conn_failure_below_bound host_two_peers 1 addr_b evt_conn_b_fail rfl (by decide)
      (by decide) (Or.inl rfl) (by decide)
  exact ⟨s1, cmds, h, hr, hc.trans (by decide)⟩

/-- C4 as stated fails when a lower slot holds the same address.  The same peer
announced twice is allocated twice (the inquiry-result handler looks up bytes of
its local pointer variable, not the reported address), so slots 0 and 1 are
both occupied with `addr_a` and retry counter 0; a failed connection-complete
for `addr_a` then counts on slot 0 only, and the retry counter of slot 1 stays 0. -/
theorem conn_failure_counts_on_first_slot_only :
    (run_events host_init [evt_found_a, evt_found_a]).map
        (fun r => ((r.1.bt_dev.get 1).remote_bdaddr, occupied (r.1.bt_dev.get 1),
                   (r.1.bt_dev.get 1).pkt_retry))
      = some (addr_a, true, 0) ∧
    (run_events host_init [evt_found_a, evt_found_a, evt_conn_a_fail]).map
        (fun r => ((r.1.bt_dev.get 0).pkt_retry, (r.1.bt_dev.get 1).pkt_retry))
      = some (1, 0) := by
  decide

/-- C3 (as amended) on slot 1 of a two-peer table: three failures in a row, of
both event kinds; slot 0 stays occupied, so no inquiry is started. -/
theorem conn_failure_releases_slot_witness :
    ∃ s3 c3, run_events host_two_peers [evt_conn_b_fail, evt_name_b_fail, evt_conn_b_fail] =
        some (s3, [bt_host_dev_conn_q_cmd host_two_peers.bt_dev 1,
                   bt_host_dev_conn_q_cmd host_two_peers.bt_dev 1, c3]) ∧
      s3.bt_dev.get 1 = bt_dev_zero ∧ c3 = [] := by
  obtain ⟨s3, c3, h, _, hz, _, _, _, hc⟩ :=
    conn_failure_releases_slot host_two_peers 1 addr_b evt_conn_b_fail evt_name_b_fail
      evt_conn_b_fail rfl (by decide) (by decide) rfl (by decide) (by decide) (by decide)
  exact ⟨s3, c3, h, hz, hc ⟨0, by decide, by decide⟩⟩

/-- C3 as stated fails when a lower slot holds the same address.  The same peer
announced twice is allocated twice (the inquiry-result handler looks up bytes of
its local pointer variable, not the reported address); with slots 0 and 1 both
occupied by `addr_a` (retry counter 0), three failed connection-completes for
`addr_a` release slot 0; slot 1 is still occupied and holds `addr_a`, it is not
zero-filled. -/
theorem conn_failure_releases_first_slot_only :
    (run_events host_init [evt_found_a, evt_found_a]).map
        (fun r => ((r.1.bt_dev.get 1).remote_bdaddr, occupied (r.1.bt_dev.get 1),
                   (r.1.bt_dev.get 1).pkt_retry))
      = some (addr_a, true, 0) ∧
    (run_events host_init
        [evt_found_a, evt_found_a, evt_conn_a_fail, evt_conn_a_fail, evt_conn_a_fail]).map
        (fun r => (decide (r.1.bt_dev.get 0 = bt_dev_zero), occupied (r.1.bt_dev.get 1),
                   (r.1.bt_dev.get 1).remote_bdaddr, decide (r.1.bt_dev.get 1 = bt_dev_zero)))
      = some (true, true, addr_a, false) := by
  decide

/-! ### Discovery and step advancement -/

/-- Every slot of the start-up table is zero-filled. -/
theorem bt_dev_init_get (j : Fin 7) : bt_dev_init.get j = bt_dev_zero := by
  fin_cases j <;> rfl

/-- C5 (as amended). Discovery scenario: with all 7 slots zero-filled (the table
at start-up and after every release) and the six bytes the handler hands to the
address lookup not all zero, an inquiry-result event of any of the three kinds
with at least one report, the first being address `bdaddr`, allocates slot 0:
afterwards slot 0 has address `bdaddr`, id 0, local channel ids 0x70, 0x80, 0x90,
found flag set, step index 0 and retry counter 0, slots 1..6 and the rest of the
state are unchanged, and the commands issued are exactly inquiry-cancel followed
by connect with address `bdaddr`. -/
theorem inquiry_result_allocates_slot_zero (s : host) (evt : inquiry_result_evt)
    (num_reports : Nat) (bdaddr : bt_addr_t) (rest : List bt_addr_t) (local_bytes : bt_addr_t)
    (hempty : s.bt_dev = bt_dev_init) (hn : 1 ≤ num_reports)
    (hlocal : local_bytes ≠ bdaddr_zero) :
    ∃ s1, bt_hci_event_handler s (.INQUIRY_RESULT evt num_reports (bdaddr :: rest) local_bytes)
        = some (s1, [inquiry_cancel_call, ⟨.bt_hci_cmd_connect, .bdaddr bdaddr⟩]) ∧
      s1 = { s with bt_dev := (s.bt_dev.set 0
              { bt_dev_zero with remote_bdaddr := bdaddr, id := 0, flags := 1,
                                 sdp_chan := ⟨0x70, 0⟩, ctrl_chan := ⟨0x80, 0⟩,
                                 intr_chan := ⟨0x90, 0⟩ }) } ∧
      (s1.bt_dev.get 0).remote_bdaddr = bdaddr ∧
      (s1.bt_dev.get 0).id = 0 ∧
      (s1.bt_dev.get 0).sdp_chan.scid = 0x70 ∧
      (s1.bt_dev.get 0).ctrl_chan.scid = 0x80 ∧
      (s1.bt_dev.get 0).intr_chan.scid = 0x90 ∧
      occupied (s1.bt_dev.get 0) = true ∧
      (s1.bt_dev.get 0).conn_state = 0 ∧
      (s1.bt_dev.get 0).pkt_retry = 0 ∧
      (∀ j, j ≠ 0 → s1.bt_dev.get j = s.bt_dev.get j) := by
  have hlook : bt_get_dev_from_bdaddr bt_dev_init local_bytes none = (-1, none) :=
    bt_get_dev_from_bdaddr_none _ _ _ (fun j => by
      rw [bt_dev_init_get]; exact fun h => hlocal h.symm)
  have hnew : bt_get_new_dev bt_dev_init none = (0, some 0) := by decide
  have hrun : bt_hci_event_handler s
      (.INQUIRY_RESULT evt num_reports (bdaddr :: rest) local_bytes)
        = some ({ s with bt_dev := (s.bt_dev.set 0
              { bt_dev_zero with remote_bdaddr := bdaddr, id := 0, flags := 1,
                                 sdp_chan := ⟨0x70, 0⟩, ctrl_chan := ⟨0x80, 0⟩,
                                 intr_chan := ⟨0x90, 0⟩ }) },
                [inquiry_cancel_call, ⟨.bt_hci_cmd_connect, .bdaddr bdaddr⟩]) := by
    have h70 : Int.toNat 0 ||| 0x0070 = 0x70 := by decide
    have h80 : Int.toNat 0 ||| 0x0080 = 0x80 := by decide
    have h90 : Int.toNat 0 ||| 0x0090 = 0x90 := by decide
    have hflag : atomic_set_bit bt_dev_zero.flags BT_DEV_DEVICE_FOUND = 1 := by decide
    have hentry : ∀ a : bt_addr_t, dev_step_entry
        { bt_dev_zero with remote_bdaddr := a, id := 0, flags := 1,
                           sdp_chan := ⟨0x70, 0⟩, ctrl_chan := ⟨0x80, 0⟩,
                           intr_chan := ⟨0x90, 0⟩ }
          = some ⟨.bt_hci_cmd_connect, .BT_CMD_PARAM_BDADDR⟩ := fun _ => by
      simp only [dev_step_entry, atomic_test_bit]; decide
    simp only [bt_hci_event_handler, hn, if_true, hempty, hlook, hnew, bt_dev_init_get,
      h70, h80, h90, hflag, List.getD_cons_zero, bt_host_dev_conn_q_cmd_eq,
      Mathlib.Vector.get_set_same]
    rw [show (bt_dev_zero.sdp_chan.dcid = 0) from rfl, show (bt_dev_zero.ctrl_chan.dcid = 0) from rfl,
      show (bt_dev_zero.intr_chan.dcid = 0) from rfl, hentry]
    simp only [dev_cmd_call, Mathlib.Vector.get_set_same]
  refine ⟨_, hrun, rfl, ?_, ?_, ?_, ?_, ?_, ?_, ?_, ?_, ?_⟩
  · simp only [Mathlib.Vector.get_set_same]
  · simp only [Mathlib.Vector.get_set_same]
  · simp only [Mathlib.Vector.get_set_same]
  · simp only [Mathlib.Vector.get_set_same]
  · simp only [Mathlib.Vector.get_set_same]
  · simp only [Mathlib.Vector.get_set_same, occupied, atomic_test_bit]; decide
  · simp only [Mathlib.Vector.get_set_same]; rfl
  · simp only [Mathlib.Vector.get_set_same]; rfl
  · intro j hj
    exact Mathlib.Vector.get_set_of_ne (Ne.symm hj) _

/-- C5 (as amended) at start-up, for a with-RSSI result announcing `addr_a`. -/
theorem inquiry_result_allocates_slot_zero_witness :
    bt_hci_event_handler host_init evt_found_a
      = some ({ host_init with bt_dev := tbl_one_peer },
              [inquiry_cancel_call, ⟨.bt_hci_cmd_connect, .bdaddr addr_a⟩]) := by
  obtain ⟨s1, h, hs, _⟩ := inquiry_result_allocates_slot_zero host_init
    .BT_HCI_EVT_INQUIRY_RESULT_WITH_RSSI 1 addr_a [] stack_bytes rfl (by decide) (by decide)
  rw [hs] at h
  exact h

/-- C5 as stated fails in two ways.  (1) All seven slots can be empty (found flag
clear) without being zero-filled: a successful connection-complete carrying the
all-zero address is matched to the empty slot 0 and leaves step index 1 there;
an inquiry result then allocates slot 0 with step index 1 and issues
remote-name-request, not connect.  (2) When the six bytes the handler hands to
the lookup are all zero they match the empty slot 0 and nothing is allocated or
issued. -/
theorem inquiry_result_on_stale_or_matched_slot :
    (run_events host_init [evt_conn_zero_ok]).map
        (fun r => (List.finRange 7).all (fun j => !occupied (r.1.bt_dev.get j)))
      = some true ∧
    (run_events host_init [evt_conn_zero_ok, evt_found_a]).map
        (fun r => (occupied (r.1.bt_dev.get 0), (r.1.bt_dev.get 0).conn_state, r.2.getLast?))
      = some (true, 1, some [inquiry_cancel_call,
                            ⟨.bt_hci_cmd_remote_name_request, .bdaddr addr_a⟩]) ∧
    bt_hci_event_handler host_init
        (.INQUIRY_RESULT .BT_HCI_EVT_INQUIRY_RESULT 1 [addr_a] bdaddr_zero)
      = some (host_init, []) := by
  decide

/-- C6 (as amended). Connection-complete success: for the lowest-index slot
holding the event's address (the one slot the handler updates), occupied, and
status 0, the slot's connection handle becomes the handle carried by the event,
its retry counter becomes 0, its step index increases by exactly 1, nothing
else changes, and the step executor runs at the new step: it issues exactly the
entry of the selected step table at the new index when that index is inside
the table, and nothing when it is past the table.  For a host-initiated peer at
step 0 this yields step index 1 and a remote-name-request for the peer's
address. -/
theorem conn_complete_success (s : host) (i : Fin 7) (bdaddr : bt_addr_t) (handle : Nat)
    (hi : (s.bt_dev.get i).remote_bdaddr = bdaddr)
    (hlow : ∀ j, j < i → (s.bt_dev.get j).remote_bdaddr ≠ bdaddr)
    (_hocc : occupied (s.bt_dev.get i) = true) :
    ∃ s1 cmds, bt_hci_event_handler s (.CONN_COMPLETE 0 handle bdaddr) = some (s1, cmds) ∧
      s1 = { s with bt_dev := (s.bt_dev.set i
              { (s.bt_dev.get i) with acl_handle := handle, pkt_retry := 0,
                                      conn_state := (s.bt_dev.get i).conn_state + 1 }) } ∧
      (s1.bt_dev.get i).acl_handle = handle ∧
      (s1.bt_dev.get i).pkt_retry = 0 ∧
      (s1.bt_dev.get i).conn_state = (s.bt_dev.get i).conn_state + 1 ∧
      (∀ j, j ≠ i → s1.bt_dev.get j = s.bt_dev.get j) ∧
      cmds = (match dev_step_entry (s1.bt_dev.get i) with
              | some en => [dev_cmd_call en s1.bt_dev i]
              | none => []) ∧
      (atomic_test_bit (s.bt_dev.get i).flags BT_DEV_PAGE = false →
        (s.bt_dev.get i).conn_state = 0 →
        (s1.bt_dev.get i).conn_state = 1 ∧
          cmds = [⟨.bt_hci_cmd_remote_name_request, .bdaddr bdaddr⟩]) := by
  have hlook := bt_get_dev_from_bdaddr_first s.bt_dev bdaddr i none hi hlow
  have hrun : bt_hci_event_handler s (.CONN_COMPLETE 0 handle bdaddr) =
      some ({ s with bt_dev := (s.bt_dev.set i
              { (s.bt_dev.get i) with acl_handle := handle, pkt_retry := 0,
                                      conn_state := (s.bt_dev.get i).conn_state + 1 }) },
            bt_host_dev_conn_q_cmd (s.bt_dev.set i
              { (s.bt_dev.get i) with acl_handle := handle, pkt_retry := 0,
                                      conn_state := (s.bt_dev.get i).conn_state + 1 }) i) := by
    simp only [bt_hci_event_handler, hlook, ne_eq, not_true_eq_false, if_false]
  refine ⟨_, _, hrun, rfl, ?_, ?_, ?_, ?_, ?_, ?_⟩
  · simp only [Mathlib.Vector.get_set_same]
  · simp only [Mathlib.Vector.get_set_same]
  · simp only [Mathlib.Vector.get_set_same]
  · intro j hj
    exact Mathlib.Vector.get_set_of_ne (Ne.symm hj) _
  · exact bt_host_dev_conn_q_cmd_eq _ i
  · intro hpage hstep
    refine ⟨by simp only [Mathlib.Vector.get_set_same, hstep], ?_⟩
    rw [bt_host_dev_conn_q_cmd_eq]
    simp only [Mathlib.Vector.get_set_same, dev_step_entry, hpage, hstep, dev_cmd_call, hi]
    rfl

/-- C6 (as amended) on slot 1 of a two-peer table, a host-initiated peer at
step 0. -/
theorem conn_complete_success_witness :
    ∃ s1 cmds, bt_hci_event_handler host_two_peers evt_conn_b_ok = some (s1, cmds) ∧
      (s1.bt_dev.get 1).acl_handle = 0x002B ∧ (s1.bt_dev.get 1).pkt_retry = 0 ∧
      (s1.bt_dev.get 1).conn_state = 1 ∧
      cmds = [⟨.bt_hci_cmd_remote_name_request, .bdaddr addr_b⟩] := by
  obtain ⟨s1, cmds, h, _, hh, hr, _, _, _, hc⟩ :=
    conn_complete_success host_two_peers 1 addr_b 0x002B rfl (by decide) (by decide)
  exact ⟨s1, cmds, h, hh, hr, (hc (by decide) rfl).1, (hc (by decide) rfl).2⟩

/-- C6 as stated fails in two ways.  (1) With slots 0 and 1 both occupied by
`addr_a` (the same peer announced twice is allocated twice), a successful
connection-complete for `addr_a` updates slot 0 only: slot 1 keeps handle 0 and
step index 0.  (2) For a single occupied slot, the
ninth successful connection-complete moves the step index to 9, past the
9-entry initiator table, and issues no command. -/
theorem conn_complete_first_slot_only_and_past_table :
    (run_events host_init [evt_found_a, evt_found_a]).map
        (fun r => ((r.1.bt_dev.get 1).remote_bdaddr, occupied (r.1.bt_dev.get 1)))
      = some (addr_a, true) ∧
    (run_events host_init [evt_found_a, evt_found_a, evt_conn_a_ok]).map
        (fun r => ((r.1.bt_dev.get 0).acl_handle, (r.1.bt_dev.get 0).conn_state,
                   (r.1.bt_dev.get 1).acl_handle, (r.1.bt_dev.get 1).conn_state))
      = some (0x002A, 1, 0, 0) ∧
    (run_events host_init (evt_found_a :: List.replicate 9 evt_conn_a_ok)).map
        (fun r => (occupied (r.1.bt_dev.get 0), (r.1.bt_dev.get 0).conn_state, r.2.getLast?))
      = some (true, 9, some []) := by
  decide

/-- C7 (as amended). Remote-name-complete success: for the slot the address
lookup returns, occupied, and status 0, the slot's type becomes
`bt_get_type_from_name name`, its retry counter becomes 0, its step index
increases by 1, nothing else changes, and the step executor runs at the new
step: it issues exactly the entry of the selected step table at the new index
when that index is inside the table, and nothing when it is past the table.
With a name that starts with "Nintendo RVL-CNT-01-UC" and a host-initiated peer
at step 1 the type is WIIU_PRO, the step index is 2 and the command issued is
read-remote-features with the peer's connection handle. -/
theorem remote_name_complete_success (s : host) (i : Fin 7) (bdaddr : bt_addr_t)
    (name : List Nat)
    (hmatch : (bt_get_dev_from_bdaddr s.bt_dev bdaddr none).2 = some i)
    (_hocc : occupied (s.bt_dev.get i) = true) :
    ∃ s1 cmds, bt_hci_event_handler s (.REMOTE_NAME_REQ_COMPLETE 0 bdaddr name)
        = some (s1, cmds) ∧
      s1 = { s with bt_dev := (s.bt_dev.set i
              { (s.bt_dev.get i) with type := bt_get_type_from_name name, pkt_retry := 0,
                                      conn_state := (s.bt_dev.get i).conn_state + 1 }) } ∧
      (s1.bt_dev.get i).type = bt_get_type_from_name name ∧
      (s1.bt_dev.get i).pkt_retry = 0 ∧
      (s1.bt_dev.get i).conn_state = (s.bt_dev.get i).conn_state + 1 ∧
      (∀ j, j ≠ i → s1.bt_dev.get j = s.bt_dev.get j) ∧
      cmds = (match dev_step_entry (s1.bt_dev.get i) with
              | some en => [dev_cmd_call en s1.bt_dev i]
              | none => []) ∧
      (c_str "Nintendo RVL-CNT-01-UC" <+: name →
        atomic_test_bit (s.bt_dev.get i).flags BT_DEV_PAGE = false →
        (s.bt_dev.get i).conn_state = 1 →
        (s1.bt_dev.get i).type = WIIU_PRO ∧ (s1.bt_dev.get i).conn_state = 2 ∧
          cmds = [⟨.bt_hci_cmd_read_remote_features, .handle (s.bt_dev.get i).acl_handle⟩]) := by
  have hrun : bt_hci_event_handler s (.REMOTE_NAME_REQ_COMPLETE 0 bdaddr name) =
      some ({ s with bt_dev := (s.bt_dev.set i
              { (s.bt_dev.get i) with type := bt_get_type_from_name name, pkt_retry := 0,
                                      conn_state := (s.bt_dev.get i).conn_state + 1 }) },
            bt_host_dev_conn_q_cmd (s.bt_dev.set i
              { (s.bt_dev.get i) with type := bt_get_type_from_name name, pkt_retry := 0,
                                      conn_state := (s.bt_dev.get i).conn_state + 1 }) i) := by
    simp only [bt_hci_event_handler, hmatch, ne_eq, not_true_eq_false, if_false]
  refine ⟨_, _, hrun, rfl, ?_, ?_, ?_, ?_, ?_, ?_⟩
  · simp only [Mathlib.Vector.get_set_same]
  · simp only [Mathlib.Vector.get_set_same]
  · simp only [Mathlib.Vector.get_set_same]
  · intro j hj
    exact Mathlib.Vector.get_set_of_ne (Ne.symm hj) _
  · exact bt_host_dev_conn_q_cmd_eq _ i
  · intro hname hpage hstep
    refine ⟨?_, by simp only [Mathlib.Vector.get_set_same, hstep], ?_⟩
    · simp only [Mathlib.Vector.get_set_same]
      rw [bt_get_type_from_name_eq, if_pos hname]
    rw [bt_host_dev_conn_q_cmd_eq]
    simp only [Mathlib.Vector.get_set_same, dev_step_entry, hpage, hstep, dev_cmd_call]
    rfl

/-- C7 (as amended) on slot 1 of a two-peer table, connected and at step 1. -/
theorem remote_name_complete_success_witness :
    ∃ s1 cmds, bt_hci_event_handler host_two_peers_connected evt_name_b_ok = some (s1, cmds) ∧
      (s1.bt_dev.get 1).type = WIIU_PRO ∧ (s1.bt_dev.get 1).conn_state = 2 ∧
      cmds = [⟨.bt_hci_cmd_read_remote_features, .handle 0x002B⟩] := by
  obtain ⟨s1, cmds, h, _, _, _, _, _, _, hc⟩ :=
    remote_name_complete_success host_two_peers_connected 1 addr_b
      (c_str "Nintendo RVL-CNT-01-UC" ++ [0, 0]) (by decide) (by decide)
  obtain ⟨h1, h2, h3⟩ := hc (List.prefix_append _ _) (by decide) rfl
  exact ⟨s1, cmds, h, h1, h2, h3⟩

/-- C7 as stated fails past the step table: for an occupied host-initiated peer
whose step index has reached 8, a successful remote-name-complete sets the type
and moves the step index to 9, and no command is issued. -/
theorem remote_name_complete_past_table_issues_nothing :
    (run_events host_init (evt_found_a :: List.replicate 8 evt_conn_a_ok)).map
        (fun r => (occupied (r.1.bt_dev.get 0), (r.1.bt_dev.get 0).conn_state))
      = some (true, 8) ∧
    (run_events host_init (evt_found_a :: List.replicate 8 evt_conn_a_ok ++ [evt_name_a_ok])).map
        (fun r => ((r.1.bt_dev.get 0).type, (r.1.bt_dev.get 0).conn_state, r.2.getLast?))
      = some (WIIU_PRO, 9, some []) := by
  decide

/-! ### Allocation -/

/-- What a successful scan for a free slot says: the returned value is the index
of the slot handed out, that slot is empty and every lower one is occupied. -/
theorem bt_get_new_dev_some (tbl : dev_table) (device : Option (Fin 7)) (j : Fin 7)
    (h : scan_slots (fun i => !atomic_test_bit (tbl.get i).flags BT_DEV_DEVICE_FOUND) = some j) :
    bt_get_new_dev tbl device = ((j.val : Int), some j) ∧ occupied (tbl.get j) = false ∧
      ∀ k, k < j → occupied (tbl.get k) = true := by
  obtain ⟨h1, h2⟩ := scan_slots_some h
  refine ⟨by unfold bt_get_new_dev; rw [h]; rfl, ?_, fun k hk => ?_⟩
  · simpa [occupied] using h1
  · simpa [occupied] using h2 k hk

/-- The scan for a free slot finds nothing exactly when every slot is occupied,
and then leaves `*device` alone. -/
theorem bt_get_new_dev_none (tbl : dev_table) (device : Option (Fin 7))
    (h : ∀ j, occupied (tbl.get j) = true) :
    bt_get_new_dev tbl device = (-1, device) := by
  unfold bt_get_new_dev
  rw [(scan_slots_none_iff _).mpr (fun j => by simpa [occupied] using h j)]
  rfl

/-- C11. Allocation is refused when the table is full: when all 7 slots have the
found flag set, `bt_get_new_dev` returns -1 and leaves the caller's slot
reference as it was, whatever it was; the function only reads the table (its
embedding takes the table and returns no table), so no slot is modified. -/
theorem bt_get_new_dev_full (tbl : dev_table)
    (hfull : ∀ j, atomic_test_bit (tbl.get j).flags BT_DEV_DEVICE_FOUND = true) :
    ∀ device : Option (Fin 7),
      bt_get_new_dev tbl device = (-1, device) ∧ (bt_get_new_dev tbl device).1 = -1 ∧
        (bt_get_new_dev tbl device).2 = device := by
  intro device
  have h := bt_get_new_dev_none tbl device hfull
  exact ⟨h, by rw [h], by rw [h]⟩

/-- C11 on a full table, with the caller's reference `NULL` and with it
pointing to slot 3. -/
theorem bt_get_new_dev_full_witness :
    (∀ j, atomic_test_bit (tbl_full.get j).flags BT_DEV_DEVICE_FOUND = true) ∧
      bt_get_new_dev tbl_full none = (-1, none) ∧
      bt_get_new_dev tbl_full (some 3) = (-1, some 3) :=
  ⟨by decide, (bt_get_new_dev_full tbl_full (by decide) none).1,
    (bt_get_new_dev_full tbl_full (by decide) (some 3)).1⟩

/-- C12 (as amended). Allocation after a release: for every table and every
occupied slot index `i`, after `bt_host_reset_dev` on slot `i` the next
`bt_get_new_dev` succeeds and returns the lowest index whose found flag is
clear; that index is at most `i`, it is `i` exactly when every slot below `i`
is occupied, and otherwise it is a lower slot that was already empty. -/
theorem bt_get_new_dev_after_reset (tbl : dev_table) (i : Fin 7) (device : Option (Fin 7))
    (_hocc : occupied (tbl.get i) = true) :
    ∃ k : Fin 7,
      bt_get_new_dev (tbl.set i (bt_host_reset_dev (tbl.get i))) device = ((k.val : Int), some k) ∧
      k ≤ i ∧
      (∀ j, j < k → occupied (tbl.get j) = true) ∧
      ((∀ j, j < i → occupied (tbl.get j) = true) → k = i) ∧
      (k ≠ i → occupied (tbl.get k) = false) := by
  have hfree : (fun j => !atomic_test_bit ((tbl.set i (bt_host_reset_dev (tbl.get i))).get j).flags
      BT_DEV_DEVICE_FOUND) i = true := by
    simp only [Mathlib.Vector.get_set_same, bt_host_reset_dev]; decide
  cases hs : scan_slots (fun j => !atomic_test_bit
      ((tbl.set i (bt_host_reset_dev (tbl.get i))).get j).flags BT_DEV_DEVICE_FOUND) with
  | none =>
    have := (scan_slots_none_iff _).mp hs i
    exact Bool.noConfusion (hfree.symm.trans this)
  | some k =>
    obtain ⟨hnew, hk, hlow⟩ := bt_get_new_dev_some _ device k hs
    have hki : k ≤ i := by
      by_contra hlt
      have := hlow i (not_le.mp hlt)
      simp only [Mathlib.Vector.get_set_same, bt_host_reset_dev] at this
      exact absurd this (by decide)
    have hget : ∀ j, j ≠ i →
        (tbl.set i (bt_host_reset_dev (tbl.get i))).get j = tbl.get j :=
      fun j hj => Mathlib.Vector.get_set_of_ne (Ne.symm hj) _
    refine ⟨k, hnew, hki, ?_, ?_, ?_⟩
    · intro j hj
      have := hlow j hj
      rwa [hget j (Fin.ne_of_lt (lt_of_lt_of_le hj hki))] at this
    · intro hall
      rcases lt_or_eq_of_le hki with hlt | heq
      · have h1 := hall k hlt
        rw [← hget k (Fin.ne_of_lt hlt), hk] at h1
        exact Bool.noConfusion h1
      · exact heq
    · intro hne
      rwa [hget k hne] at hk

/-- C12 (as amended) on a table whose slots 0 and 1 are occupied: releasing
slot 1 hands out slot 1 again. -/
theorem bt_get_new_dev_after_reset_witness :
    bt_get_new_dev (tbl_two_peers.set 1 (bt_host_reset_dev (tbl_two_peers.get 1))) none
      = (1, some 1) := by
  obtain ⟨k, h, _, _, hk, _⟩ := bt_get_new_dev_after_reset tbl_two_peers 1 none (by decide)
  rw [h, hk (by decide)]
  rfl

/-- C12 as stated fails when a lower slot is empty: after two peers were found
and the first one was released on three failures, slot 0 is empty and slot 1
occupied; releasing slot 1 and allocating hands out index 0, not index 1. -/
theorem bt_get_new_dev_after_reset_lowest_free :
    (run_events host_init
        [evt_found_a, evt_found_b, evt_conn_a_fail, evt_conn_a_fail, evt_conn_a_fail]).map
        (fun r => r.1.bt_dev) = some tbl_second_only ∧
    occupied (tbl_second_only.get 1) = true ∧
    bt_get_new_dev (tbl_second_only.set 1 (bt_host_reset_dev (tbl_second_only.get 1))) none
      = (0, some 0) := by
  decide

/-! ### Inquiry results -/

/-- C13, the code at the failing input.  Seven inquiry results with seven
different addresses fill the table; an eighth result, for an address no slot
holds (and with lookup bytes no slot holds), finds no slot and no free slot, so
`device` is still `NULL` when the handler reads `device->id`: the handler
faults instead of returning. -/
theorem inquiry_result_full_table_faults :
    (run_events host_init
        [evt_found_n 1, evt_found_n 2, evt_found_n 3, evt_found_n 4, evt_found_n 5,
         evt_found_n 6, evt_found_n 7]).map (fun r => r.1) = some host_full ∧
    (∀ j, occupied (host_full.bt_dev.get j) = true) ∧
    (∀ j, (host_full.bt_dev.get j).remote_bdaddr ≠ addr_n 8) ∧
    (∀ j, (host_full.bt_dev.get j).remote_bdaddr ≠ stack_bytes) ∧
    bt_hci_event_handler host_full (evt_found_n 8) = none := by
  decide

/-- C14, the code at the failing input.  After an inquiry result announcing
`addr_a` (slot 0 allocated), a second inquiry result announcing `addr_a` again
allocates slot 1 for the same address and issues inquiry-cancel and connect
once more: the lookup is handed the bytes at `(uint8_t *)&inquiry_result + 1`,
not the reported address. -/
theorem inquiry_result_tracked_peer_allocated_again :
    (run_events host_init [evt_found_a]).map
        (fun r => (occupied (r.1.bt_dev.get 0), (r.1.bt_dev.get 0).remote_bdaddr,
                   occupied (r.1.bt_dev.get 1)))
      = some (true, addr_a, false) ∧
    (run_events host_init [evt_found_a, evt_found_a]).map
        (fun r => (occupied (r.1.bt_dev.get 0), (r.1.bt_dev.get 0).remote_bdaddr,
                   occupied (r.1.bt_dev.get 1), (r.1.bt_dev.get 1).remote_bdaddr))
      = some (true, addr_a, true, addr_a) ∧
    (run_events host_init [evt_found_a, evt_found_a]).map (fun r => r.2.getLast?)
      = some (some [inquiry_cancel_call, ⟨.bt_hci_cmd_connect, .bdaddr addr_a⟩]) := by
  decide

/-- The inquiry-result case, branch by branch. -/
theorem inquiry_result_step (s : host) (evt : inquiry_result_evt) (num_reports : Nat)
    (bdaddr : List bt_addr_t) (local_bytes : bt_addr_t) :
    (num_reports = 0 →
      bt_hci_event_handler s (.INQUIRY_RESULT evt num_reports bdaddr local_bytes)
        = some (s, [])) ∧
    (∀ i, (bt_get_dev_from_bdaddr s.bt_dev local_bytes none).2 = some i →
      bt_hci_event_handler s (.INQUIRY_RESULT evt num_reports bdaddr local_bytes)
        = some (s, [])) ∧
    (1 ≤ num_reports → (bt_get_dev_from_bdaddr s.bt_dev local_bytes none).2 = none →
      (∀ j, occupied (s.bt_dev.get j) = true) →
      bt_hci_event_handler s (.INQUIRY_RESULT evt num_reports bdaddr local_bytes) = none) ∧
    (1 ≤ num_reports → (bt_get_dev_from_bdaddr s.bt_dev local_bytes none).2 = none →
      ∀ j, occupied (s.bt_dev.get j) = false → (∀ k, k < j → occupied (s.bt_dev.get k) = true) →
      ∃ d, bt_hci_event_handler s (.INQUIRY_RESULT evt num_reports bdaddr local_bytes)
          = some ({ s with bt_dev := s.bt_dev.set j d },
                  inquiry_cancel_call :: bt_host_dev_conn_q_cmd (s.bt_dev.set j d) j) ∧
        d = { (s.bt_dev.get j) with
                remote_bdaddr := bdaddr.getD 0 bdaddr_zero, id := (j.val : Int),
                sdp_chan := ⟨j.val ||| 0x70, (s.bt_dev.get j).sdp_chan.dcid⟩,
                ctrl_chan := ⟨j.val ||| 0x80, (s.bt_dev.get j).ctrl_chan.dcid⟩,
                intr_chan := ⟨j.val ||| 0x90, (s.bt_dev.get j).intr_chan.dcid⟩,
                flags := atomic_set_bit (s.bt_dev.get j).flags BT_DEV_DEVICE_FOUND }) := by
  refine ⟨?_, ?_, ?_, ?_⟩
  · intro h0
    simp [bt_hci_event_handler, h0]
  · intro i hi
    simp only [bt_hci_event_handler, hi]
    split_ifs <;> rfl
  · intro hn hlook hfull
    simp only [bt_hci_event_handler, hn, if_true, hlook, bt_get_new_dev_none _ _ hfull]
  · intro hn hlook j hj hlow
    have hscan : scan_slots (fun i => !atomic_test_bit (s.bt_dev.get i).flags BT_DEV_DEVICE_FOUND)
        = some j :=
      scan_slots_first (by simpa [occupied] using hj) (fun k hk => by
        simpa [occupied] using hlow k hk)
    have hnew := (bt_get_new_dev_some s.bt_dev none j hscan).1
    refine ⟨_, ?_, rfl⟩
    simp only [bt_hci_event_handler, hn, if_true, hlook, hnew, Int.toNat_ofNat]

/-- Setting the found flag makes the slot occupied. -/
theorem occupied_atomic_set_bit (d : bt_dev) (flags : Nat)
    (h : d.flags = atomic_set_bit flags BT_DEV_DEVICE_FOUND) : occupied d = true := by
  simp [occupied, atomic_test_bit, atomic_set_bit, BT_DEV_DEVICE_FOUND, h, Nat.testBit_or]

/-- Either every slot is occupied or there is a lowest empty slot. -/
theorem lowest_free_slot (tbl : dev_table) :
    (∀ j, occupied (tbl.get j) = true) ∨
      ∃ j, occupied (tbl.get j) = false ∧ ∀ k, k < j → occupied (tbl.get k) = true := by
  cases hs : scan_slots (fun i => !atomic_test_bit (tbl.get i).flags BT_DEV_DEVICE_FOUND) with
  | none =>
    left
    intro j
    simpa [occupied] using (scan_slots_none_iff _).mp hs j
  | some j =>
    right
    obtain ⟨_, h1, h2⟩ := bt_get_new_dev_some tbl none j hs
    exact ⟨j, h1, h2⟩

/-- C15 (as amended). Only the first report of a batch is considered: for an
inquiry-result event with any number of reports, the first being `a`, the
outcome does not depend on the later reports; the handler faults exactly when a
report is present, the lookup finds nothing and every slot is occupied;
otherwise it either changes nothing and issues nothing, or allocates exactly
one slot, the lowest empty one, which receives the address `a` of the first
report, all other slots being unchanged; hence at most one slot goes from
empty to occupied per event, and never for a later report. -/
theorem inquiry_result_first_report_only (s : host) (evt : inquiry_result_evt)
    (num_reports : Nat) (a : bt_addr_t) (rest : List bt_addr_t) (local_bytes : bt_addr_t) :
    (∀ rest1 : List bt_addr_t,
      bt_hci_event_handler s (.INQUIRY_RESULT evt num_reports (a :: rest1) local_bytes)
        = bt_hci_event_handler s (.INQUIRY_RESULT evt num_reports (a :: rest) local_bytes)) ∧
    (bt_hci_event_handler s (.INQUIRY_RESULT evt num_reports (a :: rest) local_bytes) = none ↔
      1 ≤ num_reports ∧ (bt_get_dev_from_bdaddr s.bt_dev local_bytes none).2 = none ∧
        ∀ j, occupied (s.bt_dev.get j) = true) ∧
    (∀ s1 cmds,
      bt_hci_event_handler s (.INQUIRY_RESULT evt num_reports (a :: rest) local_bytes)
        = some (s1, cmds) →
      (s1 = s ∧ cmds = []) ∨
      (∃ j, occupied (s.bt_dev.get j) = false ∧ (∀ k, k < j → occupied (s.bt_dev.get k) = true) ∧
        occupied (s1.bt_dev.get j) = true ∧ (s1.bt_dev.get j).remote_bdaddr = a ∧
        (∀ k, k ≠ j → s1.bt_dev.get k = s.bt_dev.get k) ∧
        cmds.head? = some inquiry_cancel_call)) ∧
    (∀ s1 cmds,
      bt_hci_event_handler s (.INQUIRY_RESULT evt num_reports (a :: rest) local_bytes)
        = some (s1, cmds) →
      ∀ j k, occupied (s.bt_dev.get j) = false → occupied (s1.bt_dev.get j) = true →
        occupied (s.bt_dev.get k) = false → occupied (s1.bt_dev.get k) = true → j = k) := by
  obtain ⟨h0, hmatch, hfault, halloc⟩ :=
    inquiry_result_step s evt num_reports (a :: rest) local_bytes
  -- the outcome, by cases
  have hcases :
      (bt_hci_event_handler s (.INQUIRY_RESULT evt num_reports (a :: rest) local_bytes)
          = some (s, []) ∧
        ¬ (1 ≤ num_reports ∧ (bt_get_dev_from_bdaddr s.bt_dev local_bytes none).2 = none ∧
            ∀ j, occupied (s.bt_dev.get j) = true)) ∨
      (bt_hci_event_handler s (.INQUIRY_RESULT evt num_reports (a :: rest) local_bytes) = none ∧
        (1 ≤ num_reports ∧ (bt_get_dev_from_bdaddr s.bt_dev local_bytes none).2 = none ∧
            ∀ j, occupied (s.bt_dev.get j) = true)) ∨
      (∃ j d, occupied (s.bt_dev.get j) = false ∧
        (∀ k, k < j → occupied (s.bt_dev.get k) = true) ∧
        bt_hci_event_handler s (.INQUIRY_RESULT evt num_reports (a :: rest) local_bytes)
          = some ({ s with bt_dev := s.bt_dev.set j d },
                  inquiry_cancel_call :: bt_host_dev_conn_q_cmd (s.bt_dev.set j d) j) ∧
        occupied d = true ∧ d.remote_bdaddr = a) := by
    by_cases hn : num_reports = 0
    · exact Or.inl ⟨h0 hn, fun h => by omega⟩
    · have hn1 : 1 ≤ num_reports := by omega
      cases hl : (bt_get_dev_from_bdaddr s.bt_dev local_bytes none).2 with
      | some i => exact Or.inl ⟨hmatch i hl, fun h => Option.noConfusion h.2.1⟩
      | none =>
        rcases lowest_free_slot s.bt_dev with hfull | ⟨j, hj, hlow⟩
        · exact Or.inr (Or.inl ⟨hfault hn1 hl hfull, hn1, rfl, hfull⟩)
        · obtain ⟨d, hrun, hd⟩ := halloc hn1 hl j hj hlow
          refine Or.inr (Or.inr ⟨j, d, hj, hlow, hrun, ?_, ?_⟩)
          · exact occupied_atomic_set_bit d _ (by rw [hd])
          · rw [hd]; rfl
  have hsome : ∀ s1 cmds,
      bt_hci_event_handler s (.INQUIRY_RESULT evt num_reports (a :: rest) local_bytes)
        = some (s1, cmds) →
      (s1 = s ∧ cmds = []) ∨
      (∃ j, occupied (s.bt_dev.get j) = false ∧ (∀ k, k < j → occupied (s.bt_dev.get k) = true) ∧
        occupied (s1.bt_dev.get j) = true ∧ (s1.bt_dev.get j).remote_bdaddr = a ∧
        (∀ k, k ≠ j → s1.bt_dev.get k = s.bt_dev.get k) ∧
        cmds.head? = some inquiry_cancel_call) := by
    intro s1 cmds hrun
    rcases hcases with ⟨h, _⟩ | ⟨h, _⟩ | ⟨j, d, hj, hlow, h, hocc, haddr⟩
    · rw [h] at hrun
      simp only [Option.some.injEq, Prod.mk.injEq] at hrun
      exact Or.inl ⟨hrun.1.symm, hrun.2.symm⟩
    · rw [h] at hrun; exact Option.noConfusion hrun
    · rw [h] at hrun
      simp only [Option.some.injEq, Prod.mk.injEq] at hrun
      obtain ⟨hs1, hc⟩ := hrun
      subst hs1
      subst hc
      refine Or.inr ⟨j, hj, hlow, ?_, ?_, ?_, rfl⟩
      · simpa only [Mathlib.Vector.get_set_same] using hocc
      · simpa only [Mathlib.Vector.get_set_same] using haddr
      · intro k hk
        exact Mathlib.Vector.get_set_of_ne (Ne.symm hk) _
  refine ⟨?_, ?_, hsome, ?_⟩
  · intro rest1
    simp only [bt_hci_event_handler, List.getD_cons_zero]
  · constructor
    · intro hnone
      rcases hcases with ⟨h, _⟩ | ⟨_, h⟩ | ⟨j, d, _, _, h, _⟩
      · rw [h] at hnone; exact Option.noConfusion hnone
      · exact h
      · rw [h] at hnone; exact Option.noConfusion hnone
    · rintro ⟨hn, hl, hfull⟩
      exact hfault hn hl hfull
  · intro s1 cmds hrun j k hj hj1 hk hk1
    rcases hsome s1 cmds hrun with ⟨hs, _⟩ | ⟨m, _, _, _, _, hother, _⟩
    · rw [hs, hj] at hj1; exact Bool.noConfusion hj1
    · have hjm : j = m := by
        by_contra hne
        rw [hother j hne, hj] at hj1
        exact Bool.noConfusion hj1
      have hkm : k = m := by
        by_contra hne
        rw [hother k hne, hk] at hk1
        exact Bool.noConfusion hk1
      rw [hjm, hkm]

/-- C15 (as amended) on a two-report event at start-up: the slot goes to the
first report, `addr_a`, and the outcome is the one of the single-report event. -/
theorem inquiry_result_first_report_only_witness :
    bt_hci_event_handler host_init evt_found_a_then_b =
      bt_hci_event_handler host_init
        (.INQUIRY_RESULT .BT_HCI_EVT_INQUIRY_RESULT 2 [addr_a] stack_bytes) :=
  (inquiry_result_first_report_only host_init .BT_HCI_EVT_INQUIRY_RESULT 2 addr_a []
    stack_bytes).1 [addr_b]

/-- C15 as stated fails when an earlier report is already tracked: with slot 0
occupied by `addr_a`, a two-report event announcing `addr_a` then `addr_b`
gives no slot to `addr_b`, the first report whose address no slot holds:
afterwards no slot holds `addr_b` (the slot handed out receives `addr_a`). -/
theorem inquiry_result_later_report_ignored :
    (run_events host_init [evt_found_a]).map
        (fun r => (occupied (r.1.bt_dev.get 0), (r.1.bt_dev.get 0).remote_bdaddr))
      = some (true, addr_a) ∧
    (run_events host_init [evt_found_a]).map
        (fun r => (List.finRange 7).all (fun j => (r.1.bt_dev.get j).remote_bdaddr != addr_b))
      = some true ∧
    (run_events host_init [evt_found_a, evt_found_a_then_b]).map
        (fun r => (List.finRange 7).all (fun j => (r.1.bt_dev.get j).remote_bdaddr != addr_b))
      = some true ∧
    (run_events host_init [evt_found_a, evt_found_a_then_b]).map
        (fun r => (occupied (r.1.bt_dev.get 1), (r.1.bt_dev.get 1).remote_bdaddr))
      = some (true, addr_a) := by
  decide

/-! ### Completion events -/

/-- A completion event whose address no slot holds changes nothing and issues
nothing. -/
theorem unmatched_completion_ignored_aux (s : host) (bdaddr : bt_addr_t) (e : hci_evt)
    (he : is_completion_for bdaddr e = true)
    (hnone : ∀ j, (s.bt_dev.get j).remote_bdaddr ≠ bdaddr) :
    bt_hci_event_handler s e = some (s, []) := by
  have hlook := bt_get_dev_from_bdaddr_none s.bt_dev bdaddr none hnone
  cases e with
  | CONN_COMPLETE status handle a =>
    simp only [is_completion_for, decide_eq_true_eq] at he
    subst he
    simp only [bt_hci_event_handler, hlook]
  | REMOTE_NAME_REQ_COMPLETE status a name =>
    simp only [is_completion_for, decide_eq_true_eq] at he
    subst he
    simp only [bt_hci_event_handler, hlook]
  | _ => simp [is_completion_for] at he

/-- C16 (as amended). An event for an unmatched peer mutates nothing: for every
connection-complete or remote-name-complete event (any status) whose address
is held by no slot at all, occupied or empty (an empty slot holds the all-zero
address), every slot and the global state are unchanged and no command is
issued. -/
theorem unmatched_completion_ignored (s : host) (bdaddr : bt_addr_t) (e : hci_evt)
    (he : is_completion_for bdaddr e = true)
    (hnone : ∀ j, (s.bt_dev.get j).remote_bdaddr ≠ bdaddr) :
    bt_hci_event_handler s e = some (s, []) ∧
      ∀ s1 cmds, bt_hci_event_handler s e = some (s1, cmds) → s1 = s ∧ cmds = [] := by
  have h := unmatched_completion_ignored_aux s bdaddr e he hnone
  refine ⟨h, fun s1 cmds h1 => ?_⟩
  rw [h] at h1
  simp only [Option.some.injEq, Prod.mk.injEq] at h1
  exact ⟨h1.1.symm, h1.2.symm⟩

/-- C16 (as amended) on a full table: no slot is empty, so a successful
connection-complete with the all-zero address is matched to nothing. -/
theorem unmatched_completion_ignored_witness :
    bt_hci_event_handler host_full evt_conn_zero_ok = some (host_full, []) :=
  (unmatched_completion_ignored host_full bdaddr_zero evt_conn_zero_ok (by decide)
    (by decide)).1

/-- C16 as stated fails for the all-zero address while a slot is empty: at
start-up no slot is occupied, yet a successful connection-complete carrying the
all-zero address is matched to the empty slot 0, stores its handle there,
moves the step index to 1 and issues a remote-name-request; a failed one
raises the retry counter of slot 0 and issues a connect. -/
theorem zero_address_completion_changes_empty_slot :
    (List.finRange 7).all (fun j => !occupied (host_init.bt_dev.get j)) = true ∧
    (bt_hci_event_handler host_init evt_conn_zero_ok).map
        (fun r => ((r.1.bt_dev.get 0).acl_handle, (r.1.bt_dev.get 0).conn_state, r.2))
      = some (0x002C, 1, [⟨.bt_hci_cmd_remote_name_request, .bdaddr bdaddr_zero⟩]) ∧
    (bt_hci_event_handler host_init (.CONN_COMPLETE 0x04 0 bdaddr_zero)).map
        (fun r => ((r.1.bt_dev.get 0).pkt_retry, r.2))
      = some (1, [⟨.bt_hci_cmd_connect, .bdaddr bdaddr_zero⟩]) := by
  decide

/-- The success branch of the two completion events, for the slot the lookup
returns: the step index goes up by one and the retry counter to 0, whatever the
step index was; the other slots are unchanged. -/
theorem conn_success_step (s : host) (i : Fin 7) (bdaddr : bt_addr_t) (e : hci_evt)
    (hmatch : (bt_get_dev_from_bdaddr s.bt_dev bdaddr none).2 = some i)
    (he : is_conn_success_for bdaddr e = true) :
    ∃ d, bt_hci_event_handler s e =
        some ({ s with bt_dev := s.bt_dev.set i d }, bt_host_dev_conn_q_cmd (s.bt_dev.set i d) i) ∧
      d.conn_state = (s.bt_dev.get i).conn_state + 1 ∧ d.pkt_retry = 0 ∧
      d.flags = (s.bt_dev.get i).flags ∧ d.id = (s.bt_dev.get i).id ∧
      d.remote_bdaddr = (s.bt_dev.get i).remote_bdaddr ∧
      d.sdp_chan = (s.bt_dev.get i).sdp_chan ∧ d.ctrl_chan = (s.bt_dev.get i).ctrl_chan ∧
      d.intr_chan = (s.bt_dev.get i).intr_chan ∧
      (d.acl_handle = (s.bt_dev.get i).acl_handle ∨
        ∃ a, e = .CONN_COMPLETE 0 d.acl_handle a) := by
  cases e with
  | CONN_COMPLETE status handle a =>
    simp only [is_conn_success_for, Bool.and_eq_true, beq_iff_eq, decide_eq_true_eq] at he
    obtain ⟨hst, ha⟩ := he
    subst ha
    subst hst
    refine ⟨{ (s.bt_dev.get i) with
              acl_handle := handle, pkt_retry := 0,
              conn_state := (s.bt_dev.get i).conn_state + 1 },
      ?_, rfl, rfl, rfl, rfl, rfl, rfl, rfl, rfl, Or.inr ⟨a, rfl⟩⟩
    simp only [bt_hci_event_handler, hmatch, ne_eq, not_true_eq_false, if_false]
  | REMOTE_NAME_REQ_COMPLETE status a name =>
    simp only [is_conn_success_for, Bool.and_eq_true, beq_iff_eq, decide_eq_true_eq] at he
    obtain ⟨hst, ha⟩ := he
    subst ha
    subst hst
    refine ⟨{ (s.bt_dev.get i) with
              type := bt_get_type_from_name name, pkt_retry := 0,
              conn_state := (s.bt_dev.get i).conn_state + 1 },
      ?_, rfl, rfl, rfl, rfl, rfl, rfl, rfl, rfl, Or.inl rfl⟩
    simp only [bt_hci_event_handler, hmatch, ne_eq, not_true_eq_false, if_false]
  | _ => simp [is_conn_success_for] at he

/-- C19 (as amended). A peer's step is advanced by every successful completion
event matched to it, whatever its current step: for the occupied slot the
address lookup returns, a successful connection-complete or
remote-name-complete moves the step index from `k` to `k + 1` for every `k` (so
a remote-name-complete at step 0 gives step 1 and a connection-complete at a
step other than 0 advances too), and leaves the step index of every other slot
alone; the handler never compares the event with the current step. -/
theorem completion_success_advances_any_step (s : host) (i : Fin 7) (bdaddr : bt_addr_t)
    (e : hci_evt)
    (hmatch : (bt_get_dev_from_bdaddr s.bt_dev bdaddr none).2 = some i)
    (_hocc : occupied (s.bt_dev.get i) = true)
    (he : is_conn_success_for bdaddr e = true) :
    ∃ s1 cmds, bt_hci_event_handler s e = some (s1, cmds) ∧
      (s1.bt_dev.get i).conn_state = (s.bt_dev.get i).conn_state + 1 ∧
      (∀ j, j ≠ i → (s1.bt_dev.get j).conn_state = (s.bt_dev.get j).conn_state) := by
  obtain ⟨d, hrun, hstep, _⟩ := conn_success_step s i bdaddr e hmatch he
  refine ⟨_, _, hrun, ?_, ?_⟩
  · simpa only [Mathlib.Vector.get_set_same] using hstep
  · intro j hj
    simp only [Mathlib.Vector.get_set_of_ne (Ne.symm hj)]

/-- C19 (as amended) on slot 1 of a two-peer table: a remote-name-complete at
step 0 gives step 1. -/
theorem completion_success_advances_any_step_witness :
    (host_two_peers.bt_dev.get 1).conn_state = 0 ∧
    ∃ s1 cmds, bt_hci_event_handler host_two_peers evt_name_b_ok = some (s1, cmds) ∧
      (s1.bt_dev.get 1).conn_state = 1 := by
  obtain ⟨s1, cmds, h, hstep, _⟩ :=
    completion_success_advances_any_step host_two_peers 1 addr_b evt_name_b_ok
      (by decide) (by decide) (by decide)
  exact ⟨by decide, s1, cmds, h, hstep.trans (by decide)⟩

/-- C19 as stated fails: a successful remote-name-complete for a peer at step 0
moves it to step 1, and a successful connection-complete for a peer at step 1
moves it to step 2. -/
theorem completion_success_advances_unmatched_step :
    (run_events host_init [evt_found_a]).map
        (fun r => (occupied (r.1.bt_dev.get 0), (r.1.bt_dev.get 0).conn_state))
      = some (true, 0) ∧
    (run_events host_init [evt_found_a, evt_name_a_ok]).map
        (fun r => (r.1.bt_dev.get 0).conn_state) = some 1 ∧
    (run_events host_init [evt_found_a, evt_conn_a_ok]).map
        (fun r => (r.1.bt_dev.get 0).conn_state) = some 1 ∧
    (run_events host_init [evt_found_a, evt_conn_a_ok, evt_conn_a_ok]).map
        (fun r => (r.1.bt_dev.get 0).conn_state) = some 2 := by
  decide

/-- Every opcode with a `case` label in the error branch has one in the
non-error branch, and conversely. -/
theorem cmd_complete_cases_agree (op : hci_opcode) :
    op ∈ cmd_complete_error_cases ↔
      (op = .BT_HCI_OP_READ_BD_ADDR ∨ op ∈ cmd_complete_success_cases) := by
  have h : cmd_complete_error_cases = .BT_HCI_OP_READ_BD_ADDR :: cmd_complete_success_cases := rfl
  rw [h, List.mem_cons]

/-- C20 (as amended). Unknown-command status is treated as success: for every
recognised opcode and every bring-up state, a command-complete with status
unknown-command has exactly the outcome of the same event with status success:
bring-up index old index + 1 (modulo 2^32, the width of the index), retry
counter 0, and the step executor run at the new index, which issues the next
table entry when the new index is below 36 and nothing otherwise. -/
theorem unknown_cmd_treated_as_success (s : host) (op : hci_opcode) (rp : bt_addr_t)
    (hop : op ∈ cmd_complete_error_cases) :
    bt_hci_event_handler s (.CMD_COMPLETE op BT_HCI_ERR_UNKNOWN_CMD rp)
      = bt_hci_event_handler s (.CMD_COMPLETE op BT_HCI_ERR_SUCCESS rp) ∧
    ∃ s1 cmds, bt_hci_event_handler s (.CMD_COMPLETE op BT_HCI_ERR_UNKNOWN_CMD rp)
        = some (s1, cmds) ∧
      s1.bt_config_state = (s.bt_config_state + 1) % 2 ^ 32 ∧
      (s.bt_config_state + 1 < 2 ^ 32 → s1.bt_config_state = s.bt_config_state + 1) ∧
      s1.bt_pkt_retry = 0 ∧
      s1.bt_dev = s.bt_dev ∧
      cmds = bt_host_config_q_cmd s1.bt_config_state ∧
      (s.bt_config_state + 1 < 36 →
        (bt_hci_config[s.bt_config_state + 1]?).map (fun e => [e.call]) = some cmds) ∧
      (36 ≤ s.bt_config_state + 1 → s.bt_config_state + 1 < 2 ^ 32 → cmds = []) := by
  have hcase := (cmd_complete_cases_agree op).mp hop
  have hu := cmd_complete_success_step s op BT_HCI_ERR_UNKNOWN_CMD rp (Or.inr rfl) hcase
  have hs := cmd_complete_success_step s op BT_HCI_ERR_SUCCESS rp (Or.inl rfl) hcase
  refine ⟨hu.trans hs.symm, _, _, hu, rfl, ?_, rfl, rfl, rfl, ?_, ?_⟩
  · intro h
    exact Nat.mod_eq_of_lt h
  · intro h
    rw [Nat.mod_eq_of_lt (by omega)]
    exact bt_host_config_q_cmd_in_table h
  · intro h36 h
    rw [Nat.mod_eq_of_lt h]
    exact bt_host_config_q_cmd_past_table h36

/-- C20 (as amended) at start-up: an unknown-command completion for RESET moves
to index 1 and issues entry 1, as a successful one does. -/
theorem unknown_cmd_treated_as_success_witness :
    bt_hci_event_handler host_init evt_reset_unknown
      = bt_hci_event_handler host_init evt_reset_ok :=
  (unknown_cmd_treated_as_success host_init .BT_HCI_OP_RESET bdaddr_zero (by decide)).1

/-- C20 as stated fails at the end of the table: after the 35 completions of the
bring-up the index is 35 (inquiry issued); a further unknown-command completion
for a recognised opcode moves the index to 36, where there is no table entry,
and issues no command (as the same event with success status does). -/
theorem unknown_cmd_past_table_issues_nothing :
    (run_events host_init bring_up_events).map (fun r => r.1.bt_config_state) = some 35 ∧
    (run_events host_init (bring_up_events ++ [evt_reset_unknown])).map
        (fun r => (r.1.bt_config_state, r.1.bt_pkt_retry, r.2.getLast?))
      = some (36, 0, some []) ∧
    (run_events host_init (bring_up_events ++ [evt_reset_ok])).map
        (fun r => (r.1.bt_config_state, r.1.bt_pkt_retry, r.2.getLast?))
      = some (36, 0, some []) ∧
    bt_hci_config[36]? = none := by
  decide

/-! ### Invariants of the slot table -/

/-- What one event can do to the table: nothing, or exactly one slot `j` is
rewritten, in one of three ways: it is zero-filled (release); or its found
flag, id, address and local channel ids are kept, the handle being kept too
unless the event is a successful connection-complete, whose handle it then
holds (progress); or it was empty and is allocated, with id `j`, the local
channel ids derived from `j`, the found flag set and the handle kept. -/
theorem handler_table_effect (s : host) (e : hci_evt) (s1 : host) (cmds : List cmd_call)
    (h : bt_hci_event_handler s e = some (s1, cmds)) :
    s1.bt_dev = s.bt_dev ∨
    ∃ j d, s1.bt_dev = s.bt_dev.set j d ∧
      (d = bt_dev_zero ∨
       (d.flags = (s.bt_dev.get j).flags ∧ d.id = (s.bt_dev.get j).id ∧
         d.remote_bdaddr = (s.bt_dev.get j).remote_bdaddr ∧
         d.sdp_chan = (s.bt_dev.get j).sdp_chan ∧ d.ctrl_chan = (s.bt_dev.get j).ctrl_chan ∧
         d.intr_chan = (s.bt_dev.get j).intr_chan ∧
         (d.acl_handle = (s.bt_dev.get j).acl_handle ∨
           ∃ a, e = .CONN_COMPLETE 0 d.acl_handle a)) ∨
       (occupied (s.bt_dev.get j) = false ∧ occupied d = true ∧ d.id = (j.val : Int) ∧
         d.sdp_chan.scid = j.val ||| 0x70 ∧ d.ctrl_chan.scid = j.val ||| 0x80 ∧
         d.intr_chan.scid = j.val ||| 0x90 ∧ d.acl_handle = (s.bt_dev.get j).acl_handle ∧
         ∀ a, e ≠ .CONN_COMPLETE 0 d.acl_handle a)) := by
  -- the two completion events share this argument
  have hcompl : ∀ (status : Nat) (bdaddr : bt_addr_t),
      is_completion_for bdaddr e = true →
      (status ≠ 0 → is_conn_error_for bdaddr e = true) →
      (status = 0 → is_conn_success_for bdaddr e = true) →
      s1.bt_dev = s.bt_dev ∨
      ∃ j d, s1.bt_dev = s.bt_dev.set j d ∧
        (d = bt_dev_zero ∨
         (d.flags = (s.bt_dev.get j).flags ∧ d.id = (s.bt_dev.get j).id ∧
           d.remote_bdaddr = (s.bt_dev.get j).remote_bdaddr ∧
           d.sdp_chan = (s.bt_dev.get j).sdp_chan ∧ d.ctrl_chan = (s.bt_dev.get j).ctrl_chan ∧
           d.intr_chan = (s.bt_dev.get j).intr_chan ∧
           (d.acl_handle = (s.bt_dev.get j).acl_handle ∨
             ∃ a, e = .CONN_COMPLETE 0 d.acl_handle a)) ∨
         (occupied (s.bt_dev.get j) = false ∧ occupied d = true ∧ d.id = (j.val : Int) ∧
           d.sdp_chan.scid = j.val ||| 0x70 ∧ d.ctrl_chan.scid = j.val ||| 0x80 ∧
           d.intr_chan.scid = j.val ||| 0x90 ∧ d.acl_handle = (s.bt_dev.get j).acl_handle ∧
           ∀ a, e ≠ .CONN_COMPLETE 0 d.acl_handle a)) := by
    intro status bdaddr hc herr hok
    cases hl : (bt_get_dev_from_bdaddr s.bt_dev bdaddr none).2 with
    | none =>
      have hnone : ∀ j, (s.bt_dev.get j).remote_bdaddr ≠ bdaddr := by
        intro j hj
        obtain ⟨k, hk⟩ : ∃ k, scan_slots
            (fun i => decide ((s.bt_dev.get i).remote_bdaddr = bdaddr)) = some k := by
          cases hs : scan_slots (fun i => decide ((s.bt_dev.get i).remote_bdaddr = bdaddr)) with
          | none =>
            have := (scan_slots_none_iff _).mp hs j
            simp [hj] at this
          | some k => exact ⟨k, rfl⟩
        unfold bt_get_dev_from_bdaddr at hl
        rw [hk] at hl
        exact Option.noConfusion hl
      rw [unmatched_completion_ignored_aux s bdaddr e hc hnone] at h
      simp only [Option.some.injEq, Prod.mk.injEq] at h
      exact Or.inl (by rw [← h.1])
    | some i =>
      obtain ⟨hi, hlow⟩ := bt_get_dev_from_bdaddr_some s.bt_dev bdaddr i hl
      right
      by_cases hst : status = 0
      · obtain ⟨d, hrun, _, _, hfl, hid, hadr, h1, h2, h3, hh⟩ :=
          conn_success_step s i bdaddr e hl (hok hst)
        rw [hrun] at h
        simp only [Option.some.injEq, Prod.mk.injEq] at h
        exact ⟨i, d, by rw [← h.1], Or.inr (Or.inl ⟨hfl, hid, hadr, h1, h2, h3, hh⟩)⟩
      · have hrun := conn_error_step s i bdaddr e hi hlow (herr hst)
        rw [hrun] at h
        by_cases hlt : (s.bt_dev.get i).pkt_retry + 1 < BT_MAX_RETRY
        · rw [if_pos hlt] at h
          simp only [Option.some.injEq, Prod.mk.injEq] at h
          exact ⟨i, { (s.bt_dev.get i) with pkt_retry := (s.bt_dev.get i).pkt_retry + 1 },
            by rw [← h.1], Or.inr (Or.inl ⟨rfl, rfl, rfl, rfl, rfl, rfl, Or.inl rfl⟩)⟩
        · rw [if_neg hlt] at h
          simp only [Option.some.injEq, Prod.mk.injEq] at h
          exact ⟨i, bt_dev_zero, by rw [← h.1], Or.inl rfl⟩
  cases e with
  | INQUIRY_COMPLETE =>
    simp only [bt_hci_event_handler] at h
    split_ifs at h <;> simp only [Option.some.injEq, Prod.mk.injEq] at h <;>
      exact Or.inl (by rw [← h.1])
  | OTHER evt =>
    simp only [bt_hci_event_handler, Option.some.injEq, Prod.mk.injEq] at h
    exact Or.inl (by rw [← h.1])
  | CMD_COMPLETE op status rp =>
    simp only [bt_hci_event_handler] at h
    split_ifs at h <;> simp only [Option.some.injEq, Prod.mk.injEq] at h <;>
      exact Or.inl (by rw [← h.1])
  | CONN_COMPLETE status handle a =>
    exact hcompl status a (by simp [is_completion_for])
      (fun hst => by simp [is_conn_error_for, hst])
      (fun hst => by simp [is_conn_success_for, hst])
  | REMOTE_NAME_REQ_COMPLETE status a name =>
    exact hcompl status a (by simp [is_completion_for])
      (fun hst => by simp [is_conn_error_for, hst])
      (fun hst => by simp [is_conn_success_for, hst])
  | INQUIRY_RESULT evt num_reports bdaddr local_bytes =>
    obtain ⟨h0, hmatch, hfault, halloc⟩ :=
      inquiry_result_step s evt num_reports bdaddr local_bytes
    by_cases hn : num_reports = 0
    · rw [h0 hn] at h
      simp only [Option.some.injEq, Prod.mk.injEq] at h
      exact Or.inl (by rw [← h.1])
    · have hn1 : 1 ≤ num_reports := by omega
      cases hl : (bt_get_dev_from_bdaddr s.bt_dev local_bytes none).2 with
      | some i =>
        rw [hmatch i hl] at h
        simp only [Option.some.injEq, Prod.mk.injEq] at h
        exact Or.inl (by rw [← h.1])
      | none =>
        rcases lowest_free_slot s.bt_dev with hfull | ⟨j, hj, hlow⟩
        · rw [hfault hn1 hl hfull] at h
          exact Option.noConfusion h
        · obtain ⟨d, hrun, hd⟩ := halloc hn1 hl j hj hlow
          rw [hrun] at h
          simp only [Option.some.injEq, Prod.mk.injEq] at h
          refine Or.inr ⟨j, d, by rw [← h.1], Or.inr (Or.inr
            ⟨hj, occupied_atomic_set_bit d _ (by rw [hd]), ?_, ?_, ?_, ?_, ?_, ?_⟩)⟩
          · rw [hd]
          · rw [hd]
          · rw [hd]
          · rw [hd]
          · rw [hd]
          · intro a ha
            exact hci_evt.noConfusion ha

/-- A run that returns splits into a first step that returns and a run of the
rest that returns. -/
theorem run_events_cons_some {s s2 : host} {e : hci_evt} {es : List hci_evt}
    {outs : List (List cmd_call)} (h : run_events s (e :: es) = some (s2, outs)) :
    ∃ s1 c cs, bt_hci_event_handler s e = some (s1, c) ∧ run_events s1 es = some (s2, cs) ∧
      outs = c :: cs := by
  simp only [run_events] at h
  cases h1 : bt_hci_event_handler s e with
  | none => rw [h1] at h; exact Option.noConfusion h
  | some r =>
    obtain ⟨s1, c⟩ := r
    rw [h1] at h
    simp only at h
    cases h2 : run_events s1 es with
    | none => rw [h2] at h; exact Option.noConfusion h
    | some r2 =>
      obtain ⟨s3, cs⟩ := r2
      rw [h2] at h
      simp only [Option.some.injEq, Prod.mk.injEq] at h
      exact ⟨s1, c, cs, rfl, by rw [← h.1]; exact h2, h.2.symm⟩

/-- One event keeps the channel-id property of the occupied slots. -/
theorem channel_ids_step (s : host) (e : hci_evt) (s1 : host) (cmds : List cmd_call)
    (h : bt_hci_event_handler s e = some (s1, cmds))
    (hinv : ∀ i : Fin 7, occupied (s.bt_dev.get i) = true →
      (s.bt_dev.get i).id = (i.val : Int) ∧ (s.bt_dev.get i).sdp_chan.scid = i.val ||| 0x70 ∧
      (s.bt_dev.get i).ctrl_chan.scid = i.val ||| 0x80 ∧
      (s.bt_dev.get i).intr_chan.scid = i.val ||| 0x90) :
    ∀ i : Fin 7, occupied (s1.bt_dev.get i) = true →
      (s1.bt_dev.get i).id = (i.val : Int) ∧ (s1.bt_dev.get i).sdp_chan.scid = i.val ||| 0x70 ∧
      (s1.bt_dev.get i).ctrl_chan.scid = i.val ||| 0x80 ∧
      (s1.bt_dev.get i).intr_chan.scid = i.val ||| 0x90 := by
  intro i hocc
  rcases handler_table_effect s e s1 cmds h with hsame | ⟨j, d, hset, hd⟩
  · rw [hsame] at hocc ⊢
    exact hinv i hocc
  · rw [hset] at hocc ⊢
    by_cases hij : i = j
    · subst hij
      rw [Mathlib.Vector.get_set_same] at hocc ⊢
      rcases hd with hz | ⟨hfl, hid, _, h1, h2, h3, _⟩ | ⟨_, _, hid, h1, h2, h3, _⟩
      · rw [hz] at hocc
        exact absurd hocc (by decide)
      · have hold : occupied (s.bt_dev.get i) = true := by
          unfold occupied at hocc ⊢
          rwa [hfl] at hocc
        obtain ⟨g0, g1, g2, g3⟩ := hinv i hold
        exact ⟨hid.trans g0, by rw [h1]; exact g1, by rw [h2]; exact g2, by rw [h3]; exact g3⟩
      · exact ⟨hid, h1, h2, h3⟩
    · rw [Mathlib.Vector.get_set_of_ne (Ne.symm hij)] at hocc ⊢
      exact hinv i hocc

/-- The channel-id property survives any run of events. -/
theorem channel_ids_run :
    ∀ (evs : List hci_evt) (s0 s : host) (outs : List (List cmd_call)),
      (∀ i : Fin 7, occupied (s0.bt_dev.get i) = true →
        (s0.bt_dev.get i).id = (i.val : Int) ∧ (s0.bt_dev.get i).sdp_chan.scid = i.val ||| 0x70 ∧
        (s0.bt_dev.get i).ctrl_chan.scid = i.val ||| 0x80 ∧
        (s0.bt_dev.get i).intr_chan.scid = i.val ||| 0x90) →
      run_events s0 evs = some (s, outs) →
      ∀ i : Fin 7, occupied (s.bt_dev.get i) = true →
        (s.bt_dev.get i).id = (i.val : Int) ∧ (s.bt_dev.get i).sdp_chan.scid = i.val ||| 0x70 ∧
        (s.bt_dev.get i).ctrl_chan.scid = i.val ||| 0x80 ∧
        (s.bt_dev.get i).intr_chan.scid = i.val ||| 0x90 := by
  intro evs
  induction evs with
  | nil =>
    intro s0 s outs hinv hrun
    simp only [run_events, Option.some.injEq, Prod.mk.injEq] at hrun
    rw [← hrun.1]
    exact hinv
  | cons e es ih =>
    intro s0 s outs hinv hrun
    obtain ⟨s1, c, cs, h1, h2, _⟩ := run_events_cons_some hrun
    exact ih s1 s cs (channel_ids_step s0 e s1 c h1 hinv) h2

/-- C18. Channel-id invariant: in every state reached from the empty table by
any sequence of inbound events, every slot `i` with the found flag set has
id `i` and local channel ids `i | 0x70` (service discovery), `i | 0x80` (HID
control) and `i | 0x90` (HID interrupt). -/
theorem channel_id_invariant (s0 : host) (evs : List hci_evt) (s : host)
    (outs : List (List cmd_call)) (hempty : s0.bt_dev = bt_dev_init)
    (hrun : run_events s0 evs = some (s, outs)) :
    ∀ i : Fin 7, atomic_test_bit (s.bt_dev.get i).flags BT_DEV_DEVICE_FOUND = true →
      (s.bt_dev.get i).id = (i.val : Int) ∧ (s.bt_dev.get i).sdp_chan.scid = i.val ||| 0x70 ∧
      (s.bt_dev.get i).ctrl_chan.scid = i.val ||| 0x80 ∧
      (s.bt_dev.get i).intr_chan.scid = i.val ||| 0x90 := by
  refine channel_ids_run evs s0 s outs ?_ hrun
  intro i hocc
  rw [hempty, bt_dev_init_get] at hocc
  exact absurd hocc (by decide)

/-- C18 on a run that finds two peers and connects the second. -/
theorem channel_id_invariant_witness :
    run_events host_init [evt_found_a, evt_found_b, evt_conn_b_ok]
      = some (host_two_peers_connected,
              [[inquiry_cancel_call, ⟨.bt_hci_cmd_connect, .bdaddr addr_a⟩],
               [inquiry_cancel_call, ⟨.bt_hci_cmd_connect, .bdaddr addr_b⟩],
               [⟨.bt_hci_cmd_remote_name_request, .bdaddr addr_b⟩]]) ∧
    (host_two_peers_connected.bt_dev.get 1).id = 1 ∧
    (host_two_peers_connected.bt_dev.get 1).sdp_chan.scid = 1 ||| 0x70 ∧
    (host_two_peers_connected.bt_dev.get 1).ctrl_chan.scid = 1 ||| 0x80 ∧
    (host_two_peers_connected.bt_dev.get 1).intr_chan.scid = 1 ||| 0x90 :=
  ⟨by decide,
   channel_id_invariant host_init [evt_found_a, evt_found_b, evt_conn_b_ok]
     host_two_peers_connected
     [[inquiry_cancel_call, ⟨.bt_hci_cmd_connect, .bdaddr addr_a⟩],
      [inquiry_cancel_call, ⟨.bt_hci_cmd_connect, .bdaddr addr_b⟩],
      [⟨.bt_hci_cmd_remote_name_request, .bdaddr addr_b⟩]]
     rfl (by decide) 1 (by decide)⟩

/-- C21. Unrecognised opcodes are ignored: a command-complete event whose opcode
has no `case` label in the handler (the labels of the error branch; those of
the non-error branch are the same opcodes, `cmd_complete_cases_agree`) leaves
the whole state unchanged, whatever its status and payload: bring-up index,
retry counter, local address, flags word and all seven slots; and no command is
issued. -/
theorem unrecognised_opcode_ignored (s : host) (opcode : hci_opcode) (status : Nat)
    (rp_bdaddr : bt_addr_t) (hop : opcode ∉ cmd_complete_error_cases) :
    bt_hci_event_handler s (.CMD_COMPLETE opcode status rp_bdaddr) = some (s, []) := by
  have hs : ¬ (opcode = .BT_HCI_OP_READ_BD_ADDR ∨ opcode ∈ cmd_complete_success_cases) :=
    fun h => hop ((cmd_complete_cases_agree opcode).mpr h)
  simp only [bt_hci_event_handler, if_neg hop, if_neg hs]
  split_ifs <;> rfl

/-- C21 on opcode 0x0C14 (no `case` label), with an error status and with
status success, in a state with two tracked peers. -/
theorem unrecognised_opcode_ignored_witness :
    bt_hci_event_handler host_two_peers evt_other_opcode_fail = some (host_two_peers, []) ∧
    bt_hci_event_handler host_two_peers (.CMD_COMPLETE (.other 0x0C14) 0 addr_a) =
      some (host_two_peers, []) :=
  ⟨unrecognised_opcode_ignored host_two_peers (.other 0x0C14) 0x0C addr_a (by decide),
   unrecognised_opcode_ignored host_two_peers (.other 0x0C14) 0 addr_a (by decide)⟩

/-- C22. Inquiry-complete restarts inquiry exactly when no peer is active: the
handler issues exactly one inquiry-start command when no slot has the found
flag set and no command when some slot has it; in both cases the state (every
slot and every global) is unchanged. -/
theorem inquiry_complete_restarts_when_idle (s : host) :
    ((∀ j, occupied (s.bt_dev.get j) = false) →
      bt_hci_event_handler s .INQUIRY_COMPLETE = some (s, [inquiry_call])) ∧
    ((∃ j, occupied (s.bt_dev.get j) = true) →
      bt_hci_event_handler s .INQUIRY_COMPLETE = some (s, [])) := by
  constructor
  · intro h
    have := (bt_get_active_dev_none_iff s.bt_dev none).mpr h
    simp only [bt_hci_event_handler, this, if_true]
  · intro ⟨j, hj⟩
    have : ¬ (bt_get_active_dev s.bt_dev none).1 = BT_NONE := by
      intro h
      have := (bt_get_active_dev_none_iff s.bt_dev none).mp h j
      rw [hj] at this
      exact Bool.noConfusion this
    simp only [bt_hci_event_handler, if_neg this]

/-! ### Step tables -/

/-- C23. Step-table selection and order: for a slot with the paging flag clear
and step index 0 to 8, `bt_host_dev_conn_q_cmd` issues exactly one command:
connect, remote-name-request (both with the peer address), read-remote-features,
read-remote-ext-features, auth-requested, set-connection-encryption (all four
with the connection handle), then the L2CAP connect for service discovery, for
HID control and for HID interrupt (all three with the slot itself), in this
order of step index; for a slot with the paging flag set and step index 0 it
issues accept-connection-request with the peer address. -/
theorem step_table_selection_and_order (tbl : dev_table) (device : Fin 7) :
    (atomic_test_bit (tbl.get device).flags BT_DEV_PAGE = false →
      ((tbl.get device).conn_state = 0 → bt_host_dev_conn_q_cmd tbl device =
          [⟨.bt_hci_cmd_connect, .bdaddr (tbl.get device).remote_bdaddr⟩]) ∧
      ((tbl.get device).conn_state = 1 → bt_host_dev_conn_q_cmd tbl device =
          [⟨.bt_hci_cmd_remote_name_request, .bdaddr (tbl.get device).remote_bdaddr⟩]) ∧
      ((tbl.get device).conn_state = 2 → bt_host_dev_conn_q_cmd tbl device =
          [⟨.bt_hci_cmd_read_remote_features, .handle (tbl.get device).acl_handle⟩]) ∧
      ((tbl.get device).conn_state = 3 → bt_host_dev_conn_q_cmd tbl device =
          [⟨.bt_hci_cmd_read_remote_ext_features, .handle (tbl.get device).acl_handle⟩]) ∧
      ((tbl.get device).conn_state = 4 → bt_host_dev_conn_q_cmd tbl device =
          [⟨.bt_hci_cmd_auth_requested, .handle (tbl.get device).acl_handle⟩]) ∧
      ((tbl.get device).conn_state = 5 → bt_host_dev_conn_q_cmd tbl device =
          [⟨.bt_hci_cmd_set_conn_encrypt, .handle (tbl.get device).acl_handle⟩]) ∧
      ((tbl.get device).conn_state = 6 → bt_host_dev_conn_q_cmd tbl device =
          [⟨.bt_l2cap_cmd_sdp_conn_req, .dev device⟩]) ∧
      ((tbl.get device).conn_state = 7 → bt_host_dev_conn_q_cmd tbl device =
          [⟨.bt_l2cap_cmd_hid_ctrl_conn_req, .dev device⟩]) ∧
      ((tbl.get device).conn_state = 8 → bt_host_dev_conn_q_cmd tbl device =
          [⟨.bt_l2cap_cmd_hid_intr_conn_req, .dev device⟩])) ∧
    (atomic_test_bit (tbl.get device).flags BT_DEV_PAGE = true →
      (tbl.get device).conn_state = 0 → bt_host_dev_conn_q_cmd tbl device =
          [⟨.bt_hci_cmd_accept_conn_req, .bdaddr (tbl.get device).remote_bdaddr⟩]) := by
  refine ⟨fun hp => ⟨?_, ?_, ?_, ?_, ?_, ?_, ?_, ?_, ?_⟩, fun hp hk => ?_⟩
  all_goals first
    | (intro hk
       simp [bt_host_dev_conn_q_cmd, bt_host_dev_tx_conn_q_cmd, hp, hk, bt_dev_tx_conn,
         dev_cmd_call])
    | simp [bt_host_dev_conn_q_cmd, bt_host_dev_rx_conn_q_cmd, hp, hk, bt_dev_rx_conn,
        dev_cmd_call]

/-! ### Isolation of peers -/

/-- C24. No cross-peer interference: for every state and every
connection-complete or remote-name-complete event, of any status, that the
handler matches to slot `i` (the slot its address lookup returns), the handler
completes, every slot other than `i` is unchanged, and so are the bring-up
index, the bring-up retry counter, the local address and the flags word. -/
theorem no_cross_peer_interference (s : host) (i : Fin 7) (bdaddr : bt_addr_t) (e : hci_evt)
    (he : is_completion_for bdaddr e = true)
    (hmatch : (bt_get_dev_from_bdaddr s.bt_dev bdaddr none).2 = some i) :
    ∃ s1 cmds, bt_hci_event_handler s e = some (s1, cmds) ∧
      (∀ j, j ≠ i → s1.bt_dev.get j = s.bt_dev.get j) ∧
      s1.bt_config_state = s.bt_config_state ∧ s1.bt_pkt_retry = s.bt_pkt_retry ∧
      s1.local_bdaddr = s.local_bdaddr ∧ s1.bt_flags = s.bt_flags := by
  have herr : ∃ d cmds, dev_conn_error s i = ({ s with bt_dev := s.bt_dev.set i d }, cmds) := by
    unfold dev_conn_error
    simp only
    split_ifs
    · exact ⟨_, _, rfl⟩
    · exact ⟨_, _, rfl⟩
    · exact ⟨_, _, rfl⟩
  have hone : ∃ d cmds, bt_hci_event_handler s e =
      some ({ s with bt_dev := s.bt_dev.set i d }, cmds) := by
    obtain ⟨d, c, hd⟩ := herr
    cases e with
    | CONN_COMPLETE status handle a =>
      simp only [is_completion_for, decide_eq_true_eq] at he
      subst he
      by_cases hst : status ≠ 0
      · exact ⟨d, c, by simp only [bt_hci_event_handler, hmatch, if_pos hst, hd]⟩
      · exact ⟨_, _, by simp only [bt_hci_event_handler, hmatch, if_neg hst]; rfl⟩
    | REMOTE_NAME_REQ_COMPLETE status a name =>
      simp only [is_completion_for, decide_eq_true_eq] at he
      subst he
      by_cases hst : status ≠ 0
      · exact ⟨d, c, by simp only [bt_hci_event_handler, hmatch, if_pos hst, hd]⟩
      · exact ⟨_, _, by simp only [bt_hci_event_handler, hmatch, if_neg hst]; rfl⟩
    | _ => simp [is_completion_for] at he
  obtain ⟨d, c, hd⟩ := hone
  exact ⟨{ s with bt_dev := s.bt_dev.set i d }, c, hd,
    fun j hj => Mathlib.Vector.get_set_of_ne (Ne.symm hj) d, rfl, rfl, rfl, rfl⟩

/-- C24 on two tracked peers: a failed connection-complete for the peer in
slot 1 leaves slot 0 and the globals alone. -/
theorem no_cross_peer_interference_witness :
    ∃ s1 cmds, bt_hci_event_handler host_two_peers evt_conn_b_fail = some (s1, cmds) ∧
      (∀ j, j ≠ (1 : Fin 7) → s1.bt_dev.get j = host_two_peers.bt_dev.get j) ∧
      s1.bt_config_state = host_two_peers.bt_config_state ∧
      s1.bt_pkt_retry = host_two_peers.bt_pkt_retry ∧
      s1.local_bdaddr = host_two_peers.local_bdaddr ∧ s1.bt_flags = host_two_peers.bt_flags :=
  no_cross_peer_interference host_two_peers 1 addr_b evt_conn_b_fail (by decide) (by decide)

/-! ### Frame dispatch -/

/-- C25. Frames of an unknown packet type are discarded: for every inbound frame
whose first byte is neither the ACL-data tag nor the event tag, whatever
follows that byte, `bt_host_rcv_pkt` leaves all slots and all global state
unchanged, issues no command, and returns 0. -/
theorem unknown_packet_type_discarded (s : host) (data : h4_frame)
    (hacl : data.h4_type ≠ BT_HCI_H4_TYPE_ACL) (hevt : data.h4_type ≠ BT_HCI_H4_TYPE_EVT) :
    bt_host_rcv_pkt s data = some (s, [], 0) := by
  simp only [bt_host_rcv_pkt, if_neg hacl, if_neg hevt]

/-- C25 on a frame tagged 0x01 whose remaining bytes read as an inquiry result. -/
theorem unknown_packet_type_discarded_witness :
    bt_host_rcv_pkt host_two_peers frame_unknown_type = some (host_two_peers, [], 0) :=
  unknown_packet_type_discarded host_two_peers frame_unknown_type (by decide) (by decide)

/-! ### Player LED -/

/-- C30. LED pattern: for every slot index `i` in 0..6, `led_dev_id_map[i]` is a
non-zero value below 16, the seven values are pairwise distinct, and the LED
byte `led_dev_id_map[i] << 4` handed to the LED command is below 256, has low
nibble 0 and high nibble `led_dev_id_map[i]`. -/
theorem led_pattern (i : Fin 7) :
    ∃ v, led_dev_id_map[i.val]? = some v ∧ v ≠ 0 ∧ v < 16 ∧
      (∀ j : Fin 7, led_dev_id_map[j.val]? = some v → j = i) ∧
      wii_led_arg (i.val : Int) = some (v <<< 4) ∧
      v <<< 4 < 256 ∧ (v <<< 4) &&& 0xF = 0 ∧ (v <<< 4) >>> 4 = v := by
  revert i
  decide

/-! ### Flag words -/

/-- Reading a flag after `atomic_set_bit`: the flag set reads as set, the others
as before. -/
theorem atomic_test_set_bit (f b j : Nat) :
    atomic_test_bit (atomic_set_bit f b) j = (atomic_test_bit f j || decide (b = j)) := by
  unfold atomic_test_bit atomic_set_bit
  rw [Nat.testBit_or, Nat.one_shiftLeft, Nat.testBit_two_pow]

/-- Subtracting `2 ^ b` from a number whose bit `b` is set clears that bit and
keeps the others. -/
theorem testBit_sub_two_pow (b : Nat) : ∀ f j : Nat, f.testBit b = true →
    (f - 2 ^ b).testBit j = (f.testBit j && !decide (b = j)) := by
  induction b with
  | zero =>
    intro f j hf
    rw [Nat.testBit_zero, decide_eq_true_eq] at hf
    cases j with
    | zero =>
      simp only [Nat.testBit_zero, pow_zero, decide_True, Bool.not_true, Bool.and_false,
        decide_eq_false_iff_not]
      omega
    | succ k =>
      have h2 : (f - 2 ^ 0) / 2 = f / 2 := by simp only [pow_zero]; omega
      rw [Nat.testBit_succ, Nat.testBit_succ, h2]
      simp
  | succ b ih =>
    intro f j hf
    rw [Nat.testBit_succ] at hf
    have hge : 2 ^ b ≤ f / 2 := Nat.testBit_implies_ge hf
    cases j with
    | zero =>
      have h2 : (f - 2 ^ (b + 1)) % 2 = f % 2 := by rw [pow_succ]; omega
      simp only [Nat.testBit_zero, h2]
      simp
    | succ k =>
      have h2 : (f - 2 ^ (b + 1)) / 2 = f / 2 - 2 ^ b := by rw [pow_succ]; omega
      rw [Nat.testBit_succ, Nat.testBit_succ, h2, ih (f / 2) k hf]
      simp

/-- Reading a flag after `atomic_clear_bit`: the flag cleared reads as clear, the
others as before. -/
theorem atomic_test_clear_bit (f b j : Nat) :
    atomic_test_bit (atomic_clear_bit f b) j = (atomic_test_bit f j && !decide (b = j)) := by
  unfold atomic_test_bit atomic_clear_bit
  by_cases hb : f.testBit b = true
  · rw [if_pos hb, Nat.one_shiftLeft, testBit_sub_two_pow b f j hb]
  · rw [if_neg hb]
    by_cases hj : b = j
    · subst hj; simp at hb; simp [hb]
    · simp [hj]

/-! ### Transport shim -/

/-- One pass of the sender loop, by cases: with the ready flag set and a
non-empty queue it hands the oldest frame to the controller, removes it from
the queue and clears the ready flag; otherwise it does nothing. -/
theorem bt_tx_ringbuf_task_cases (bt_flags : Nat) (txq_hdl : ringbuf) :
    (∃ packet rest, atomic_test_bit bt_flags BT_CTRL_READY = true ∧
        txq_hdl.items = packet :: rest ∧
        bt_tx_ringbuf_task bt_flags txq_hdl =
          (atomic_clear_bit bt_flags BT_CTRL_READY, { txq_hdl with items := rest }, [packet])) ∨
    ((atomic_test_bit bt_flags BT_CTRL_READY = false ∨ txq_hdl.items = []) ∧
        bt_tx_ringbuf_task bt_flags txq_hdl = (bt_flags, txq_hdl, [])) := by
  unfold bt_tx_ringbuf_task xRingbufferReceive vRingbufferReturnItem
  cases hr : atomic_test_bit bt_flags BT_CTRL_READY
  · exact Or.inr ⟨Or.inl rfl, by simp⟩
  · cases hq : txq_hdl.items with
    | nil => exact Or.inr ⟨Or.inr rfl, by simp⟩
    | cons p rest => exact Or.inl ⟨p, rest, rfl, rfl, by simp⟩

/-- An action other than the ready callback either hands nothing to the
controller and keeps the flags word, or hands over one frame and leaves the
ready flag clear. -/
theorem tx_step_no_ready (st : tx_state) (a : tx_action) (ha : a ≠ .rcv_pkt_ready) :
    ((tx_step st a).2 = [] ∧ (tx_step st a).1.bt_flags = st.bt_flags) ∨
    ((tx_step st a).2.length = 1 ∧
      atomic_test_bit (tx_step st a).1.bt_flags BT_CTRL_READY = false) := by
  cases a with
  | rcv_pkt_ready => exact absurd rfl ha
  | txq_add packet => exact Or.inl ⟨rfl, rfl⟩
  | ringbuf_task =>
    rcases bt_tx_ringbuf_task_cases st.bt_flags st.txq_hdl with ⟨p, rest, _, _, h⟩ | ⟨_, h⟩
    · refine Or.inr ⟨by simp only [tx_step, h, List.length_singleton], ?_⟩
      simp only [tx_step, h, atomic_test_clear_bit]
      simp
    · exact Or.inl ⟨by simp only [tx_step, h], by simp only [tx_step, h]⟩

/-- With the ready flag clear and no ready callback, nothing is handed to the
controller. -/
theorem tx_run_ready_clear (acts : List tx_action) : ∀ st : tx_state,
    atomic_test_bit st.bt_flags BT_CTRL_READY = false →
    (∀ a ∈ acts, a ≠ tx_action.rcv_pkt_ready) → (tx_run st acts).2 = [] := by
  induction acts with
  | nil => intro st _ _; rfl
  | cons a as ih =>
    intro st hst hacts
    have ha : a ≠ tx_action.rcv_pkt_ready := hacts a (List.mem_cons_self a as)
    have has : ∀ b ∈ as, b ≠ tx_action.rcv_pkt_ready :=
      fun b hb => hacts b (List.mem_cons_of_mem a hb)
    have hstep : (tx_step st a).2 = [] ∧
        atomic_test_bit (tx_step st a).1.bt_flags BT_CTRL_READY = false := by
      cases a with
      | rcv_pkt_ready => exact absurd rfl ha
      | txq_add packet => exact ⟨rfl, hst⟩
      | ringbuf_task =>
        rcases bt_tx_ringbuf_task_cases st.bt_flags st.txq_hdl with ⟨p, rest, h1, _, _⟩ | ⟨_, h⟩
        · rw [hst] at h1; exact Bool.noConfusion h1
        · exact ⟨by simp only [tx_step, h], by simp only [tx_step, h, hst]⟩
    simp only [tx_run, hstep.1, ih (tx_step st a).1 hstep.2 has, List.append_nil]

/-- Without a ready callback at most one frame is handed to the controller. -/
theorem tx_run_single_credit (acts : List tx_action) : ∀ st : tx_state,
    (∀ a ∈ acts, a ≠ tx_action.rcv_pkt_ready) → (tx_run st acts).2.length ≤ 1 := by
  induction acts with
  | nil => intro st _; simp [tx_run]
  | cons a as ih =>
    intro st hacts
    have ha : a ≠ tx_action.rcv_pkt_ready := hacts a (List.mem_cons_self a as)
    have has : ∀ b ∈ as, b ≠ tx_action.rcv_pkt_ready :=
      fun b hb => hacts b (List.mem_cons_of_mem a hb)
    rcases tx_step_no_ready st a ha with ⟨h1, _⟩ | ⟨h1, h2⟩
    · simp only [tx_run, h1, List.nil_append]
      exact ih _ has
    · simp only [tx_run, List.length_append, h1, tx_run_ready_clear as _ h2 has,
        List.length_nil, Nat.add_zero, Nat.le_refl]

/-- The error branch of the completion events rewrites one slot of the table
and nothing else of the state. -/
theorem dev_conn_error_eq (s : host) (i : Fin 7) :
    ∃ d cmds, dev_conn_error s i = ({ s with bt_dev := s.bt_dev.set i d }, cmds) := by
  unfold dev_conn_error
  simp only
  split_ifs
  · exact ⟨_, _, rfl⟩
  · exact ⟨_, _, rfl⟩
  · exact ⟨_, _, rfl⟩

/-- The event handler never writes `bt_flags`. -/
theorem bt_hci_event_handler_bt_flags (s : host) (e : hci_evt) (s1 : host)
    (cmds : List cmd_call) (h : bt_hci_event_handler s e = some (s1, cmds)) :
    s1.bt_flags = s.bt_flags := by
  cases e with
  | INQUIRY_COMPLETE =>
    simp only [bt_hci_event_handler] at h
    split_ifs at h <;> (cases h; rfl)
  | INQUIRY_RESULT evt n bdaddr lb =>
    simp only [bt_hci_event_handler] at h
    split_ifs at h
    · split at h
      · cases h; rfl
      · split at h
        · cases h; rfl
        · exact Option.noConfusion h
    · cases h; rfl
  | CONN_COMPLETE status handle a =>
    simp only [bt_hci_event_handler] at h
    split at h
    · rename_i i _
      obtain ⟨d, c, hd⟩ := dev_conn_error_eq s i
      split_ifs at h
      · rw [hd] at h; cases h; rfl
      · cases h; rfl
    · cases h; rfl
  | REMOTE_NAME_REQ_COMPLETE status a name =>
    simp only [bt_hci_event_handler] at h
    split at h
    · rename_i i _
      obtain ⟨d, c, hd⟩ := dev_conn_error_eq s i
      split_ifs at h
      · rw [hd] at h; cases h; rfl
      · cases h; rfl
    · cases h; rfl
  | CMD_COMPLETE opcode status rp =>
    simp only [bt_hci_event_handler] at h
    split_ifs at h <;> (cases h; rfl)
  | OTHER evt =>
    simp only [bt_hci_event_handler] at h
    cases h; rfl

/-- C26. Single-credit window.  One pass of the sender loop hands at most one
frame to the controller; it hands one over only when the ready flag is set and
the queue is non-empty, and then it is the oldest frame, it leaves the queue,
and the ready flag is cleared; with the flag set and the queue non-empty it
does hand one over; with the flag clear or the queue empty it removes nothing
and keeps the flags.  The ready callback sets the flag; no other entry point
does (an enqueue and a pass that finds the flag clear leave it clear, and the
event handler never writes the flags word).  So in every sequence of passes and
enqueues without a ready callback, from any state (in particular the one right
after a ready callback), at most one frame is handed to the controller. -/
theorem single_credit_window (bt_flags : Nat) (txq_hdl : ringbuf) (st : tx_state)
    (acts : List tx_action) (hacts : ∀ a ∈ acts, a ≠ tx_action.rcv_pkt_ready) :
    (bt_tx_ringbuf_task bt_flags txq_hdl).2.2.length ≤ 1 ∧
    (∀ packet, packet ∈ (bt_tx_ringbuf_task bt_flags txq_hdl).2.2 →
      atomic_test_bit bt_flags BT_CTRL_READY = true ∧
      txq_hdl.items.head? = some packet ∧
      (bt_tx_ringbuf_task bt_flags txq_hdl).2.1.items = txq_hdl.items.tail ∧
      atomic_test_bit (bt_tx_ringbuf_task bt_flags txq_hdl).1 BT_CTRL_READY = false) ∧
    (atomic_test_bit bt_flags BT_CTRL_READY = true → txq_hdl.items ≠ [] →
      (bt_tx_ringbuf_task bt_flags txq_hdl).2.2.length = 1) ∧
    (atomic_test_bit bt_flags BT_CTRL_READY = false ∨ txq_hdl.items = [] →
      bt_tx_ringbuf_task bt_flags txq_hdl = (bt_flags, txq_hdl, [])) ∧
    atomic_test_bit (bt_ctrl_rcv_pkt_ready bt_flags) BT_CTRL_READY = true ∧
    (∀ a, a ≠ tx_action.rcv_pkt_ready →
      atomic_test_bit st.bt_flags BT_CTRL_READY = false →
      atomic_test_bit (tx_step st a).1.bt_flags BT_CTRL_READY = false) ∧
    (∀ (s s1 : host) (e : hci_evt) (cmds : List cmd_call),
      bt_hci_event_handler s e = some (s1, cmds) → s1.bt_flags = s.bt_flags) ∧
    (tx_run st acts).2.length ≤ 1 ∧
    (tx_run (tx_step st .rcv_pkt_ready).1 acts).2.length ≤ 1 := by
  refine ⟨?_, ?_, ?_, ?_, ?_, ?_, ?_, tx_run_single_credit acts st hacts,
    tx_run_single_credit acts _ hacts⟩
  · rcases bt_tx_ringbuf_task_cases bt_flags txq_hdl with ⟨p, rest, _, _, h⟩ | ⟨_, h⟩ <;>
      simp [h]
  · intro packet hp
    rcases bt_tx_ringbuf_task_cases bt_flags txq_hdl with ⟨p, rest, h1, h2, h⟩ | ⟨_, h⟩
    · rw [h] at hp ⊢
      simp only [List.mem_singleton] at hp
      subst hp
      refine ⟨h1, by rw [h2]; rfl, by rw [h2]; rfl, ?_⟩
      simp [atomic_test_clear_bit]
    · rw [h] at hp
      simp at hp
  · intro hr hq
    rcases bt_tx_ringbuf_task_cases bt_flags txq_hdl with ⟨p, rest, _, _, h⟩ | ⟨h1, _⟩
    · simp [h]
    · rcases h1 with h1 | h1
      · rw [hr] at h1; exact Bool.noConfusion h1
      · exact absurd h1 hq
  · intro hc
    rcases bt_tx_ringbuf_task_cases bt_flags txq_hdl with ⟨p, rest, h1, h2, _⟩ | ⟨_, h⟩
    · rcases hc with hc | hc
      · rw [h1] at hc; exact Bool.noConfusion hc
      · rw [h2] at hc; exact List.noConfusion hc
    · exact h
  · simp [bt_ctrl_rcv_pkt_ready, atomic_test_set_bit]
  · intro a ha hclear
    rcases tx_step_no_ready st a ha with ⟨_, h2⟩ | ⟨_, h2⟩
    · rw [h2]; exact hclear
    · exact h2
  · exact fun s s1 e cmds h => bt_hci_event_handler_bt_flags s e s1 cmds h

/-- C26 from start-up: two enqueues and three passes of the sender loop without
a ready callback in between hand exactly the first frame to the controller. -/
theorem single_credit_window_witness :
    (∀ a ∈ [tx_action.txq_add pkt_reset, .ringbuf_task, .txq_add pkt_inquiry, .ringbuf_task,
        .ringbuf_task], a ≠ tx_action.rcv_pkt_ready) ∧
    (tx_run tx_state_init [.txq_add pkt_reset, .ringbuf_task, .txq_add pkt_inquiry,
        .ringbuf_task, .ringbuf_task]).2 = [pkt_reset] ∧
    (tx_run tx_state_init [.txq_add pkt_reset, .ringbuf_task, .txq_add pkt_inquiry,
        .ringbuf_task, .ringbuf_task]).2.length ≤ 1 :=
  ⟨by decide, by decide,
   (single_credit_window 1 ⟨256 * 8, [pkt_reset, pkt_inquiry]⟩ tx_state_init
      [.txq_add pkt_reset, .ringbuf_task, .txq_add pkt_inquiry, .ringbuf_task, .ringbuf_task]
      (by decide)).2.2.2.2.2.2.2.1⟩

/-- The enqueue by cases: the frame is appended and 0 returned when its bytes
fit under the capacity; the queue is kept and -1 returned otherwise; the caller
is held for 0 ticks either way. -/
theorem bt_host_txq_add_eq (txq_hdl : ringbuf) (packet : List Nat) :
    bt_host_txq_add txq_hdl packet =
      if txq_hdl.bytes + packet.length ≤ txq_hdl.size then
        ({ txq_hdl with items := txq_hdl.items ++ [packet] }, 0, 0)
      else (txq_hdl, -1, 0) := by
  unfold bt_host_txq_add xRingbufferSend
  by_cases hfit : txq_hdl.bytes + packet.length ≤ txq_hdl.size
  · simp [hfit, pdTRUE]
  · simp [hfit, pdTRUE, pdFALSE]

/-- An enqueue keeps the capacity and keeps the content within it. -/
theorem bt_host_txq_add_bytes (txq_hdl : ringbuf) (packet : List Nat)
    (h : txq_hdl.bytes ≤ txq_hdl.size) :
    (bt_host_txq_add txq_hdl packet).1.size = txq_hdl.size ∧
    (bt_host_txq_add txq_hdl packet).1.bytes ≤ txq_hdl.size := by
  rw [bt_host_txq_add_eq]
  split_ifs with hfit
  · refine ⟨rfl, ?_⟩
    simp only [ringbuf.bytes, List.map_append, List.sum_append, List.map_cons, List.map_nil,
      List.sum_cons, List.sum_nil, Nat.add_zero]
    exact hfit
  · exact ⟨rfl, h⟩

/-- Every action keeps the capacity and keeps the content within it. -/
theorem tx_step_bytes (st : tx_state) (a : tx_action)
    (h : st.txq_hdl.bytes ≤ st.txq_hdl.size) :
    (tx_step st a).1.txq_hdl.size = st.txq_hdl.size ∧
    (tx_step st a).1.txq_hdl.bytes ≤ st.txq_hdl.size := by
  cases a with
  | rcv_pkt_ready => exact ⟨rfl, h⟩
  | txq_add packet => exact bt_host_txq_add_bytes st.txq_hdl packet h
  | ringbuf_task =>
    rcases bt_tx_ringbuf_task_cases st.bt_flags st.txq_hdl with ⟨p, rest, _, h2, hh⟩ | ⟨_, hh⟩
    · have hb : st.txq_hdl.bytes = p.length + (rest.map List.length).sum := by
        simp only [ringbuf.bytes, h2, List.map_cons, List.sum_cons]
      simp only [tx_step, hh, ringbuf.bytes, true_and]
      omega
    · simp only [tx_step, hh, true_and]
      exact h

/-- Along every sequence of actions the capacity is kept and the content stays
within it. -/
theorem tx_run_bytes (acts : List tx_action) : ∀ st : tx_state,
    st.txq_hdl.bytes ≤ st.txq_hdl.size →
    (tx_run st acts).1.txq_hdl.size = st.txq_hdl.size ∧
    (tx_run st acts).1.txq_hdl.bytes ≤ st.txq_hdl.size := by
  induction acts with
  | nil => intro st h; exact ⟨rfl, h⟩
  | cons a as ih =>
    intro st h
    obtain ⟨h1, h2⟩ := tx_step_bytes st a h
    obtain ⟨h3, h4⟩ := ih (tx_step st a).1 (by rw [h1]; exact h2)
    simp only [tx_run]
    exact ⟨by rw [h3, h1], by rw [h1] at h4; exact h4⟩

/-- C27. Enqueue beyond capacity fails without blocking: `bt_host_txq_add` returns
0 or -1; 0 exactly when the queue accepted the frame, which is then its newest
element behind the frames it held; -1 when it did not, and then the queue is
as it was (the frame is dropped); the caller is never held (the timeout given
to `xRingbufferSend` is 0); and from the queue `bt_host_init` creates, along every
sequence of enqueues, sender-loop passes and ready callbacks, the capacity
stays 256*8 bytes and the frames held never exceed it. -/
theorem txq_add_full_fails_without_blocking (txq_hdl : ringbuf) (packet : List Nat)
    (bt_flags : Nat) (acts : List tx_action) :
    ((bt_host_txq_add txq_hdl packet).2.1 = 0 ∨ (bt_host_txq_add txq_hdl packet).2.1 = -1) ∧
    ((bt_host_txq_add txq_hdl packet).2.1 = 0 ↔
      (xRingbufferSend txq_hdl packet 0).2.1 = pdTRUE) ∧
    ((bt_host_txq_add txq_hdl packet).2.1 = 0 →
      (bt_host_txq_add txq_hdl packet).1 =
        { txq_hdl with items := txq_hdl.items ++ [packet] }) ∧
    ((bt_host_txq_add txq_hdl packet).2.1 = -1 →
      (bt_host_txq_add txq_hdl packet).1 = txq_hdl) ∧
    ((bt_host_txq_add txq_hdl packet).2.1 = -1 ↔
      txq_hdl.size < txq_hdl.bytes + packet.length) ∧
    (bt_host_txq_add txq_hdl packet).2.2 = 0 ∧
    (tx_run ⟨bt_flags, txq_hdl_init⟩ acts).1.txq_hdl.size = 256 * 8 ∧
    (tx_run ⟨bt_flags, txq_hdl_init⟩ acts).1.txq_hdl.bytes ≤ 256 * 8 := by
  have hinit : txq_hdl_init.bytes ≤ txq_hdl_init.size := by decide
  have hrun := tx_run_bytes acts ⟨bt_flags, txq_hdl_init⟩ hinit
  have hsend : (xRingbufferSend txq_hdl packet 0).2.1 = pdTRUE ↔
      txq_hdl.bytes + packet.length ≤ txq_hdl.size := by
    unfold xRingbufferSend
    split_ifs with hfit <;> simp [pdTRUE, pdFALSE, hfit]
  refine ⟨?_, ?_, ?_, ?_, ?_, ?_, hrun.1, hrun.2⟩
  · rw [bt_host_txq_add_eq]; split_ifs <;> simp
  · rw [hsend, bt_host_txq_add_eq]; split_ifs with hfit <;> simp [hfit]
  · rw [bt_host_txq_add_eq]; split_ifs <;> simp
  · rw [bt_host_txq_add_eq]; split_ifs <;> simp
  · rw [bt_host_txq_add_eq]; split_ifs with hfit <;> simp <;> omega
  · rw [bt_host_txq_add_eq]; split_ifs <;> rfl

/-- C27 on the queue `bt_host_init` creates: full (512 frames of 4 bytes), a
further frame is refused with -1 and the queue is as it was; empty, the frame is
accepted with 0 and is the only element. -/
theorem txq_add_full_fails_without_blocking_witness :
    (bt_host_txq_add txq_full pkt_inquiry).2.1 = -1 ∧
    (bt_host_txq_add txq_full pkt_inquiry).1 = txq_full ∧
    (bt_host_txq_add txq_hdl_init pkt_inquiry).2.1 = 0 ∧
    (bt_host_txq_add txq_hdl_init pkt_inquiry).1.items = [pkt_inquiry] :=
  have h := txq_add_full_fails_without_blocking txq_full pkt_inquiry 0 []
  have h0 := txq_add_full_fails_without_blocking txq_hdl_init pkt_inquiry 0 []
  have hfull : (bt_host_txq_add txq_full pkt_inquiry).2.1 = -1 :=
    h.2.2.2.2.1.mpr (by
      have hb : txq_full.bytes = 2048 := by
        simp only [txq_full, ringbuf.bytes, List.map_replicate, List.sum_replicate, pkt_reset,
          List.length_cons, List.length_nil, smul_eq_mul]
      have hs : txq_full.size = 2048 := rfl
      rw [hb, hs]
      decide)
  have hfree : (bt_host_txq_add txq_hdl_init pkt_inquiry).2.1 = 0 := by decide
  ⟨hfull, h.2.2.2.1 hfull, hfree, by rw [h0.2.2.1 hfree]; rfl⟩

/-! ### HID configuration of Wii-family peers -/

/-- C28 (as amended). Status-report handling: on a Wii status report for a peer
the status-received flag is set, the extension-configuration-pending,
extension-configuration-done and report-mode-set flags are cleared, and the
extension-id-read flag is cleared (extension to be identified) exactly when the
status flags say an extension is attached and the peer is classified as the
base controller type `WII_CORE`; in every other case that flag is set.  No other
flag and no other field of the slot changes, and the configuration task is
created again exactly when the slot has none. -/
theorem wii_status_report_flags (device : bt_dev) (wii_status_flags : Nat)
    (xHandle_null : Bool) :
    atomic_test_bit (bt_acl_handler_wii_status device wii_status_flags xHandle_null).1.flags
      BT_DEV_WII_STATUS_RX = true ∧
    atomic_test_bit (bt_acl_handler_wii_status device wii_status_flags xHandle_null).1.flags
      BT_DEV_WII_EXT_CONF_PENDING = false ∧
    atomic_test_bit (bt_acl_handler_wii_status device wii_status_flags xHandle_null).1.flags
      BT_DEV_WII_EXT_CONF_DONE = false ∧
    atomic_test_bit (bt_acl_handler_wii_status device wii_status_flags xHandle_null).1.flags
      BT_DEV_WII_REP_MODE_SET = false ∧
    (atomic_test_bit (bt_acl_handler_wii_status device wii_status_flags xHandle_null).1.flags
        BT_DEV_WII_EXT_ID_READ = false ↔
      (wii_status_flags &&& BT_HIDP_WII_FLAGS_EXT_CONN ≠ 0 ∧ device.type = WII_CORE)) ∧
    (∀ bit, bit ∉ [BT_DEV_WII_STATUS_RX, BT_DEV_WII_EXT_CONF_PENDING, BT_DEV_WII_EXT_CONF_DONE,
        BT_DEV_WII_REP_MODE_SET, BT_DEV_WII_EXT_ID_READ] →
      atomic_test_bit (bt_acl_handler_wii_status device wii_status_flags xHandle_null).1.flags
        bit = atomic_test_bit device.flags bit) ∧
    { (bt_acl_handler_wii_status device wii_status_flags xHandle_null).1 with
        flags := device.flags } = device ∧
    (bt_acl_handler_wii_status device wii_status_flags xHandle_null).2 = xHandle_null := by
  refine ⟨?_, ?_, ?_, ?_, ?_, ?_, rfl, rfl⟩
  all_goals simp only [bt_acl_handler_wii_status]
  · split_ifs <;>
      simp [atomic_test_set_bit, atomic_test_clear_bit, BT_DEV_WII_STATUS_RX,
        BT_DEV_WII_EXT_CONF_PENDING, BT_DEV_WII_EXT_CONF_DONE, BT_DEV_WII_REP_MODE_SET,
        BT_DEV_WII_EXT_ID_READ]
  · split_ifs <;>
      simp [atomic_test_set_bit, atomic_test_clear_bit, BT_DEV_WII_STATUS_RX,
        BT_DEV_WII_EXT_CONF_PENDING, BT_DEV_WII_EXT_CONF_DONE, BT_DEV_WII_REP_MODE_SET,
        BT_DEV_WII_EXT_ID_READ]
  · split_ifs <;>
      simp [atomic_test_set_bit, atomic_test_clear_bit, BT_DEV_WII_STATUS_RX,
        BT_DEV_WII_EXT_CONF_PENDING, BT_DEV_WII_EXT_CONF_DONE, BT_DEV_WII_REP_MODE_SET,
        BT_DEV_WII_EXT_ID_READ]
  · split_ifs <;>
      simp [atomic_test_set_bit, atomic_test_clear_bit, BT_DEV_WII_STATUS_RX,
        BT_DEV_WII_EXT_CONF_PENDING, BT_DEV_WII_EXT_CONF_DONE, BT_DEV_WII_REP_MODE_SET,
        BT_DEV_WII_EXT_ID_READ]
  · split_ifs with hc
    · simp [atomic_test_clear_bit, hc]
    · simp [atomic_test_set_bit, hc]
  · intro bit hbit
    simp only [List.mem_cons, List.mem_nil_iff, or_false, not_or] at hbit
    obtain ⟨h1, h2, h3, h4, h5⟩ := hbit
    split_ifs <;>
      simp [atomic_test_set_bit, atomic_test_clear_bit, Ne.symm h1, Ne.symm h2, Ne.symm h3,
        Ne.symm h4, Ne.symm h5]

/-- C28 (as amended) on a configured Wii remote: a status report with the
extension bit clears the extension-id-read flag, one without it sets the flag. -/
theorem wii_status_report_flags_witness :
    atomic_test_bit (bt_acl_handler_wii_status wii_peer_configured BT_HIDP_WII_FLAGS_EXT_CONN
      true).1.flags BT_DEV_WII_EXT_ID_READ = false ∧
    atomic_test_bit (bt_acl_handler_wii_status wii_peer_configured 0 true).1.flags
      BT_DEV_WII_EXT_ID_READ = true :=
  ⟨(wii_status_report_flags wii_peer_configured BT_HIDP_WII_FLAGS_EXT_CONN true).2.2.2.2.1.mpr
     (by decide),
   by
     have h := (wii_status_report_flags wii_peer_configured 0 true).2.2.2.2.1
     cases hb : atomic_test_bit (bt_acl_handler_wii_status wii_peer_configured 0 true).1.flags
       BT_DEV_WII_EXT_ID_READ with
     | true => rfl
     | false => exact absurd (h.mp hb).1 (by decide)⟩

/-- Counterexample to C28 as stated: a peer classified as Wii U Pro, not as the
base controller type, is outside the stated exception whether or not its
status report says an extension is attached; yet in both cases the code sets
the extension-id-read flag (identification skipped) instead of clearing it. -/
theorem wii_status_report_sets_id_read_for_other_types :
    wiiu_pro_peer.type ≠ WII_CORE ∧
    atomic_test_bit wiiu_pro_peer.flags BT_DEV_WII_EXT_ID_READ = false ∧
    atomic_test_bit (bt_acl_handler_wii_status wiiu_pro_peer 0 true).1.flags
      BT_DEV_WII_EXT_ID_READ = true ∧
    atomic_test_bit (bt_acl_handler_wii_status wiiu_pro_peer BT_HIDP_WII_FLAGS_EXT_CONN
      true).1.flags BT_DEV_WII_EXT_ID_READ = true := by
  decide

/-- The extension classifier returns a Wii-family type or -1. -/
theorem wii_wiiu_ctrl_ext_type (ext_id : List Nat)
    (h : bt_get_type_from_wii_ext ext_id ≠ -1) :
    wii_wiiu_ctrl (bt_get_type_from_wii_ext ext_id) = 1 := by
  revert h
  simp only [bt_get_type_from_wii_ext, bt_wii_ext_type, bt_get_type_from_wii_ext_loop]
  split_ifs <;> simp [wii_wiiu_ctrl, WII_NUNCHUCK, WII_CORE, WII_CLASSIC, WIIU_PRO]

/-- A peer whose type is neither of the Wii family nor `SWITCH_PRO` gets no HID
command, however many passes the task makes. -/
theorem bt_dev_task_hid_config_run_idle (ext_id : List Nat) (device : bt_dev)
    (h1 : wii_wiiu_ctrl device.type = 0) (h2 : device.type ≠ SWITCH_PRO) :
    ∀ n, bt_dev_task_hid_config_run ext_id n device = some (device, [], false) := by
  intro n
  induction n with
  | zero => rfl
  | succ n ih =>
    have hp : bt_dev_task_pass device = some (device, [], false) := by
      simp [bt_dev_task_pass, bt_dev_task_hid_config, h1, h2]
    simp only [bt_dev_task_hid_config_run, hp, List.foldl_nil, ih, List.append_nil]

/-- C29 (as amended). HID configuration order, for a Wii-family peer with both
HID channels connected and no command in flight, each pass made once the peer
has answered the previous command.  Before any status report, with the LED not
yet set: the player-LED command (`led_dev_id_map[id] << 4`), then the
report-mode command selecting the core+accelerometer+extension report, and the
task ends.  After a status report that left the extension to be identified:
the one-byte write of 0x55 to register 0xA400F0, the one-byte write of 0x00 to
register 0xA400FB, then the read at register 0xA400FA (length field 0x0600);
the reply to the read sets the peer's type from the extension table, and if
the identifier is in the table the report-mode command follows and the task
ends, while if it is not the type is -1 and no further HID command is issued,
the task not ending.  After a status report that left nothing to identify: the
report-mode command alone.  Further passes change nothing: the result is the
same for every larger bound on the number of passes. -/
theorem hid_config_order (device : bt_dev) (leds : Nat) (ext_id : List Nat) (n : Nat)
    (htype : wii_wiiu_ctrl device.type = 1) (hled : wii_led_arg device.id = some leds)
    (hpend : atomic_test_bit device.flags BT_DEV_PENDING = false) :
    (atomic_test_bit device.flags BT_DEV_WII_STATUS_RX = false →
      atomic_test_bit device.flags BT_DEV_WII_LED_SET = false →
      (bt_dev_task_hid_config_run ext_id (n + 2) device).map (fun r => r.2) =
        some ([.bt_hid_cmd_wii_set_led device.acl_handle device.intr_chan.dcid leds,
                  .bt_hid_cmd_wii_set_rep_mode device.acl_handle device.intr_chan.dcid 1
                    BT_HIDP_WII_CORE_ACC_EXT], true)) ∧
    (atomic_test_bit device.flags BT_DEV_WII_STATUS_RX = true →
      atomic_test_bit device.flags BT_DEV_WII_EXT_ID_READ = false →
      atomic_test_bit device.flags BT_DEV_WII_EXT_CONF_PENDING = false →
      atomic_test_bit device.flags BT_DEV_WII_EXT_CONF_DONE = false →
      (bt_get_type_from_wii_ext ext_id ≠ -1 →
        (bt_dev_task_hid_config_run ext_id (n + 4) device).map (fun r => (r.1.type, r.2)) =
          some (bt_get_type_from_wii_ext ext_id,
                [.bt_hid_cmd_wii_write device.acl_handle device.intr_chan.dcid
                    ⟨BT_HIDP_WII_REG, [0xA4, 0x00, 0xF0], 0x01, [0x55]⟩,
                  .bt_hid_cmd_wii_write device.acl_handle device.intr_chan.dcid
                    ⟨BT_HIDP_WII_REG, [0xA4, 0x00, 0xFB], 0x01, [0x00]⟩,
                  .bt_hid_cmd_wii_read device.acl_handle device.intr_chan.dcid
                    ⟨BT_HIDP_WII_REG, [0xA4, 0x00, 0xFA], 0x0600⟩,
                  .bt_hid_cmd_wii_set_rep_mode device.acl_handle device.intr_chan.dcid 1
                    BT_HIDP_WII_CORE_ACC_EXT], true)) ∧
      (bt_get_type_from_wii_ext ext_id = -1 →
        (bt_dev_task_hid_config_run ext_id (n + 3) device).map (fun r => (r.1.type, r.2)) =
          some (-1,
                [.bt_hid_cmd_wii_write device.acl_handle device.intr_chan.dcid
                    ⟨BT_HIDP_WII_REG, [0xA4, 0x00, 0xF0], 0x01, [0x55]⟩,
                  .bt_hid_cmd_wii_write device.acl_handle device.intr_chan.dcid
                    ⟨BT_HIDP_WII_REG, [0xA4, 0x00, 0xFB], 0x01, [0x00]⟩,
                  .bt_hid_cmd_wii_read device.acl_handle device.intr_chan.dcid
                    ⟨BT_HIDP_WII_REG, [0xA4, 0x00, 0xFA], 0x0600⟩], false))) ∧
    (atomic_test_bit device.flags BT_DEV_WII_STATUS_RX = true →
      atomic_test_bit device.flags BT_DEV_WII_EXT_ID_READ = true →
      (bt_dev_task_hid_config_run ext_id (n + 1) device).map (fun r => r.2) =
        some ([.bt_hid_cmd_wii_set_rep_mode device.acl_handle device.intr_chan.dcid 1
                    BT_HIDP_WII_CORE_ACC_EXT], true)) := by
  have hne : wii_wiiu_ctrl device.type ≠ 0 := by rw [htype]; decide
  simp only [BT_DEV_PENDING] at hpend
  refine ⟨fun h1 h2 => ?_, fun h1 h2 h3 h4 => ⟨fun hx => ?_, fun hx => ?_⟩, fun h1 h2 => ?_⟩
  · simp only [BT_DEV_WII_STATUS_RX, BT_DEV_WII_LED_SET] at h1 h2
    simp [bt_dev_task_hid_config_run, bt_dev_task_pass, bt_dev_task_hid_config, wii_peer_reply,
      bt_acl_handler_wii_ack, bt_acl_handler_wii_rd_data, BT_HIDP_WII_WR_MEM,
      atomic_test_set_bit, atomic_test_clear_bit, hne, hled, hpend, h1, h2, BT_DEV_PENDING,
      BT_DEV_WII_STATUS_RX, BT_DEV_WII_EXT_CONF_PENDING, BT_DEV_WII_EXT_CONF_DONE,
      BT_DEV_WII_EXT_ID_READ, BT_DEV_WII_REP_MODE_SET, BT_DEV_WII_LED_SET]
  · simp only [BT_DEV_WII_STATUS_RX, BT_DEV_WII_EXT_ID_READ, BT_DEV_WII_EXT_CONF_PENDING,
      BT_DEV_WII_EXT_CONF_DONE] at h1 h2 h3 h4
    have hx1 : wii_wiiu_ctrl (bt_get_type_from_wii_ext ext_id) ≠ 0 := by
      rw [wii_wiiu_ctrl_ext_type ext_id hx]; decide
    simp [bt_dev_task_hid_config_run, bt_dev_task_pass, bt_dev_task_hid_config, wii_peer_reply,
      bt_acl_handler_wii_ack, bt_acl_handler_wii_rd_data, BT_HIDP_WII_WR_MEM,
      atomic_test_set_bit, atomic_test_clear_bit, hne, hx1, hpend, h1, h2, h3, h4,
      BT_DEV_PENDING, BT_DEV_WII_STATUS_RX, BT_DEV_WII_EXT_CONF_PENDING,
      BT_DEV_WII_EXT_CONF_DONE, BT_DEV_WII_EXT_ID_READ, BT_DEV_WII_REP_MODE_SET,
      BT_DEV_WII_LED_SET]
  · simp only [BT_DEV_WII_STATUS_RX, BT_DEV_WII_EXT_ID_READ, BT_DEV_WII_EXT_CONF_PENDING,
      BT_DEV_WII_EXT_CONF_DONE] at h1 h2 h3 h4
    have hidle := fun (d : bt_dev) (hd : d.type = -1) =>
      bt_dev_task_hid_config_run_idle ext_id d (by rw [hd]; decide) (by rw [hd]; decide) n
    simp [bt_dev_task_hid_config_run, bt_dev_task_pass, bt_dev_task_hid_config, wii_peer_reply,
      bt_acl_handler_wii_ack, bt_acl_handler_wii_rd_data, BT_HIDP_WII_WR_MEM,
      atomic_test_set_bit, atomic_test_clear_bit, hne, hx, hidle, hpend, h1, h2, h3, h4,
      BT_DEV_PENDING, BT_DEV_WII_STATUS_RX, BT_DEV_WII_EXT_CONF_PENDING,
      BT_DEV_WII_EXT_CONF_DONE, BT_DEV_WII_EXT_ID_READ, BT_DEV_WII_REP_MODE_SET,
      BT_DEV_WII_LED_SET]
  · simp only [BT_DEV_WII_STATUS_RX, BT_DEV_WII_EXT_ID_READ] at h1 h2
    simp [bt_dev_task_hid_config_run, bt_dev_task_pass, bt_dev_task_hid_config, wii_peer_reply,
      bt_acl_handler_wii_ack, bt_acl_handler_wii_rd_data, BT_HIDP_WII_WR_MEM,
      atomic_test_set_bit, atomic_test_clear_bit, hne, hpend, h1, h2, BT_DEV_PENDING,
      BT_DEV_WII_STATUS_RX, BT_DEV_WII_EXT_CONF_PENDING, BT_DEV_WII_EXT_CONF_DONE,
      BT_DEV_WII_EXT_ID_READ, BT_DEV_WII_REP_MODE_SET, BT_DEV_WII_LED_SET]

/-- C29 (as amended) on the peer in slot 2, handle 0x002A, interrupt channel
0x0041: first configuration; configuration after a status report that says an
extension is attached, the extension answering with the Nunchuck identifier;
and the same with an identifier that is not in the table. -/
theorem hid_config_order_witness :
    (bt_dev_task_hid_config_run [] 2 wii_peer).map (fun r => r.2) =
      some ([.bt_hid_cmd_wii_set_led 0x002A 0x41 0x40,
             .bt_hid_cmd_wii_set_rep_mode 0x002A 0x41 1 BT_HIDP_WII_CORE_ACC_EXT], true) ∧
    (bt_dev_task_hid_config_run [0x00, 0x00, 0xA4, 0x20, 0x00, 0x00] 4
        (bt_acl_handler_wii_status wii_peer_configured BT_HIDP_WII_FLAGS_EXT_CONN true).1).map
        (fun r => (r.1.type, r.2)) =
      some (WII_NUNCHUCK,
            [.bt_hid_cmd_wii_write 0x002A 0x41 ⟨BT_HIDP_WII_REG, [0xA4, 0x00, 0xF0], 0x01, [0x55]⟩,
             .bt_hid_cmd_wii_write 0x002A 0x41 ⟨BT_HIDP_WII_REG, [0xA4, 0x00, 0xFB], 0x01, [0x00]⟩,
             .bt_hid_cmd_wii_read 0x002A 0x41 ⟨BT_HIDP_WII_REG, [0xA4, 0x00, 0xFA], 0x0600⟩,
             .bt_hid_cmd_wii_set_rep_mode 0x002A 0x41 1 BT_HIDP_WII_CORE_ACC_EXT], true) ∧
    (bt_dev_task_hid_config_run [0x00, 0x00, 0xA4, 0x20, 0x00, 0x02] 10
        (bt_acl_handler_wii_status wii_peer_configured BT_HIDP_WII_FLAGS_EXT_CONN true).1).map
        (fun r => (r.1.type, r.2)) =
      some (-1,
            [.bt_hid_cmd_wii_write 0x002A 0x41 ⟨BT_HIDP_WII_REG, [0xA4, 0x00, 0xF0], 0x01, [0x55]⟩,
             .bt_hid_cmd_wii_write 0x002A 0x41 ⟨BT_HIDP_WII_REG, [0xA4, 0x00, 0xFB], 0x01, [0x00]⟩,
             .bt_hid_cmd_wii_read 0x002A 0x41 ⟨BT_HIDP_WII_REG, [0xA4, 0x00, 0xFA], 0x0600⟩],
            false) :=
  ⟨(hid_config_order wii_peer 0x40 [] 0 (by decide) (by decide) (by decide)).1
      (by decide) (by decide),
   ((hid_config_order
      (bt_acl_handler_wii_status wii_peer_configured BT_HIDP_WII_FLAGS_EXT_CONN true).1 0x40
      [0x00, 0x00, 0xA4, 0x20, 0x00, 0x00] 0
      (by decide) (by decide) (by decide)).2.1
        (by decide) (by decide) (by decide) (by decide)).1 (by decide),
   ((hid_config_order
      (bt_acl_handler_wii_status wii_peer_configured BT_HIDP_WII_FLAGS_EXT_CONN true).1 0x40
      [0x00, 0x00, 0xA4, 0x20, 0x00, 0x02] 7
      (by decide) (by decide) (by decide)).2.1
        (by decide) (by decide) (by decide) (by decide)).2 (by decide)⟩

/-- C29 as stated fails: the first command of the sequencer is never the read of
the extension identifier.  For a freshly connected Wii remote the first pass
issues the player-LED command, the second the report-mode command, and the
task ends: no read and no write at all.  After a status report that says an
extension is attached, the first two passes issue the two writes and only the
third the read at 0xA400FA; the report-mode command follows when the extension
answers with an identifier of the table (here the Nunchuck), and nothing
follows when it does not; no LED command follows in either case. -/
theorem hid_config_led_first_and_writes_before_read :
    (bt_dev_task_hid_config wii_peer).map (fun r => r.2) =
      some ([.bt_hid_cmd_wii_set_led 0x002A 0x41 0x40], false) ∧
    (bt_dev_task_hid_config_run [0x00, 0x00, 0xA4, 0x20, 0x00, 0x00] 5 wii_peer).map
        (fun r => r.2) =
      some ([.bt_hid_cmd_wii_set_led 0x002A 0x41 0x40,
             .bt_hid_cmd_wii_set_rep_mode 0x002A 0x41 1 0x35], true) ∧
    (bt_dev_task_hid_config
        (bt_acl_handler_wii_status wii_peer_configured 0x02 true).1).map (fun r => r.2) =
      some ([.bt_hid_cmd_wii_write 0x002A 0x41 ⟨0x04, [0xA4, 0x00, 0xF0], 0x01, [0x55]⟩], false) ∧
    (bt_dev_task_hid_config_run [0x00, 0x00, 0xA4, 0x20, 0x00, 0x00] 5
        (bt_acl_handler_wii_status wii_peer_configured 0x02 true).1).map (fun r => r.2) =
      some ([.bt_hid_cmd_wii_write 0x002A 0x41 ⟨0x04, [0xA4, 0x00, 0xF0], 0x01, [0x55]⟩,
             .bt_hid_cmd_wii_write 0x002A 0x41 ⟨0x04, [0xA4, 0x00, 0xFB], 0x01, [0x00]⟩,
             .bt_hid_cmd_wii_read 0x002A 0x41 ⟨0x04, [0xA4, 0x00, 0xFA], 0x0600⟩,
             .bt_hid_cmd_wii_set_rep_mode 0x002A 0x41 1 0x35], true) ∧
    (bt_dev_task_hid_config_run [0x00, 0x00, 0xA4, 0x20, 0x00, 0x02] 5
        (bt_acl_handler_wii_status wii_peer_configured 0x02 true).1).map (fun r => r.2) =
      some ([.bt_hid_cmd_wii_write 0x002A 0x41 ⟨0x04, [0xA4, 0x00, 0xF0], 0x01, [0x55]⟩,
             .bt_hid_cmd_wii_write 0x002A 0x41 ⟨0x04, [0xA4, 0x00, 0xFB], 0x01, [0x00]⟩,
             .bt_hid_cmd_wii_read 0x002A 0x41 ⟨0x04, [0xA4, 0x00, 0xFA], 0x0600⟩], false) := by
  decide

/-! ### Retry counters -/

/-- Writing a slot whose retry counter is at most 2 into a table all of whose
retry counters are at most 2 gives such a table. -/
theorem pkt_retry_set (tbl : dev_table) (i : Fin 7) (d : bt_dev) (hd : d.pkt_retry ≤ 2)
    (h : ∀ j, (tbl.get j).pkt_retry ≤ 2) : ∀ j, ((tbl.set i d).get j).pkt_retry ≤ 2 := by
  intro j
  by_cases hij : i = j
  · subst hij; rw [Mathlib.Vector.get_set_same]; exact hd
  · rw [Mathlib.Vector.get_set_of_ne hij]; exact h j

/-- The error branch of the completion events keeps every retry counter of the
table at most 2 and leaves the bring-up retry counter alone. -/
theorem dev_conn_error_retry (s : host) (i : Fin 7) (h : ∀ j, (s.bt_dev.get j).pkt_retry ≤ 2) :
    (dev_conn_error s i).1.bt_pkt_retry = s.bt_pkt_retry ∧
    ∀ j, ((dev_conn_error s i).1.bt_dev.get j).pkt_retry ≤ 2 := by
  unfold dev_conn_error
  simp only [BT_MAX_RETRY]
  split_ifs with h1 h2
  · exact ⟨rfl, pkt_retry_set _ _ _ (by simp only; omega) h⟩
  · exact ⟨rfl, pkt_retry_set _ _ _ (by simp [bt_host_reset_dev, bt_dev_zero]) h⟩
  · exact ⟨rfl, pkt_retry_set _ _ _ (by simp [bt_host_reset_dev, bt_dev_zero]) h⟩

/-- One event keeps the bring-up retry counter at most 3 and every slot's retry
counter at most 2. -/
theorem retry_bound_step (s : host) (e : hci_evt) (s1 : host) (cmds : List cmd_call)
    (h : bt_hci_event_handler s e = some (s1, cmds))
    (hg : s.bt_pkt_retry ≤ 3) (hd : ∀ j, (s.bt_dev.get j).pkt_retry ≤ 2) :
    s1.bt_pkt_retry ≤ 3 ∧ ∀ j, (s1.bt_dev.get j).pkt_retry ≤ 2 := by
  cases e with
  | INQUIRY_COMPLETE =>
    simp only [bt_hci_event_handler] at h
    split_ifs at h <;> (cases h; exact ⟨hg, hd⟩)
  | INQUIRY_RESULT evt n bdaddr lb =>
    simp only [bt_hci_event_handler] at h
    split_ifs at h
    · split at h
      · cases h; exact ⟨hg, hd⟩
      · split at h
        · rename_i j _
          cases h
          exact ⟨hg, pkt_retry_set _ _ _ (hd j) hd⟩
        · exact Option.noConfusion h
    · cases h; exact ⟨hg, hd⟩
  | CONN_COMPLETE status handle a =>
    simp only [bt_hci_event_handler] at h
    split at h
    · rename_i i _
      split_ifs at h
      · have hs : (dev_conn_error s i).1 = s1 := by rw [Option.some.inj h]
        have hb := dev_conn_error_retry s i hd
        rw [hs] at hb
        exact ⟨by rw [hb.1]; exact hg, hb.2⟩
      · cases h
        exact ⟨hg, pkt_retry_set _ _ _ (Nat.zero_le 2) hd⟩
    · cases h; exact ⟨hg, hd⟩
  | REMOTE_NAME_REQ_COMPLETE status a name =>
    simp only [bt_hci_event_handler] at h
    split at h
    · rename_i i _
      split_ifs at h
      · have hs : (dev_conn_error s i).1 = s1 := by rw [Option.some.inj h]
        have hb := dev_conn_error_retry s i hd
        rw [hs] at hb
        exact ⟨by rw [hb.1]; exact hg, hb.2⟩
      · cases h
        exact ⟨hg, pkt_retry_set _ _ _ (Nat.zero_le 2) hd⟩
    · cases h; exact ⟨hg, hd⟩
  | CMD_COMPLETE opcode status rp =>
    simp only [bt_hci_event_handler, BT_MAX_RETRY] at h
    split_ifs at h with h1 h2 h3 h4 h5
    · cases h; exact ⟨Nat.zero_le 3, hd⟩
    · cases h; exact ⟨by simp only; omega, hd⟩
    · cases h; exact ⟨hg, hd⟩
    · cases h; exact ⟨Nat.zero_le 3, hd⟩
    · cases h; exact ⟨Nat.zero_le 3, hd⟩
    · cases h; exact ⟨hg, hd⟩
  | OTHER evt =>
    simp only [bt_hci_event_handler] at h
    cases h; exact ⟨hg, hd⟩

/-- A run of events keeps the bounds of `retry_bound_step`. -/
theorem retry_bound_run (evs : List hci_evt) : ∀ (s s2 : host) (outs : List (List cmd_call)),
    run_events s evs = some (s2, outs) →
    s.bt_pkt_retry ≤ 3 → (∀ j, (s.bt_dev.get j).pkt_retry ≤ 2) →
    s2.bt_pkt_retry ≤ 3 ∧ ∀ j, (s2.bt_dev.get j).pkt_retry ≤ 2 := by
  induction evs with
  | nil =>
    intro s s2 outs h hg hd
    simp only [run_events, Option.some.injEq, Prod.mk.injEq] at h
    rw [← h.1]; exact ⟨hg, hd⟩
  | cons e es ih =>
    intro s s2 outs h hg hd
    obtain ⟨s1, c, cs, h1, h2, _⟩ := run_events_cons_some h
    obtain ⟨hg1, hd1⟩ := retry_bound_step s e s1 c h1 hg hd
    exact ih s1 s2 cs h2 hg1 hd1

/-- C31. Retry counters stay bounded: in every state reached from the state at
start-up by a sequence of inbound events, the bring-up retry counter is at
most 3 and the retry counter of every slot, occupied or not, is at most 2. -/
theorem retry_counters_bounded (evs : List hci_evt) (s : host) (outs : List (List cmd_call))
    (hrun : run_events host_init evs = some (s, outs)) :
    s.bt_pkt_retry ≤ 3 ∧ ∀ j, (s.bt_dev.get j).pkt_retry ≤ 2 :=
  retry_bound_run evs host_init s outs hrun (by decide)
    (fun j => by rw [show host_init.bt_dev = bt_dev_init from rfl, bt_dev_init_get]; decide)

/-- C31 where both bounds are met: after three failed RESET completions, a
discovery and two failed connection-completes the bring-up retry counter is 3
and the retry counter of slot 0 is 2. -/
theorem retry_counters_bounded_witness :
    ∃ s outs, run_events host_init [evt_reset_fail, evt_reset_fail, evt_reset_fail, evt_found_a,
        evt_conn_a_fail, evt_conn_a_fail] = some (s, outs) ∧
      s.bt_pkt_retry = 3 ∧ (s.bt_dev.get 0).pkt_retry = 2 ∧
      (s.bt_pkt_retry ≤ 3 ∧ ∀ j, (s.bt_dev.get j).pkt_retry ≤ 2) := by
  cases hrun : run_events host_init [evt_reset_fail, evt_reset_fail, evt_reset_fail, evt_found_a,
      evt_conn_a_fail, evt_conn_a_fail] with
  | none => exact absurd hrun (by decide)
  | some r =>
    obtain ⟨s, outs⟩ := r
    have hv : (run_events host_init [evt_reset_fail, evt_reset_fail, evt_reset_fail,
        evt_found_a, evt_conn_a_fail, evt_conn_a_fail]).map
        (fun r => (r.1.bt_pkt_retry, (r.1.bt_dev.get 0).pkt_retry)) = some (3, 2) := by decide
    rw [hrun] at hv
    simp only [Option.map, Option.some.injEq, Prod.mk.injEq] at hv
    exact ⟨s, outs, rfl, hv.1, hv.2, retry_counters_bounded _ s outs hrun⟩

/-! ### Channel lookup -/

/-- C32. Channel lookup is a pure low-nibble projection: for every channel id `c`,
`bt_get_dev_from_scid` returns `c mod 16`; two ids with the same low nibble give
the same index whatever their other bits; the index is a slot index (below 7)
exactly when the low nibble is at most 6, and then the slot handed out is the
one at that index of whatever table, occupied or not; otherwise the index
designates no slot of the table. -/
theorem scid_low_nibble_projection (c : Nat) :
    bt_get_dev_from_scid c = c % 16 ∧
    (∀ c2, c2 % 16 = c % 16 → bt_get_dev_from_scid c2 = bt_get_dev_from_scid c) ∧
    (bt_get_dev_from_scid c < 7 ↔ c % 16 ≤ 6) ∧
    (∀ (tbl : dev_table) (h : c % 16 < 7),
      bt_get_dev_from_scid_dev tbl c = some (tbl.get ⟨c % 16, h⟩)) ∧
    (∀ tbl : dev_table, 6 < c % 16 → bt_get_dev_from_scid_dev tbl c = none) := by
  have hmod : ∀ x : Nat, bt_get_dev_from_scid x = x % 16 := by
    intro x
    unfold bt_get_dev_from_scid
    exact Nat.and_pow_two_sub_one_eq_mod x 4
  refine ⟨hmod c, fun c2 h => by rw [hmod, hmod, h], by rw [hmod]; omega, ?_, ?_⟩
  · intro tbl h
    unfold bt_get_dev_from_scid_dev
    have h7 : bt_get_dev_from_scid c < 7 := by rw [hmod]; exact h
    rw [dif_pos h7]
    congr 2
    exact Fin.ext (hmod c)
  · intro tbl h
    unfold bt_get_dev_from_scid_dev
    have h7 : ¬ bt_get_dev_from_scid c < 7 := by rw [hmod]; omega
    rw [dif_neg h7]

/-! ### Table guards -/

/-- The per-peer step executor issues nothing past the table the paging flag
selects. -/
theorem bt_host_dev_conn_q_cmd_past_table (tbl : dev_table) (device : Fin 7)
    (h : (atomic_test_bit (tbl.get device).flags BT_DEV_PAGE = false ∧
            9 ≤ (tbl.get device).conn_state) ∨
         (atomic_test_bit (tbl.get device).flags BT_DEV_PAGE = true ∧
            1 ≤ (tbl.get device).conn_state)) :
    bt_host_dev_conn_q_cmd tbl device = [] := by
  unfold bt_host_dev_conn_q_cmd bt_host_dev_tx_conn_q_cmd bt_host_dev_rx_conn_q_cmd
  rcases h with ⟨hp, hk⟩ | ⟨hp, hk⟩
  · have : ¬ (tbl.get device).conn_state < bt_dev_tx_conn.length := by
      simp only [bt_dev_tx_conn, List.length_cons, List.length_nil]; omega
    simp [hp, this]
  · have : ¬ (tbl.get device).conn_state < bt_dev_rx_conn.length := by
      simp only [bt_dev_rx_conn, List.length_cons, List.length_nil]; omega
    simp [hp, this]

/-- C33 (as amended). Step executors never read past their tables: for every
value of the bring-up index, `bt_host_config_q_cmd` issues exactly
`bt_hci_config[index]` when the index is below 36 and nothing otherwise; for
every slot, `bt_host_dev_conn_q_cmd` issues nothing when the step index is 9 or
more with the paging flag clear, or 1 or more with the paging flag set, and
whenever it issues a command the step index is inside the selected table.  So
after the last step: a non-error command-complete at index 35 or more (below
the 32-bit wrap) moves the index on and issues nothing; an error one at index
36 or more that does not exhaust the retries issues nothing; a successful
completion event matched to a slot whose step index is then past its table
issues nothing.  (An error completion that exhausts the retries still issues
a command, which comes from no table: see the counterexample.) -/
theorem step_executors_stay_inside_tables (s : host) (index : Nat) :
    (index < 36 → (bt_hci_config[index]?).map (fun e => [e.call]) =
        some (bt_host_config_q_cmd index)) ∧
    (36 ≤ index → bt_host_config_q_cmd index = []) ∧
    (∀ (tbl : dev_table) (device : Fin 7),
      ((atomic_test_bit (tbl.get device).flags BT_DEV_PAGE = false ∧
          9 ≤ (tbl.get device).conn_state) ∨
        (atomic_test_bit (tbl.get device).flags BT_DEV_PAGE = true ∧
          1 ≤ (tbl.get device).conn_state)) →
      bt_host_dev_conn_q_cmd tbl device = []) ∧
    (∀ (tbl : dev_table) (device : Fin 7) (c : cmd_call),
      c ∈ bt_host_dev_conn_q_cmd tbl device →
      ∃ e, dev_step_entry (tbl.get device) = some e ∧ c = dev_cmd_call e tbl device ∧
        (if atomic_test_bit (tbl.get device).flags BT_DEV_PAGE then
          (tbl.get device).conn_state < 1 else (tbl.get device).conn_state < 9)) ∧
    (∀ (op : hci_opcode) (status : Nat) (rp : bt_addr_t),
      op ∈ cmd_complete_error_cases →
      (status = BT_HCI_ERR_SUCCESS ∨ status = BT_HCI_ERR_UNKNOWN_CMD) →
      35 ≤ s.bt_config_state → s.bt_config_state + 1 < 2 ^ 32 →
      ∃ s1, bt_hci_event_handler s (.CMD_COMPLETE op status rp) = some (s1, []) ∧
        s1.bt_config_state = s.bt_config_state + 1) ∧
    (∀ (op : hci_opcode) (status : Nat) (rp : bt_addr_t),
      op ∈ cmd_complete_error_cases →
      (status ≠ BT_HCI_ERR_SUCCESS ∧ status ≠ BT_HCI_ERR_UNKNOWN_CMD) →
      36 ≤ s.bt_config_state → s.bt_pkt_retry < 3 →
      ∃ s1, bt_hci_event_handler s (.CMD_COMPLETE op status rp) = some (s1, []) ∧
        s1.bt_config_state = s.bt_config_state) ∧
    (∀ (i : Fin 7) (bdaddr : bt_addr_t) (e : hci_evt),
      (bt_get_dev_from_bdaddr s.bt_dev bdaddr none).2 = some i →
      is_conn_success_for bdaddr e = true →
      ((atomic_test_bit (s.bt_dev.get i).flags BT_DEV_PAGE = false ∧
          8 ≤ (s.bt_dev.get i).conn_state) ∨
        atomic_test_bit (s.bt_dev.get i).flags BT_DEV_PAGE = true) →
      ∃ s1, bt_hci_event_handler s e = some (s1, []) ∧
        (s1.bt_dev.get i).conn_state = (s.bt_dev.get i).conn_state + 1) := by
  refine ⟨fun h => bt_host_config_q_cmd_in_table h, fun h => bt_host_config_q_cmd_past_table h,
    fun tbl device h => bt_host_dev_conn_q_cmd_past_table tbl device h, ?_, ?_, ?_, ?_⟩
  · intro tbl device c hc
    rw [bt_host_dev_conn_q_cmd_eq] at hc
    cases he : dev_step_entry (tbl.get device) with
    | none => rw [he] at hc; simp at hc
    | some e =>
      rw [he] at hc
      simp only [List.mem_singleton] at hc
      refine ⟨e, rfl, hc, ?_⟩
      unfold dev_step_entry at he
      cases hp : atomic_test_bit (tbl.get device).flags BT_DEV_PAGE
      · rw [hp] at he
        simp only [Bool.false_eq_true, if_false] at he ⊢
        obtain ⟨hlt, _⟩ := List.getElem?_eq_some.mp he
        simpa [bt_dev_tx_conn] using hlt
      · rw [hp] at he
        simp only [if_true] at he ⊢
        obtain ⟨hlt, _⟩ := List.getElem?_eq_some.mp he
        simpa [bt_dev_rx_conn] using hlt
  · intro op status rp hop hst hk hw
    rw [cmd_complete_success_step s op status rp hst ((cmd_complete_cases_agree op).mp hop)]
    rw [Nat.mod_eq_of_lt hw, bt_host_config_q_cmd_past_table (by omega)]
    exact ⟨_, rfl, rfl⟩
  · intro op status rp hop hst hk hr
    rw [cmd_complete_error_step s op status rp hst hop]
    have hlt : (s.bt_pkt_retry + 1) % 2 ^ 32 = s.bt_pkt_retry + 1 :=
      Nat.mod_eq_of_lt (by omega)
    have : ¬ (s.bt_pkt_retry + 1) % 2 ^ 32 > BT_MAX_RETRY := by
      rw [hlt]; simp only [BT_MAX_RETRY]; omega
    rw [if_neg this, bt_host_config_q_cmd_past_table hk]
    exact ⟨_, rfl, rfl⟩
  · intro i bdaddr e hm he hk
    obtain ⟨d, hh, hstate, _, hflags, _⟩ := conn_success_step s i bdaddr e hm he
    have hnone : bt_host_dev_conn_q_cmd (s.bt_dev.set i d) i = [] := by
      apply bt_host_dev_conn_q_cmd_past_table
      rw [Mathlib.Vector.get_set_same, hflags, hstate]
      rcases hk with ⟨hp, hk⟩ | hp
      · exact Or.inl ⟨hp, by omega⟩
      · exact Or.inr ⟨hp, by omega⟩
    rw [hnone] at hh
    exact ⟨_, hh, by simp only [Mathlib.Vector.get_set_same, hstate]⟩

/-- C33 (as amended) on the bring-up index 35, where inquiry was issued: one more
successful completion moves the index to 36 and issues nothing, and the
executor issues nothing at index 36. -/
theorem step_executors_stay_inside_tables_witness :
    (∃ s1, bt_hci_event_handler { host_init with bt_config_state := 35 } evt_reset_ok =
        some (s1, []) ∧ s1.bt_config_state = 36) ∧
    bt_host_config_q_cmd 36 = [] :=
  ⟨(step_executors_stay_inside_tables { host_init with bt_config_state := 35 } 36).2.2.2.2.1
      .BT_HCI_OP_RESET BT_HCI_ERR_SUCCESS bdaddr_zero (by decide) (Or.inl rfl) (by decide)
      (by decide),
   (step_executors_stay_inside_tables host_init 36).2.1 (by decide)⟩

/-- C33 as stated fails for completions that exhaust the retries.  After 36
successful completions the bring-up index is 36, past the table; three error
completions then issue nothing, but the fourth issues a controller reset and
rewinds the index to 0.  Likewise a peer at step index 9, past the initiator
table: two failed connection-completes issue nothing, the third releases the
slot and issues an inquiry. -/
theorem completion_past_table_still_issues_on_retry_exhaustion :
    (run_events host_init evts_past_table).map (fun r => r.1.bt_config_state) = some 36 ∧
    (run_events host_init
        (evts_past_table ++ [evt_reset_fail, evt_reset_fail, evt_reset_fail, evt_reset_fail])).map
        (fun r => (r.1.bt_config_state, r.2.drop 36)) = some (0, [[], [], [], [reset_call]]) ∧
    (run_events host_peer_past_table [evt_conn_a_fail, evt_conn_a_fail, evt_conn_a_fail]).map
        (fun r => r.2) = some [[], [], [inquiry_call]] := by
  decide

/-! ### Bring-up and the opcode of the completion -/

/-- C34. Bring-up advancement does not depend on which recognised opcode
completed: for every state and any two recognised opcodes, command-complete
events for them with the same status (whatever their payloads) both complete
and yield the same bring-up index, the same retry counter, the same slots and
flags word and the same issued commands; the local address afterwards is the
old one, except that a non-error READ_BD_ADDR completion stores its payload. -/
theorem bring_up_independent_of_opcode (s : host) (o1 o2 : hci_opcode) (status : Nat)
    (rp1 rp2 : bt_addr_t) (h1 : o1 ∈ cmd_complete_error_cases)
    (h2 : o2 ∈ cmd_complete_error_cases) :
    ∃ s1 s2 cmds,
      bt_hci_event_handler s (.CMD_COMPLETE o1 status rp1) = some (s1, cmds) ∧
      bt_hci_event_handler s (.CMD_COMPLETE o2 status rp2) = some (s2, cmds) ∧
      s1.bt_config_state = s2.bt_config_state ∧ s1.bt_pkt_retry = s2.bt_pkt_retry ∧
      s1.bt_dev = s2.bt_dev ∧ s1.bt_flags = s2.bt_flags ∧
      s1.local_bdaddr =
        (if (status = BT_HCI_ERR_SUCCESS ∨ status = BT_HCI_ERR_UNKNOWN_CMD) ∧
            o1 = .BT_HCI_OP_READ_BD_ADDR then rp1 else s.local_bdaddr) ∧
      s2.local_bdaddr =
        (if (status = BT_HCI_ERR_SUCCESS ∨ status = BT_HCI_ERR_UNKNOWN_CMD) ∧
            o2 = .BT_HCI_OP_READ_BD_ADDR then rp2 else s.local_bdaddr) := by
  by_cases hst : status = BT_HCI_ERR_SUCCESS ∨ status = BT_HCI_ERR_UNKNOWN_CMD
  · rw [cmd_complete_success_step s o1 status rp1 hst ((cmd_complete_cases_agree o1).mp h1),
      cmd_complete_success_step s o2 status rp2 hst ((cmd_complete_cases_agree o2).mp h2)]
    refine ⟨_, _, _, rfl, rfl, rfl, rfl, rfl, rfl, ?_, ?_⟩ <;> simp [hst]
  · have hst2 : status ≠ BT_HCI_ERR_SUCCESS ∧ status ≠ BT_HCI_ERR_UNKNOWN_CMD :=
      ⟨fun h => hst (Or.inl h), fun h => hst (Or.inr h)⟩
    rw [cmd_complete_error_step s o1 status rp1 hst2 h1,
      cmd_complete_error_step s o2 status rp2 hst2 h2]
    simp only [hst, false_and, if_false]
    by_cases hr : (s.bt_pkt_retry + 1) % 2 ^ 32 > BT_MAX_RETRY
    · rw [if_pos hr]
      exact ⟨_, _, _, rfl, rfl, rfl, rfl, rfl, rfl, rfl, rfl⟩
    · rw [if_neg hr]
      exact ⟨_, _, _, rfl, rfl, rfl, rfl, rfl, rfl, rfl, rfl⟩

/-- C34 at bring-up index 3 (READ_BD_ADDR outstanding): a successful completion
for RESET and one for READ_BD_ADDR both move the index to 4 and issue the same
command; only the second stores the address. -/
theorem bring_up_independent_of_opcode_witness :
    ∃ s1 s2 cmds,
      bt_hci_event_handler { host_init with bt_config_state := 3 }
        (.CMD_COMPLETE .BT_HCI_OP_RESET 0 addr_local) = some (s1, cmds) ∧
      bt_hci_event_handler { host_init with bt_config_state := 3 }
        (.CMD_COMPLETE .BT_HCI_OP_READ_BD_ADDR 0 addr_local) = some (s2, cmds) ∧
      s1.bt_config_state = s2.bt_config_state ∧ s1.local_bdaddr = bdaddr_zero ∧
      s2.local_bdaddr = addr_local := by
  obtain ⟨s1, s2, cmds, e1, e2, hc, _, _, _, a1, a2⟩ :=
    bring_up_independent_of_opcode { host_init with bt_config_state := 3 } .BT_HCI_OP_RESET
      .BT_HCI_OP_READ_BD_ADDR 0 addr_local addr_local (by decide) (by decide)
  exact ⟨s1, s2, cmds, e1, e2, hc, a1.trans (by decide), a2.trans (by decide)⟩

/-! ### Local address -/

/-- C35. The local controller address changes only on a READ_BD_ADDR completion: a
command-complete for READ_BD_ADDR with status success or unknown-command
completes and sets the local address to the six bytes that follow the status
byte; every other inbound event, a READ_BD_ADDR command-complete with an error
status included, leaves the local address as it was, and so does every inbound
frame that is not an event frame. -/
theorem local_address_set_only_by_read_bd_addr (s : host) :
    (∀ (status : Nat) (rp : bt_addr_t),
      status = BT_HCI_ERR_SUCCESS ∨ status = BT_HCI_ERR_UNKNOWN_CMD →
      ∃ s1 cmds, bt_hci_event_handler s (.CMD_COMPLETE .BT_HCI_OP_READ_BD_ADDR status rp) =
        some (s1, cmds) ∧ s1.local_bdaddr = rp) ∧
    (∀ (status : Nat) (rp : bt_addr_t),
      status ≠ BT_HCI_ERR_SUCCESS ∧ status ≠ BT_HCI_ERR_UNKNOWN_CMD →
      ∃ s1 cmds, bt_hci_event_handler s (.CMD_COMPLETE .BT_HCI_OP_READ_BD_ADDR status rp) =
        some (s1, cmds) ∧ s1.local_bdaddr = s.local_bdaddr) ∧
    (∀ (e : hci_evt) (s1 : host) (cmds : List cmd_call),
      bt_hci_event_handler s e = some (s1, cmds) →
      (∀ status rp, e ≠ .CMD_COMPLETE .BT_HCI_OP_READ_BD_ADDR status rp) →
      s1.local_bdaddr = s.local_bdaddr) ∧
    (∀ (data : h4_frame) (s1 : host) (cmds : List cmd_call) (r : Int),
      bt_host_rcv_pkt s data = some (s1, cmds, r) → data.h4_type ≠ BT_HCI_H4_TYPE_EVT →
      s1.local_bdaddr = s.local_bdaddr) := by
  refine ⟨?_, ?_, ?_, ?_⟩
  · intro status rp hst
    rw [cmd_complete_success_step s _ status rp hst (Or.inl rfl)]
    exact ⟨_, _, rfl, by simp⟩
  · intro status rp hst
    rw [cmd_complete_error_step s _ status rp hst (by decide)]
    split_ifs
    · exact ⟨_, _, rfl, rfl⟩
    · exact ⟨_, _, rfl, rfl⟩
  · intro e s1 cmds h hne
    cases e with
    | INQUIRY_COMPLETE =>
      simp only [bt_hci_event_handler] at h
      split_ifs at h <;> (cases h; rfl)
    | INQUIRY_RESULT evt n bdaddr lb =>
      simp only [bt_hci_event_handler] at h
      split_ifs at h
      · split at h
        · cases h; rfl
        · split at h
          · cases h; rfl
          · exact Option.noConfusion h
      · cases h; rfl
    | CONN_COMPLETE status handle a =>
      simp only [bt_hci_event_handler] at h
      split at h
      · rename_i i _
        obtain ⟨d, c, hd⟩ := dev_conn_error_eq s i
        split_ifs at h
        · rw [hd] at h; cases h; rfl
        · cases h; rfl
      · cases h; rfl
    | REMOTE_NAME_REQ_COMPLETE status a name =>
      simp only [bt_hci_event_handler] at h
      split at h
      · rename_i i _
        obtain ⟨d, c, hd⟩ := dev_conn_error_eq s i
        split_ifs at h
        · rw [hd] at h; cases h; rfl
        · cases h; rfl
      · cases h; rfl
    | CMD_COMPLETE opcode status rp =>
      have hop : opcode ≠ .BT_HCI_OP_READ_BD_ADDR := fun hc => hne status rp (by rw [hc])
      simp only [bt_hci_event_handler, if_neg hop] at h
      split_ifs at h <;> (cases h; rfl)
    | OTHER evt =>
      simp only [bt_hci_event_handler] at h
      cases h; rfl
  · intro data s1 cmds r h hne
    simp only [bt_host_rcv_pkt, bt_acl_handler, if_neg hne] at h
    split_ifs at h <;> (cases h; rfl)

/-! ### Slot scans return the lowest index -/

/-- The pair a scan produces: the value is the index `i` exactly when `i` is the
first index at which the test holds, and -1 exactly when it holds nowhere; the
pointer is the slot found, or what the caller had when nothing is found. -/
theorem scan_result_lowest (p : Fin 7 → Bool) (device : Option (Fin 7)) :
    (∀ i : Fin 7, (scan_result (scan_slots p) device).1 = (i.val : Int) ↔
      (p i = true ∧ ∀ j, j < i → p j = false)) ∧
    ((scan_result (scan_slots p) device).1 = -1 ↔ ∀ j, p j = false) ∧
    (∀ i : Fin 7, (scan_result (scan_slots p) device).1 = (i.val : Int) →
      (scan_result (scan_slots p) device).2 = some i) ∧
    ((scan_result (scan_slots p) device).1 = -1 →
      (scan_result (scan_slots p) device).2 = device) := by
  cases hs : scan_slots p with
  | none =>
    have hnone := (scan_slots_none_iff p).mp hs
    have hv : ∀ i : Fin 7, (scan_result none device).1 ≠ (i.val : Int) := by
      intro i h
      change (-1 : Int) = (i.val : Int) at h
      omega
    refine ⟨fun i => ⟨fun h => absurd h (hv i), fun h => ?_⟩, ⟨fun _ => hnone, fun _ => rfl⟩,
      fun i h => absurd h (hv i), fun _ => rfl⟩
    rw [hnone i] at h
    exact Bool.noConfusion h.1
  | some k =>
    obtain ⟨hk, hlow⟩ := scan_slots_some hs
    have hv : ∀ i : Fin 7, (scan_result (some k) device).1 = (i.val : Int) → k = i := by
      intro i h
      change (k.val : Int) = (i.val : Int) at h
      exact Fin.ext (by omega)
    have hm : (scan_result (some k) device).1 ≠ -1 := by
      intro h
      change (k.val : Int) = -1 at h
      omega
    refine ⟨fun i => ⟨fun h => ?_, fun h => ?_⟩, ⟨fun h => absurd h hm, fun h => ?_⟩,
      fun i h => ?_, fun h => absurd h hm⟩
    · have hik := hv i h
      subst hik
      exact ⟨hk, hlow⟩
    · have hik : scan_slots p = some i := scan_slots_first h.1 h.2
      rw [hs] at hik
      rw [Option.some.inj hik]
      rfl
    · rw [h k] at hk
      exact Bool.noConfusion hk
    · rw [hv i h]
      rfl

/-- C36. Slot scans return the lowest index: `bt_get_new_dev` returns `i` exactly
when `i` is the smallest index in 0..6 whose slot has the found flag clear, and
-1 exactly when all seven have it set; `bt_get_active_dev` returns `i` exactly
when `i` is the smallest index whose slot has the found flag set, and -1 exactly
when none has; the slot handed out is the one at the returned index, and the
caller's reference is left alone when -1 is returned.  Both only read the
table: their embedding takes the table and returns no table. -/
theorem slot_scans_return_lowest_index (tbl : dev_table) (device : Option (Fin 7)) :
    (∀ i : Fin 7, (bt_get_new_dev tbl device).1 = (i.val : Int) ↔
      (occupied (tbl.get i) = false ∧ ∀ j, j < i → occupied (tbl.get j) = true)) ∧
    ((bt_get_new_dev tbl device).1 = -1 ↔ ∀ j, occupied (tbl.get j) = true) ∧
    (∀ i : Fin 7, (bt_get_new_dev tbl device).1 = (i.val : Int) →
      (bt_get_new_dev tbl device).2 = some i) ∧
    ((bt_get_new_dev tbl device).1 = -1 → (bt_get_new_dev tbl device).2 = device) ∧
    (∀ i : Fin 7, (bt_get_active_dev tbl device).1 = (i.val : Int) ↔
      (occupied (tbl.get i) = true ∧ ∀ j, j < i → occupied (tbl.get j) = false)) ∧
    ((bt_get_active_dev tbl device).1 = -1 ↔ ∀ j, occupied (tbl.get j) = false) ∧
    (∀ i : Fin 7, (bt_get_active_dev tbl device).1 = (i.val : Int) →
      (bt_get_active_dev tbl device).2 = some i) ∧
    ((bt_get_active_dev tbl device).1 = -1 → (bt_get_active_dev tbl device).2 = device) := by
  obtain ⟨n1, n2, n3, n4⟩ :=
    scan_result_lowest (fun i => !atomic_test_bit (tbl.get i).flags BT_DEV_DEVICE_FOUND) device
  obtain ⟨a1, a2, a3, a4⟩ :=
    scan_result_lowest (fun i => atomic_test_bit (tbl.get i).flags BT_DEV_DEVICE_FOUND) device
  refine ⟨fun i => ?_, ?_, n3, n4, fun i => ?_, ?_, a3, a4⟩
  · simpa [occupied, bt_get_new_dev] using n1 i
  · simpa [occupied, bt_get_new_dev] using n2
  · simpa [occupied, bt_get_active_dev] using a1 i
  · simpa [occupied, bt_get_active_dev] using a2

/-! ### Image of the extension classifier -/

/-- C37. Image of the extension classifier: `bt_get_type_from_wii_ext` returns
`WII_CLASSIC` both for the Classic Controller identifier and for the Classic
Controller Pro identifier; for every input its result is one of `WII_NUNCHUCK`,
`WII_CLASSIC`, `WIIU_PRO` or -1; and `wii_wiiu_ctrl` of the result is 1 exactly when
the six bytes compared are one of the four table identifiers. -/
theorem ext_classifier_image (ext_type : List Nat) :
    bt_get_type_from_wii_ext [0x00, 0x00, 0xA4, 0x20, 0x01, 0x01] = WII_CLASSIC ∧
    bt_get_type_from_wii_ext [0x01, 0x00, 0xA4, 0x20, 0x01, 0x01] = WII_CLASSIC ∧
    (bt_get_type_from_wii_ext ext_type = WII_NUNCHUCK ∨
      bt_get_type_from_wii_ext ext_type = WII_CLASSIC ∨
      bt_get_type_from_wii_ext ext_type = WIIU_PRO ∨
      bt_get_type_from_wii_ext ext_type = -1) ∧
    (wii_wiiu_ctrl (bt_get_type_from_wii_ext ext_type) = 1 ↔
      (ext_type.take 6 = [0x00, 0x00, 0xA4, 0x20, 0x00, 0x00] ∨
       ext_type.take 6 = [0x00, 0x00, 0xA4, 0x20, 0x01, 0x01] ∨
       ext_type.take 6 = [0x01, 0x00, 0xA4, 0x20, 0x01, 0x01] ∨
       ext_type.take 6 = [0x00, 0x00, 0xA4, 0x20, 0x01, 0x20])) := by
  refine ⟨by decide, by decide, ?_, ?_⟩
  · simp only [bt_get_type_from_wii_ext, bt_wii_ext_type, bt_get_type_from_wii_ext_loop]
    split_ifs <;> simp
  · simp only [bt_get_type_from_wii_ext, bt_wii_ext_type, bt_get_type_from_wii_ext_loop,
      memcmp_eq, decide_eq_true_eq, List.take_succ_cons, List.take_zero]
    split_ifs with h1 h2 h3 h4
    · simp [h1, wii_wiiu_ctrl, WII_NUNCHUCK, WII_CORE, WII_CLASSIC, WIIU_PRO]
    · simp [h1, h2, wii_wiiu_ctrl, WII_NUNCHUCK, WII_CORE, WII_CLASSIC, WIIU_PRO]
    · simp [h1, h2, h3, wii_wiiu_ctrl, WII_NUNCHUCK, WII_CORE, WII_CLASSIC, WIIU_PRO]
    · simp [h1, h2, h3, h4, wii_wiiu_ctrl, WII_NUNCHUCK, WII_CORE, WII_CLASSIC, WIIU_PRO]
    · simp [h1, h2, h3, h4, wii_wiiu_ctrl, WII_NUNCHUCK, WII_CORE, WII_CLASSIC, WIIU_PRO]

/-! ### Start-up -/

/-- C38 fails for the ring buffer.  `bt_host_init` returns the non-zero code of
`esp_bt_controller_init` or of `esp_bt_controller_enable` when one of them fails,
issuing nothing; it returns 0 and issues the controller reset (bring-up entry
0) when both succeed and the ring buffer is created; but when both succeed and
`xRingbufferCreate` returns `NULL` it returns 0 as well (the value `ret` still holds
from the successful enable), having registered the callbacks and set the ready
flag, with no queue, no sender task and no command. -/
theorem bt_host_init_ringbuf_failure_returns_zero (err : Int) :
    bt_host_init host_zero env_no_ringbuf =
      some { ret := 0, bt_flags := atomic_set_bit 0 BT_CTRL_READY, txq_hdl := none,
             callback_registered := true, tx_task_created := false, cmds := [] } ∧
    bt_host_init host_zero env_all_ok =
      some { ret := 0, bt_flags := atomic_set_bit 0 BT_CTRL_READY,
             txq_hdl := some txq_hdl_init, callback_registered := true,
             tx_task_created := true, cmds := [reset_call] } ∧
    (err ≠ 0 → (bt_host_init host_zero { env_all_ok with esp_bt_controller_init := err }).map
      (fun r => (r.ret, r.cmds)) = some (err, [])) ∧
    (err ≠ 0 → (bt_host_init host_zero { env_all_ok with esp_bt_controller_enable := err }).map
      (fun r => (r.ret, r.cmds)) = some (err, [])) ∧
    (∀ env r, bt_host_init host_zero env = some r → r.cmds ≠ [] →
      env.esp_bt_controller_init = ESP_OK ∧ env.esp_bt_controller_enable = ESP_OK ∧
      env.ringbuf_created = true ∧ r.ret = 0 ∧ r.cmds = [reset_call]) ∧
    (∀ env r, bt_host_init host_zero env = some r →
      env.esp_bt_controller_init = ESP_OK → env.esp_bt_controller_enable = ESP_OK →
      env.ringbuf_created = false → r.ret = 0 ∧ r.cmds = []) := by
  refine ⟨by decide, by decide, ?_, ?_, ?_, ?_⟩
  · intro herr
    simp [bt_host_init, env_all_ok, ESP_OK, ESP_ERR_NVS_NO_FREE_PAGES, herr]
  · intro herr
    simp [bt_host_init, env_all_ok, ESP_OK, ESP_ERR_NVS_NO_FREE_PAGES, herr]
  · intro env r h hc
    unfold bt_host_init at h
    by_cases c1 : env.nvs_flash_init = ESP_ERR_NVS_NO_FREE_PAGES ∧ env.nvs_flash_erase ≠ ESP_OK
    · rw [if_pos c1] at h; exact Option.noConfusion h
    rw [if_neg c1] at h
    by_cases c2 : (if env.nvs_flash_init = ESP_ERR_NVS_NO_FREE_PAGES then env.nvs_flash_init_again
        else env.nvs_flash_init) ≠ ESP_OK
    · rw [if_pos c2] at h; exact Option.noConfusion h
    rw [if_neg c2] at h
    by_cases c3 : env.esp_bt_controller_init ≠ ESP_OK
    · rw [if_pos c3] at h; cases h; exact absurd rfl hc
    rw [if_neg c3] at h
    by_cases c4 : env.esp_bt_controller_enable ≠ ESP_OK
    · rw [if_pos c4] at h; cases h; exact absurd rfl hc
    rw [if_neg c4] at h
    by_cases c5 : env.ringbuf_created = false
    · rw [if_pos c5] at h; cases h; exact absurd rfl hc
    rw [if_neg c5] at h
    cases h
    exact ⟨not_not.mp c3, not_not.mp c4, by simpa using c5, not_not.mp c4, rfl⟩
  · intro env r h hi he hrb
    unfold bt_host_init at h
    by_cases c1 : env.nvs_flash_init = ESP_ERR_NVS_NO_FREE_PAGES ∧ env.nvs_flash_erase ≠ ESP_OK
    · rw [if_pos c1] at h; exact Option.noConfusion h
    rw [if_neg c1] at h
    by_cases c2 : (if env.nvs_flash_init = ESP_ERR_NVS_NO_FREE_PAGES then env.nvs_flash_init_again
        else env.nvs_flash_init) ≠ ESP_OK
    · rw [if_pos c2] at h; exact Option.noConfusion h
    rw [if_neg c2, if_neg (not_not.mpr hi), if_neg (not_not.mpr he), if_pos hrb] at h
    cases h
    exact ⟨he, rfl⟩

/-! ### Console detection -/

/-- The test `io & BIT(n)` of `detect_intr` holds exactly when bit `n` of `io` is set. -/
theorem and_BIT_ne_zero_iff (io n : Nat) : io &&& BIT n ≠ 0 ↔ io.testBit n = true := by
  unfold BIT
  rw [Nat.one_shiftLeft]
  constructor
  · intro h
    by_contra hb
    apply h
    apply Nat.eq_of_testBit_eq
    intro j
    rw [Nat.testBit_and, Nat.testBit_two_pow, Nat.zero_testBit]
    by_cases hj : n = j
    · subst hj; simp [hb]
    · simp [hj]
  · intro hb h
    have := congrArg (fun x => x.testBit n) h
    simp [Nat.testBit_and, Nat.testBit_two_pow, hb] at this

/-- C39. Console detection is sticky: for every pair of interrupt status words, when
`wired_adapter.system_id` is different from `WIRED_NONE` before `detect_intr` runs it
has the same value afterwards; and, whatever `system_id` is, each status word
that is non-zero is written back to its clear register (and a zero one is not
written). -/
theorem detect_intr_sticky (system_id : wired_system_id) (low_io high_io : Nat) :
    (system_id ≠ .WIRED_NONE → (detect_intr system_id low_io high_io).system_id = system_id) ∧
    (high_io ≠ 0 → (detect_intr system_id low_io high_io).status1_w1tc = some high_io) ∧
    (low_io ≠ 0 → (detect_intr system_id low_io high_io).status_w1tc = some low_io) ∧
    (high_io = 0 → (detect_intr system_id low_io high_io).status1_w1tc = none) ∧
    (low_io = 0 → (detect_intr system_id low_io high_io).status_w1tc = none) := by
  refine ⟨fun h => ?_, fun h => ?_, fun h => ?_, fun h => ?_, fun h => ?_⟩
  · simp only [detect_intr, if_neg h]
    split_ifs <;> rfl
  · simp only [detect_intr, if_pos h]
  · simp only [detect_intr, if_pos h]
  · simp only [detect_intr, h, ne_eq, not_true_eq_false, if_false]
  · simp only [detect_intr, h, ne_eq, not_true_eq_false, if_false]

/-- C40. Console detection priority: when `system_id` is `WIRED_NONE` and `detect_intr`
runs with high-bank status `h` and low-bank status `l`, the result is decided by
the first test that holds in this order: bit 3 of `h` (pin 35, GENESIS), bit 2
(pin 34, PSX), bit 1 (pin 33, PCE), bit 0 (pin 32, NES), whatever `l` is; then
bit 25 of `l` (WII_EXT), bit 22 (DC), bit 21 (GC), bit 19 (N64); and it stays
`WIRED_NONE` when none holds, whatever the other bits of `h` and `l` are. -/
theorem detect_intr_priority (l h : Nat) :
    (detect_intr .WIRED_NONE l h).system_id =
      if h.testBit 3 then .GENESIS
      else if h.testBit 2 then .PSX
      else if h.testBit 1 then .PCE
      else if h.testBit 0 then .NES
      else if l.testBit 25 then .WII_EXT
      else if l.testBit 22 then .DC
      else if l.testBit 21 then .GC
      else if l.testBit 19 then .N64
      else .WIRED_NONE := by
  have hz : ∀ n, (0 : Nat).testBit n = false := Nat.zero_testBit
  by_cases hh : h = 0 <;> by_cases hl : l = 0
  · subst hh; subst hl
    simp [detect_intr]
  · subst hh
    simp only [detect_intr, ne_eq, not_true_eq_false, if_false, hl, not_false_eq_true, if_true,
      detect_pin_low, system_id_low, detect_loop, and_BIT_ne_zero_iff, Nat.sub_zero, hz]
    split_ifs <;> simp_all
  · subst hl
    simp only [detect_intr, ne_eq, not_true_eq_false, if_false, hh, not_false_eq_true, if_true,
      detect_pin_high, system_id_high, detect_loop, and_BIT_ne_zero_iff, Nat.reduceSub, hz]
    split_ifs <;> simp_all
  · simp only [detect_intr, ne_eq, hh, hl, not_false_eq_true, if_true,
      detect_pin_high, system_id_high, detect_pin_low, system_id_low, detect_loop,
      and_BIT_ne_zero_iff, Nat.reduceSub, Nat.sub_zero]
    split_ifs <;> simp_all

end BlueRetro
